import Mathlib

/-!
Energy-trading chaincode: a shallow embedding of `chaincode-go`.

The Go handlers of `write_ledger.go` and `read_ledger.go` are embedded as pure
functions over an explicit ledger state.  A Go string is a sequence of bytes,
valid UTF-8 or not; it is carried by the Lean string whose characters are
those bytes (code points 0 to 255), so that `len` is the number of characters
and ASCII text is carried by itself.  `int64` values are integers that
every producer keeps in the 64-bit range, `int` is 64 bits wide, and the clock
is an explicit argument: `clock k` is the `k`-th reading of `time.Now()` within
one invocation.  Output on standard output is left out.  Functions of the Go
standard library and of the Fabric shim that the repository only calls are
either modelled here from their documented behaviour (`strconv.ParseInt`,
`strconv.FormatInt`, the struct mapping of `encoding/json` and its coercion of
strings to valid UTF-8, the ledger stub)
or taken as parameters (`GoLib`: float conversion, quoting, JSON scanning).
-/

namespace EnergyTrading

/-! ## `strconv`: integers -/

deriving instance DecidableEq for Except

/-- Go's `len(s)`: the number of bytes of the string (a character carries one byte). -/
def len (s : String) : Nat := s.length

/-- The two errors of `strconv` (`ErrSyntax`, `ErrRange`). -/
inductive NumErrKind
  | invalid
  | outOfRange
  deriving DecidableEq, Repr

/-- A `*strconv.NumError`: the failing function, its input and the error. -/
structure NumError where
  func : String
  num : String
  kind : NumErrKind
  deriving DecidableEq, Repr

def maxUint64 : Nat := 2 ^ 64 - 1

def minInt64 : Int := -(2 ^ 63)

def maxInt64 : Int := 2 ^ 63 - 1

/-- The value is an `int64`. -/
def isInt64 (n : Int) : Prop := minInt64 ≤ n ∧ n ≤ maxInt64

instance (n : Int) : Decidable (isInt64 n) := by
  unfold isInt64; infer_instance

/-- The digit loop of `strconv.ParseUint(s, 10, 64)` with accumulator `n`
(a `uint64`): a byte that is no decimal digit is a syntax error, an overflow
of `n * 10` or of `n + d` is a range error. -/
def parseUintLoop : Nat → List Char → Except NumErrKind Nat
  | n, [] => .ok n
  | n, c :: cs =>
    if 48 ≤ c.toNat ∧ c.toNat ≤ 57 then
      let d := c.toNat - 48
      if n ≥ maxUint64 / 10 + 1 then .error .outOfRange
      else
        let n10 := (n * 10) % 2 ^ 64
        let n1 := (n10 + d) % 2 ^ 64
        if n1 < n10 ∨ n1 > maxUint64 then .error .outOfRange
        else parseUintLoop n1 cs
    else .error .invalid

/-- `strconv.ParseUint(s, 10, 64)` on the bytes of `s`. -/
def parseUint (cs : List Char) : Except NumErrKind Nat :=
  if cs = [] then .error .invalid else parseUintLoop 0 cs

/-- `strconv.ParseInt(s, 10, 64)`, error kind only. -/
def parseIntKind (s : String) : Except NumErrKind Int :=
  match s.toList with
  | [] => .error .invalid
  | c :: cs =>
    let neg := c = '-'
    let rest := if c = '+' ∨ c = '-' then cs else c :: cs
    match parseUint rest with
    | .error .invalid => .error .invalid
    | .error .outOfRange => .error .outOfRange
    | .ok un =>
      if ¬ neg ∧ un ≥ 2 ^ 63 then .error .outOfRange
      else if neg ∧ un > 2 ^ 63 then .error .outOfRange
      else .ok (if neg then -(un : Int) else (un : Int))

/-- `strconv.ParseInt(s, 10, 64)`. -/
def ParseInt (s : String) : Except NumError Int :=
  match parseIntKind s with
  | .ok n => .ok n
  | .error k => .error ⟨"ParseInt", s, k⟩

/-- The decimal digits of `n`, most significant first; `fuel` bounds the
number of digits. -/
def decDigits : Nat → Nat → List Char
  | 0, _ => []
  | fuel + 1, n =>
    if n < 10 then [Char.ofNat (48 + n)]
    else decDigits fuel (n / 10) ++ [Char.ofNat (48 + n % 10)]

/-- `strconv.FormatUint(n, 10)`. -/
def formatUint (n : Nat) : List Char := decDigits (n + 1) n

/-- `strconv.FormatInt(i, 10)`. -/
def FormatInt (i : Int) : String :=
  if i < 0 then String.mk ('-' :: formatUint i.natAbs) else String.mk (formatUint i.natAbs)

/-- `strconv.Itoa(i)` is `FormatInt(int64(i), 10)`; with a 64-bit `int` the
conversion `int(x)` of an `int64` is the identity. -/
def Itoa (i : Int) : String := FormatInt i

/-! ## Floats and the library functions taken as parameters -/

/-- A `float64` as far as the chaincode can observe it.  The handlers never
compute with floats: they parse them, store them and load them back, and
`json.Marshal` tells finite values from NaN and the infinities.  A finite
value is named by its IEEE-754 bit pattern. -/
inductive Float64
  | nan
  | inf (neg : Bool)
  | fin (bits : Nat)
  deriving DecidableEq, Repr

instance : Inhabited Float64 := ⟨.fin 0⟩

/-- Neither NaN nor an infinity. -/
def Float64.isFinite : Float64 → Bool
  | .fin _ => true
  | _ => false

/-- A member value of a JSON object, as `encoding/json` sees it when it fills a
struct of scalar fields: a number is kept as its literal, a nested array or
object only as its kind. -/
inductive JAtom
  | null
  | bool (b : Bool)
  | num (lit : String)
  | str (s : String)
  | array
  | object
  deriving DecidableEq, Repr

/-- A JSON document: an object with its members in order, or another value. -/
inductive JDoc
  | atom (a : JAtom)
  | obj (members : List (String × JAtom))
  deriving DecidableEq, Repr

/-- Functions of the Go standard library that the chaincode calls and that are
not modelled here: every theorem holds for every choice of them. -/
structure GoLib where
  /-- The result pair of `strconv.ParseFloat(s, 64)`: value and error. -/
  parseFloat : String → Float64 × Option NumErrKind
  /-- The number literal `json.Marshal` writes for a finite `float64`. -/
  formatFloat : Float64 → String
  /-- The function `strconv.Quote`. -/
  quote : String → String
  /-- The JSON scanner of `encoding/json` on bytes that are given as text:
  the document read, or the message of the syntax error. -/
  scan : String → Except String JDoc
  /-- The case folding `encoding/json` applies to member names. -/
  foldName : String → String
  /-- The message of a `json.UnmarshalTypeError` for a JSON value and a field. -/
  typeErrorText : String → String → String

/-- The method `(*NumError).Error`. -/
def NumError.Error (L : GoLib) (e : NumError) : String :=
  "strconv." ++ e.func ++ ": parsing " ++ L.quote e.num ++ ": " ++
    (match e.kind with
     | .invalid => "invalid syntax"
     | .outOfRange => "value out of range")

/-- `strconv.ParseFloat(s, 64)`: the value and the error. -/
def ParseFloat (L : GoLib) (s : String) : Float64 × Option NumError :=
  ((L.parseFloat s).1, (L.parseFloat s).2.map (fun k => ⟨"ParseFloat", s, k⟩))

/-! ## The ledger stub -/

/-- A byte slice held by the ledger or returned to a caller: the bytes of a
text (`[]byte(value)` in `Write`; the empty text is the nil slice), or the
bytes `json.Marshal` wrote for a document. -/
inductive Bytes
  | text (s : String)
  | json (doc : JDoc)
  deriving DecidableEq, Repr

/-- `len(b) == 0`. -/
def Bytes.isEmpty : Bytes → Bool
  | .text s => decide (s = "")
  | .json _ => false

/-- The world state: `GetState` yields nil for a key without value.  The stub
is the in-memory one of a single transaction (as `shimtest.MockStub`): reads
do not fail, and a write fails only for the empty key. -/
abbrev Store := String → Option Bytes

/-- The ledger with no key. -/
def emptyStore : Store := fun _ => none

/-- `stub.GetState(key)`. -/
def GetState (stub : Store) (key : String) : Option Bytes := stub key

/-- `stub.PutState(key, value)`: the empty key is refused, an empty value
deletes the key. -/
def PutState (stub : Store) (key : String) (value : Bytes) : Except String Store :=
  if key = "" then .error "key must not be an empty string"
  else if value.isEmpty then .ok (fun k => if k = key then none else stub k)
  else .ok (fun k => if k = key then some value else stub k)

/-- A `pb.Response`: `shim.Success(payload)` or `shim.Error(msg)`. -/
inductive Response
  | success (payload : Option Bytes)
  | error (msg : String)
  deriving DecidableEq, Repr

def Response.isSuccess : Response → Bool
  | .success _ => true
  | .error _ => false

/-- A reading of `time.Now()`: its `Unix()` and `UnixNano()`, both `int64`. -/
structure Time where
  unix : Int
  unixNano : Int
  unix_int64 : isInt64 unix
  unixNano_int64 : isInt64 unixNano

/-- The clock of one invocation: `clock k` is what the `k`-th call of
`time.Now()` (counted from 0) returns. -/
abbrev Clock := Nat → Time

/-! ## Records (`energyTradingBasic.go`) -/

structure User where
  ID : Int := 0
  Category : Int := 0
  CreatedOn : Int := 0
  UpdatedOn : Int := 0
  Location : String := ""
  MeterId : String := ""
  Source : Int := 0
  deriving DecidableEq, Repr, Inhabited

structure PlatformContract where
  UserID : Int := 0
  CreatedOn : Int := 0
  UpdatedOn : Int := 0
  deriving DecidableEq, Repr, Inhabited

structure Order where
  BidMatchID : Int := 0
  BidStatus : Int := 0
  CreatedOn : Int := 0
  ID : Int := 0
  OnMarketPrice : String := ""
  OrderCost : Float64 := .fin 0
  PaymentID : Int := 0
  SlotID : String := ""
  SlotExecDate : Int := 0
  TotalQuantity : Int := 0
  UnitCost : Float64 := .fin 0
  UpdatedOn : Int := 0
  UserAction : Int := 0
  UserID : Int := 0
  deriving DecidableEq, Repr, Inhabited

structure BidMatch where
  BidMatchTms : Int := 0
  BidSlot : String := ""
  BidStatus : Int := 0
  BidUnitPrice : Int := 0
  BuyerUserId : Int := 0
  DeliveredBidUnits : Float64 := .fin 0
  ID : Int := 0
  OriginalBidUnits : Float64 := .fin 0
  SellerUserId : Int := 0
  TransactionBuyID : Int := 0
  TransactionSellID : Int := 0
  deriving DecidableEq, Repr, Inhabited

structure Payment where
  CreatedOn : Int := 0
  ID : String := ""
  PaymentDetailId : Int := 0
  PaymentType : Int := 0
  TotalAmount : Float64 := .fin 0
  UserID : Int := 0
  deriving DecidableEq, Repr, Inhabited

structure PaymentDetail where
  ID : Int := 0
  DebitedFrom : String := ""
  CreditedTo : String := ""
  TotalUnitCost : Float64 := .fin 0
  PlatformFee : Float64 := .fin 0
  TokenAmount : Float64 := .fin 0
  BidRefundAmount : Float64 := .fin 0
  PlatformFeeRefundAmount : Float64 := .fin 0
  TokenAmountRefund : Float64 := .fin 0
  PenaltyFromSeller : Float64 := .fin 0
  deriving DecidableEq, Repr, Inhabited

/-! ## Enumerations (`energyTradingBasic.go`) -/

def BidCreated : Int := 0
def BidAccepted : Int := 1
def BidRejected : Int := 2
def BidExecuted : Int := 3
def BidTerminated : Int := 4

def energyBidMap : List (String × Int) :=
  [("BidCreated", BidCreated), ("BidAccepted", BidAccepted), ("BidRejected", BidRejected),
   ("BidExecuted", BidExecuted), ("BidTerminated", BidTerminated)]

def Solar : Int := 0
def Wind : Int := 1
def DGSet : Int := 2
def Battery : Int := 3

def energySourceMap : List (String × Int) :=
  [("Solar", Solar), ("Wind", Wind), ("DG Set", DGSet), ("Battery", Battery)]

def Buy : Int := 0
def Sell : Int := 1

def actionMap : List (String × Int) := [("Buy", Buy), ("Sell", Sell)]

def Prosumer : Int := 0
def Consumer : Int := 1

def userCategoryMap : List (String × Int) := [("Prosumer", Prosumer), ("Consumer", Consumer)]

def WalletRecharge : Int := 0
def SellerTokenAmount : Int := 1
def BuyerEnergyPurchased : Int := 2
def BuyerSellerIncentive : Int := 3
def SellerEnergySoldTokenRefund : Int := 4

def paymentTypeMap : List (String × Int) :=
  [("WalletRecharge", WalletRecharge), ("Seller - Token Amount", SellerTokenAmount),
   ("Buyer - Energy Purchased", BuyerEnergyPurchased),
   ("Buyer/Seller - Incentive", BuyerSellerIncentive),
   ("Seller - Energy Sold plus Token Refund", SellerEnergySoldTokenRefund)]

/-- The index expression `[]string{...}[status]` of the `...String` functions:
the element, or `none` where Go panics (index out of range). -/
def indexLabels (labels : List String) (status : Int) : Option String :=
  if 0 ≤ status then labels[status.toNat]? else none

def EnergyBidStatusString (status : Int) : Option String :=
  indexLabels ["BidCreated", "BidAccepted", "BidRejected", "BidExecuted", "BidTerminated"] status

def EnergySourceString (status : Int) : Option String :=
  indexLabels ["Solar", "Wind", "DG Set", "Battery"] status

def ActionString (status : Int) : Option String :=
  indexLabels ["Buy", "Sell"] status

def UserCategoryString (status : Int) : Option String :=
  indexLabels ["Prosumer", "Consumer"] status

def PaymentTypeString (status : Int) : Option String :=
  indexLabels ["WalletRecharge", "Seller - Token Amount", "Buyer - Energy Purchased",
    "Buyer/Seller - Incentive", "Seller - Energy Sold plus Token Refund"] status

/-! ## Strings in `encoding/json`

`json.Marshal` writes a string byte by byte: where `utf8.DecodeRuneInString`
finds no valid UTF-8 sequence at a byte, it writes U+FFFD for that one byte
and goes on at the next byte; a valid sequence is written as it is.  (Escapes
are undone by `json.Unmarshal` and do not show in the string value.) -/

/-- The three bytes of U+FFFD in UTF-8. -/
def replacementBytes : List Char := [Char.ofNat 0xEF, Char.ofNat 0xBF, Char.ofNat 0xBD]

/-- The string value written for the rest of a string, where `buf` holds the bytes
read so far of a sequence that is valid up to here, `need` is the number of
continuation bytes it still lacks and `lo` to `hi` is the range `unicode/utf8`
accepts for the next one.  When the sequence breaks, every byte of `buf` is
replaced (the first begins no valid sequence, the others are continuation
bytes), and the byte at hand is looked at as a first byte. -/
def coerceUTF8 : List Char → Nat → Nat → Nat → List Char → List Char
  | buf, _, _, _, [] => buf.flatMap (fun _ => replacementBytes)
  | buf, need, lo, hi, c :: rest =>
    if need ≠ 0 ∧ lo ≤ c.toNat ∧ c.toNat ≤ hi then
      if need = 1 then buf ++ c :: coerceUTF8 [] 0 0 0 rest
      else coerceUTF8 (buf ++ [c]) (need - 1) 0x80 0xBF rest
    else
      buf.flatMap (fun _ => replacementBytes) ++
        (if c.toNat < 0x80 then c :: coerceUTF8 [] 0 0 0 rest
         else if 0xC2 ≤ c.toNat ∧ c.toNat ≤ 0xDF then coerceUTF8 [c] 1 0x80 0xBF rest
         else if c.toNat = 0xE0 then coerceUTF8 [c] 2 0xA0 0xBF rest
         else if c.toNat = 0xED then coerceUTF8 [c] 2 0x80 0x9F rest
         else if 0xE1 ≤ c.toNat ∧ c.toNat ≤ 0xEF then coerceUTF8 [c] 2 0x80 0xBF rest
         else if c.toNat = 0xF0 then coerceUTF8 [c] 3 0x90 0xBF rest
         else if c.toNat = 0xF4 then coerceUTF8 [c] 3 0x80 0x8F rest
         else if 0xF1 ≤ c.toNat ∧ c.toNat ≤ 0xF3 then coerceUTF8 [c] 3 0x80 0xBF rest
         else replacementBytes ++ coerceUTF8 [] 0 0 0 rest)

/-- The value of the JSON string that `json.Marshal` writes for the Go string `s`, which
is what `json.Unmarshal` reads back: `s` with U+FFFD in place of each byte that is not
part of a valid UTF-8 sequence. -/
def toValidUTF8 (s : String) : String := String.mk (coerceUTF8 [] 0 0 0 s.data)

/-- The string is valid UTF-8: `json.Marshal` writes it as it is. -/
def validUTF8 (s : String) : Prop := toValidUTF8 s = s

instance (s : String) : Decidable (validUTF8 s) := by
  unfold validUTF8; infer_instance

/-! ## `encoding/json` on the six record types

`json.Marshal` writes the fields of a struct in declaration order under the
names of their `json` tags; `json.Unmarshal` fills the fields the members of
an object select (exact name first, then a name equal under case folding),
leaves a field alone on `null`, and reports a value of the wrong kind. -/

def JAtom.describe : JAtom → String
  | .null => "null"
  | .bool _ => "bool"
  | .num lit => "number " ++ lit
  | .str _ => "string"
  | .array => "array"
  | .object => "object"

/-- The errors of `json.Unmarshal`: a syntax error of the scanner, or a JSON
value that does not fit the Go field it selects. -/
inductive JsonError
  | malformed (msg : String)
  | typeMismatch (value : String) (field : String)
  deriving DecidableEq, Repr

def JsonError.Error (L : GoLib) : JsonError → String
  | .malformed m => m
  | .typeMismatch v f => L.typeErrorText v f

/-- Storing a JSON value into an `int64` field (also the enumeration types,
whose kind is `int64`). -/
def storeInt (field : String) (a : JAtom) (old : Int) : Except JsonError Int :=
  match a with
  | .null => .ok old
  | .num lit =>
    match parseIntKind lit with
    | .ok n => .ok n
    | .error _ => .error (.typeMismatch ("number " ++ lit) field)
  | other => .error (.typeMismatch other.describe field)

/-- Storing a JSON value into a `float64` field. -/
def storeFloat (L : GoLib) (field : String) (a : JAtom) (old : Float64) :
    Except JsonError Float64 :=
  match a with
  | .null => .ok old
  | .num lit =>
    match L.parseFloat lit with
    | (f, none) => .ok f
    | (_, some _) => .error (.typeMismatch ("number " ++ lit) field)
  | other => .error (.typeMismatch other.describe field)

/-- Storing a JSON value into a `string` field. -/
def storeString (field : String) (a : JAtom) (old : String) : Except JsonError String :=
  match a with
  | .null => .ok old
  | .str s => .ok s
  | other => .error (.typeMismatch other.describe field)

/-- The field a member name selects among the tag names of a struct. -/
def findField (L : GoLib) (names : List String) (key : String) : Option String :=
  if key ∈ names then some key
  else names.find? (fun n => decide (L.foldName n = L.foldName key))

/-- Filling a struct from the members of an object, in order; members that
select no field are skipped. -/
def decodeMembers {α : Type} (L : GoLib) (names : List String)
    (set : α → String → JAtom → Except JsonError α) :
    List (String × JAtom) → α → Except JsonError α
  | [], x => .ok x
  | (k, a) :: ms, x =>
    match findField L names k with
    | none => decodeMembers L names set ms x
    | some f =>
      match set x f a with
      | .ok y => decodeMembers L names set ms y
      | .error e => .error e

/-- Filling a struct value `zero` from a document. -/
def decodeDoc {α : Type} (L : GoLib) (names : List String)
    (set : α → String → JAtom → Except JsonError α) (zero : α) (typeName : String) :
    JDoc → Except JsonError α
  | .atom .null => .ok zero
  | .atom a => .error (.typeMismatch a.describe typeName)
  | .obj ms => decodeMembers L names set ms zero

/-- `json.Unmarshal(b, &x)` for a struct `x` holding `zero`: the filled struct
or the text of the error. -/
def Unmarshal {α : Type} (L : GoLib) (names : List String)
    (set : α → String → JAtom → Except JsonError α) (zero : α) (typeName : String) :
    Bytes → Except String α
  | .text s =>
    match L.scan s with
    | .error m => .error m
    | .ok d =>
      match decodeDoc L names set zero typeName d with
      | .ok x => .ok x
      | .error e => .error (e.Error L)
  | .json d =>
    match decodeDoc L names set zero typeName d with
    | .ok x => .ok x
    | .error e => .error (e.Error L)

def jInt (n : Int) : JAtom := .num (FormatInt n)

def jFloat (L : GoLib) (f : Float64) : JAtom := .num (L.formatFloat f)

/-! ### User -/

def User.fieldNames : List String :=
  ["id", "category", "createdOn", "updatedOn", "location", "meterId", "source"]

def User.encode (u : User) : List (String × JAtom) :=
  [("id", jInt u.ID), ("category", jInt u.Category), ("createdOn", jInt u.CreatedOn),
   ("updatedOn", jInt u.UpdatedOn), ("location", .str (toValidUTF8 u.Location)),
   ("meterId", .str (toValidUTF8 u.MeterId)), ("source", jInt u.Source)]

def User.setField (u : User) (name : String) (a : JAtom) : Except JsonError User :=
  if name = "id" then (storeInt "User.id" a u.ID).map (fun v => { u with ID := v })
  else if name = "category" then
    (storeInt "User.category" a u.Category).map (fun v => { u with Category := v })
  else if name = "createdOn" then
    (storeInt "User.createdOn" a u.CreatedOn).map (fun v => { u with CreatedOn := v })
  else if name = "updatedOn" then
    (storeInt "User.updatedOn" a u.UpdatedOn).map (fun v => { u with UpdatedOn := v })
  else if name = "location" then
    (storeString "User.location" a u.Location).map (fun v => { u with Location := v })
  else if name = "meterId" then
    (storeString "User.meterId" a u.MeterId).map (fun v => { u with MeterId := v })
  else if name = "source" then
    (storeInt "User.source" a u.Source).map (fun v => { u with Source := v })
  else .ok u

/-- `json.Marshal(user)`. -/
def marshalUser (u : User) : Bytes := .json (.obj u.encode)

/-- `json.Unmarshal(b, &user)` with `var user User`. -/
def unmarshalUser (L : GoLib) (b : Bytes) : Except String User :=
  Unmarshal L User.fieldNames User.setField default "User" b

/-! ### PlatformContract -/

def PlatformContract.fieldNames : List String := ["userId", "createdOn", "updatedOn"]

def PlatformContract.encode (c : PlatformContract) : List (String × JAtom) :=
  [("userId", jInt c.UserID), ("createdOn", jInt c.CreatedOn), ("updatedOn", jInt c.UpdatedOn)]

/-- `json.Marshal(contract)`. -/
def marshalPlatformContract (c : PlatformContract) : Bytes := .json (.obj c.encode)

def PlatformContract.setField (c : PlatformContract) (name : String) (a : JAtom) :
    Except JsonError PlatformContract :=
  if name = "userId" then
    (storeInt "PlatformContract.userId" a c.UserID).map (fun v => { c with UserID := v })
  else if name = "createdOn" then
    (storeInt "PlatformContract.createdOn" a c.CreatedOn).map (fun v => { c with CreatedOn := v })
  else if name = "updatedOn" then
    (storeInt "PlatformContract.updatedOn" a c.UpdatedOn).map (fun v => { c with UpdatedOn := v })
  else .ok c

/-- `json.Unmarshal(b, &contract)` with `var contract PlatformContract`. -/
def unmarshalPlatformContract (L : GoLib) (b : Bytes) : Except String PlatformContract :=
  Unmarshal L PlatformContract.fieldNames PlatformContract.setField default "PlatformContract" b

/-! ### Order -/

def Order.fieldNames : List String :=
  ["bidMatchId", "bidStatus", "createdOn", "id", "onMarketPrice", "status", "paymentId",
   "slotId", "slotExecDate", "totalQuantity", "unitCost", "updatedOn", "action", "userId"]

def Order.encode (L : GoLib) (o : Order) : List (String × JAtom) :=
  [("bidMatchId", jInt o.BidMatchID), ("bidStatus", jInt o.BidStatus),
   ("createdOn", jInt o.CreatedOn), ("id", jInt o.ID),
   ("onMarketPrice", .str (toValidUTF8 o.OnMarketPrice)), ("status", jFloat L o.OrderCost),
   ("paymentId", jInt o.PaymentID), ("slotId", .str (toValidUTF8 o.SlotID)),
   ("slotExecDate", jInt o.SlotExecDate), ("totalQuantity", jInt o.TotalQuantity),
   ("unitCost", jFloat L o.UnitCost), ("updatedOn", jInt o.UpdatedOn),
   ("action", jInt o.UserAction), ("userId", jInt o.UserID)]

def Order.setField (L : GoLib) (o : Order) (name : String) (a : JAtom) :
    Except JsonError Order :=
  if name = "bidMatchId" then
    (storeInt "Order.bidMatchId" a o.BidMatchID).map (fun v => { o with BidMatchID := v })
  else if name = "bidStatus" then
    (storeInt "Order.bidStatus" a o.BidStatus).map (fun v => { o with BidStatus := v })
  else if name = "createdOn" then
    (storeInt "Order.createdOn" a o.CreatedOn).map (fun v => { o with CreatedOn := v })
  else if name = "id" then (storeInt "Order.id" a o.ID).map (fun v => { o with ID := v })
  else if name = "onMarketPrice" then
    (storeString "Order.onMarketPrice" a o.OnMarketPrice).map
      (fun v => { o with OnMarketPrice := v })
  else if name = "status" then
    (storeFloat L "Order.status" a o.OrderCost).map (fun v => { o with OrderCost := v })
  else if name = "paymentId" then
    (storeInt "Order.paymentId" a o.PaymentID).map (fun v => { o with PaymentID := v })
  else if name = "slotId" then
    (storeString "Order.slotId" a o.SlotID).map (fun v => { o with SlotID := v })
  else if name = "slotExecDate" then
    (storeInt "Order.slotExecDate" a o.SlotExecDate).map (fun v => { o with SlotExecDate := v })
  else if name = "totalQuantity" then
    (storeInt "Order.totalQuantity" a o.TotalQuantity).map
      (fun v => { o with TotalQuantity := v })
  else if name = "unitCost" then
    (storeFloat L "Order.unitCost" a o.UnitCost).map (fun v => { o with UnitCost := v })
  else if name = "updatedOn" then
    (storeInt "Order.updatedOn" a o.UpdatedOn).map (fun v => { o with UpdatedOn := v })
  else if name = "action" then
    (storeInt "Order.action" a o.UserAction).map (fun v => { o with UserAction := v })
  else if name = "userId" then
    (storeInt "Order.userId" a o.UserID).map (fun v => { o with UserID := v })
  else .ok o

/-- `json.Marshal(order)`, the error dropped: NaN and the infinities are
unsupported values, and the bytes are then nil. -/
def marshalOrder (L : GoLib) (o : Order) : Bytes :=
  if o.OrderCost.isFinite ∧ o.UnitCost.isFinite then .json (.obj (o.encode L)) else .text ""

/-- `json.Unmarshal(b, &order)` with `var order Order`. -/
def unmarshalOrder (L : GoLib) (b : Bytes) : Except String Order :=
  Unmarshal L Order.fieldNames (Order.setField L) default "Order" b

/-! ### BidMatch -/

def BidMatch.fieldNames : List String :=
  ["bidMatchTms", "bidSlot", "bidStatus", "bidUnitPrice", "buyerUserId", "deliveredBidUnits",
   "id", "originalBidUnits", "sellerUserId", "transactionBuyId", "transactionSellId"]

def BidMatch.encode (L : GoLib) (m : BidMatch) : List (String × JAtom) :=
  [("bidMatchTms", jInt m.BidMatchTms), ("bidSlot", .str (toValidUTF8 m.BidSlot)),
   ("bidStatus", jInt m.BidStatus), ("bidUnitPrice", jInt m.BidUnitPrice),
   ("buyerUserId", jInt m.BuyerUserId), ("deliveredBidUnits", jFloat L m.DeliveredBidUnits),
   ("id", jInt m.ID), ("originalBidUnits", jFloat L m.OriginalBidUnits),
   ("sellerUserId", jInt m.SellerUserId), ("transactionBuyId", jInt m.TransactionBuyID),
   ("transactionSellId", jInt m.TransactionSellID)]

def BidMatch.setField (L : GoLib) (m : BidMatch) (name : String) (a : JAtom) :
    Except JsonError BidMatch :=
  if name = "bidMatchTms" then
    (storeInt "BidMatch.bidMatchTms" a m.BidMatchTms).map (fun v => { m with BidMatchTms := v })
  else if name = "bidSlot" then
    (storeString "BidMatch.bidSlot" a m.BidSlot).map (fun v => { m with BidSlot := v })
  else if name = "bidStatus" then
    (storeInt "BidMatch.bidStatus" a m.BidStatus).map (fun v => { m with BidStatus := v })
  else if name = "bidUnitPrice" then
    (storeInt "BidMatch.bidUnitPrice" a m.BidUnitPrice).map
      (fun v => { m with BidUnitPrice := v })
  else if name = "buyerUserId" then
    (storeInt "BidMatch.buyerUserId" a m.BuyerUserId).map (fun v => { m with BuyerUserId := v })
  else if name = "deliveredBidUnits" then
    (storeFloat L "BidMatch.deliveredBidUnits" a m.DeliveredBidUnits).map
      (fun v => { m with DeliveredBidUnits := v })
  else if name = "id" then (storeInt "BidMatch.id" a m.ID).map (fun v => { m with ID := v })
  else if name = "originalBidUnits" then
    (storeFloat L "BidMatch.originalBidUnits" a m.OriginalBidUnits).map
      (fun v => { m with OriginalBidUnits := v })
  else if name = "sellerUserId" then
    (storeInt "BidMatch.sellerUserId" a m.SellerUserId).map
      (fun v => { m with SellerUserId := v })
  else if name = "transactionBuyId" then
    (storeInt "BidMatch.transactionBuyId" a m.TransactionBuyID).map
      (fun v => { m with TransactionBuyID := v })
  else if name = "transactionSellId" then
    (storeInt "BidMatch.transactionSellId" a m.TransactionSellID).map
      (fun v => { m with TransactionSellID := v })
  else .ok m

/-- `json.Marshal(bidMatch)`, the error dropped. -/
def marshalBidMatch (L : GoLib) (m : BidMatch) : Bytes :=
  if m.DeliveredBidUnits.isFinite ∧ m.OriginalBidUnits.isFinite then .json (.obj (m.encode L))
  else .text ""

/-- `json.Unmarshal(b, &bidMatch)` with `var bidMatch BidMatch`. -/
def unmarshalBidMatch (L : GoLib) (b : Bytes) : Except String BidMatch :=
  Unmarshal L BidMatch.fieldNames (BidMatch.setField L) default "BidMatch" b

/-! ### Payment and PaymentDetail -/

def Payment.fieldNames : List String :=
  ["createdOn", "id", "paymentDetail", "paymentType", "totalAmount", "userId"]

def Payment.encode (L : GoLib) (p : Payment) : List (String × JAtom) :=
  [("createdOn", jInt p.CreatedOn), ("id", .str (toValidUTF8 p.ID)),
   ("paymentDetail", jInt p.PaymentDetailId),
   ("paymentType", jInt p.PaymentType), ("totalAmount", jFloat L p.TotalAmount),
   ("userId", jInt p.UserID)]

/-- `json.Marshal(p)`, the error dropped. -/
def marshalPayment (L : GoLib) (p : Payment) : Bytes :=
  if p.TotalAmount.isFinite then .json (.obj (p.encode L)) else .text ""

def PaymentDetail.fieldNames : List String :=
  ["id", "debitedFrom", "creditedTo", "totalUnitCost", "platformFee", "tokenAmount",
   "bidRefundAmount", "platformFeeRefundAmount", "tokenAmountRefund", "penaltyFromSeller"]

def PaymentDetail.encode (L : GoLib) (d : PaymentDetail) : List (String × JAtom) :=
  [("id", jInt d.ID), ("debitedFrom", .str (toValidUTF8 d.DebitedFrom)),
   ("creditedTo", .str (toValidUTF8 d.CreditedTo)),
   ("totalUnitCost", jFloat L d.TotalUnitCost), ("platformFee", jFloat L d.PlatformFee),
   ("tokenAmount", jFloat L d.TokenAmount), ("bidRefundAmount", jFloat L d.BidRefundAmount),
   ("platformFeeRefundAmount", jFloat L d.PlatformFeeRefundAmount),
   ("tokenAmountRefund", jFloat L d.TokenAmountRefund),
   ("penaltyFromSeller", jFloat L d.PenaltyFromSeller)]

/-- `json.Marshal(pd)`, the error dropped. -/
def marshalPaymentDetail (L : GoLib) (d : PaymentDetail) : Bytes :=
  if d.TotalUnitCost.isFinite ∧ d.PlatformFee.isFinite ∧ d.TokenAmount.isFinite ∧
      d.BidRefundAmount.isFinite ∧ d.PlatformFeeRefundAmount.isFinite ∧
      d.TokenAmountRefund.isFinite ∧ d.PenaltyFromSeller.isFinite then
    .json (.obj (d.encode L))
  else .text ""

def Payment.setField (L : GoLib) (p : Payment) (name : String) (a : JAtom) :
    Except JsonError Payment :=
  if name = "createdOn" then
    (storeInt "Payment.createdOn" a p.CreatedOn).map (fun v => { p with CreatedOn := v })
  else if name = "id" then (storeString "Payment.id" a p.ID).map (fun v => { p with ID := v })
  else if name = "paymentDetail" then
    (storeInt "Payment.paymentDetail" a p.PaymentDetailId).map
      (fun v => { p with PaymentDetailId := v })
  else if name = "paymentType" then
    (storeInt "Payment.paymentType" a p.PaymentType).map (fun v => { p with PaymentType := v })
  else if name = "totalAmount" then
    (storeFloat L "Payment.totalAmount" a p.TotalAmount).map
      (fun v => { p with TotalAmount := v })
  else if name = "userId" then
    (storeInt "Payment.userId" a p.UserID).map (fun v => { p with UserID := v })
  else .ok p

/-- `json.Unmarshal(b, &p)` with `var p Payment`. -/
def unmarshalPayment (L : GoLib) (b : Bytes) : Except String Payment :=
  Unmarshal L Payment.fieldNames (Payment.setField L) default "Payment" b

def PaymentDetail.setField (L : GoLib) (d : PaymentDetail) (name : String) (a : JAtom) :
    Except JsonError PaymentDetail :=
  if name = "id" then (storeInt "PaymentDetail.id" a d.ID).map (fun v => { d with ID := v })
  else if name = "debitedFrom" then
    (storeString "PaymentDetail.debitedFrom" a d.DebitedFrom).map
      (fun v => { d with DebitedFrom := v })
  else if name = "creditedTo" then
    (storeString "PaymentDetail.creditedTo" a d.CreditedTo).map
      (fun v => { d with CreditedTo := v })
  else if name = "totalUnitCost" then
    (storeFloat L "PaymentDetail.totalUnitCost" a d.TotalUnitCost).map
      (fun v => { d with TotalUnitCost := v })
  else if name = "platformFee" then
    (storeFloat L "PaymentDetail.platformFee" a d.PlatformFee).map
      (fun v => { d with PlatformFee := v })
  else if name = "tokenAmount" then
    (storeFloat L "PaymentDetail.tokenAmount" a d.TokenAmount).map
      (fun v => { d with TokenAmount := v })
  else if name = "bidRefundAmount" then
    (storeFloat L "PaymentDetail.bidRefundAmount" a d.BidRefundAmount).map
      (fun v => { d with BidRefundAmount := v })
  else if name = "platformFeeRefundAmount" then
    (storeFloat L "PaymentDetail.platformFeeRefundAmount" a d.PlatformFeeRefundAmount).map
      (fun v => { d with PlatformFeeRefundAmount := v })
  else if name = "tokenAmountRefund" then
    (storeFloat L "PaymentDetail.tokenAmountRefund" a d.TokenAmountRefund).map
      (fun v => { d with TokenAmountRefund := v })
  else if name = "penaltyFromSeller" then
    (storeFloat L "PaymentDetail.penaltyFromSeller" a d.PenaltyFromSeller).map
      (fun v => { d with PenaltyFromSeller := v })
  else .ok d

/-- `json.Unmarshal(b, &pd)` with `var pd PaymentDetail`. -/
def unmarshalPaymentDetail (L : GoLib) (b : Bytes) : Except String PaymentDetail :=
  Unmarshal L PaymentDetail.fieldNames (PaymentDetail.setField L) default "PaymentDetail" b

/-! ## `lib.go` -/

/-- The loop of `sanitize_arguments` from index `i` on: the error, if any. -/
def sanitizeFrom : Nat → List String → Option String
  | _, [] => none
  | i, val :: rest =>
    if len val ≤ 0 then some ("Argument " ++ Itoa i ++ " must be a non-empty string")
    else if len val > 256 then some ("Argument " ++ Itoa i ++ " must be <= 256 characters")
    else sanitizeFrom (i + 1) rest

/-- The function `sanitize_arguments`: nil (`none`) or the error message. -/
def sanitize_arguments (strs : List String) : Option String := sanitizeFrom 0 strs

/-- The value an `int` holds after an arithmetic operation whose mathematical
result is `x`: on the 64-bit platforms the chaincode runs on, `x` wrapped
around modulo `2^64` into the `int64` range. -/
def wrapInt (x : Int) : Int := (x + 2 ^ 63) % 2 ^ 64 - 2 ^ 63

/-- The function `add`: the returned value and the returned error (`none` for nil). -/
def add (b q : Int) : Int × Option String :=
  let sum := wrapInt (q + b)
  if decide (sum < q) = decide (b ≥ 0 ∧ q ≥ 0) then
    (0, some ("Math: addition overflow occurred " ++ FormatInt b ++ " + " ++ FormatInt q))
  else (sum, none)

/-- The function `sub`: the returned value and the returned error (`none` for nil). -/
def sub (b q : Int) : Int × Option String :=
  let diff := wrapInt (b - q)
  if decide (diff > b) = decide (b ≥ 0 ∧ q ≥ 0) then
    (0, some ("Math: Subtraction overflow occurred  " ++ FormatInt b ++ " - " ++ FormatInt q))
  else (diff, none)

/-! ## `write_ledger.go` -/

def Write (stub : Store) (args : List String) : Response × Store :=
  match args with
  | [key, value] =>
    match sanitize_arguments args with
    | some err => (.error err, stub)
    | none =>
      match PutState stub key (.text value) with
      | .error e => (.error e, stub)
      | .ok stub1 => (.success none, stub1)
  | _ =>
    (.error "Incorrect number of arguments. Expecting 2. key of the variable and value to set",
      stub)

def parseUserCategory (categoryStr : String) : Except String Int :=
  match userCategoryMap.lookup categoryStr with
  | some val => .ok val
  | none => .error "unknown user category"

def parseEnergySource (sourceStr : String) : Except String Int :=
  match energySourceMap.lookup sourceStr with
  | some val => .ok val
  | none => .error "unknown energy source"

def UpdateUserProfile (L : GoLib) (clock : Clock) (stub : Store) (args : List String) :
    Response × Store :=
  match args with
  | [a0, a1, a2, a3, a4] =>
    match sanitize_arguments args with
    | some err => (.error ("Invalid argument: " ++ err), stub)
    | none =>
      let userID := a0
      let existingUserAsBytes := GetState stub userID
      let loaded : Except String User :=
        match existingUserAsBytes with
        | none =>
          .ok { (default : User) with CreatedOn := (clock 0).unix, UpdatedOn := (clock 0).unix }
        | some b =>
          match unmarshalUser L b with
          | .error e => .error ("Failed to unmarshal user: " ++ e)
          | .ok u => .ok { u with UpdatedOn := (clock 0).unix }
      match loaded with
      | .error msg => (.error msg, stub)
      | .ok user0 =>
        match ParseInt userID with
        | .error e => (.error ("Failed to convert user ID: " ++ e.Error L), stub)
        | .ok id =>
          match parseUserCategory a1 with
          | .error e => (.error ("Invalid user category: " ++ e), stub)
          | .ok category =>
            match parseEnergySource a4 with
            | .error e => (.error ("Invalid energy source: " ++ e), stub)
            | .ok source =>
              let user : User :=
                { user0 with ID := id, Category := category, Location := a2, MeterId := a3,
                             Source := source }
              match PutState stub (Itoa user.ID) (marshalUser user) with
              | .error e => (.error ("Could not store user: " ++ e), stub)
              | .ok stub1 => (.success none, stub1)
  | _ => (.error "Incorrect number of arguments. Expecting 5", stub)

def SignPlatformContract (L : GoLib) (clock : Clock) (stub : Store) (args : List String) :
    Response × Store :=
  match args with
  | [userID] =>
    match GetState stub userID with
    | none => (.error ("User with ID " ++ userID ++ " not found"), stub)
    | some _ =>
      match ParseInt userID with
      | .error e => (.error ("Failed to convert user ID: " ++ e.Error L), stub)
      | .ok uid =>
        let contract : PlatformContract :=
          { UserID := uid, CreatedOn := (clock 0).unix, UpdatedOn := (clock 0).unix }
        match ParseInt userID with
        | .error e => (.error ("Failed to parse User ID: " ++ e.Error L), stub)
        | .ok parsedUserID =>
          let contractKey := "PlatformContract_" ++ FormatInt parsedUserID
          match PutState stub contractKey (marshalPlatformContract contract) with
          | .error e => (.error ("Could not store platform contract: " ++ e), stub)
          | .ok stub1 => (.success none, stub1)
  | _ => (.error "Incorrect number of arguments. Expecting 1 (UserID)", stub)

def RecordPayment (L : GoLib) (clock : Clock) (stub : Store) (args : List String) :
    Response × Store :=
  match args with
  | [a0, a1, a2, a3, a4, a5, a6, a7, a8, a9, a10, a11] =>
    let paymentID := a0
    match paymentTypeMap.lookup a1 with
    | none => (.error "Invalid payment type provided.", stub)
    | some paymentType =>
      match ParseFloat L a2 with
      | (_, some e) => (.error ("Failed to parse total amount: " ++ e.Error L), stub)
      | (totalAmount, none) =>
        match ParseInt a3 with
        | .error e => (.error ("Failed to parse user ID: " ++ e.Error L), stub)
        | .ok userID =>
          let penaltyFromSeller := (ParseFloat L a11).1
          let pd : PaymentDetail :=
            { ID := (clock 0).unixNano, DebitedFrom := a4, CreditedTo := a5,
              TotalUnitCost := (ParseFloat L a6).1, PlatformFee := (ParseFloat L a7).1,
              TokenAmount := (ParseFloat L a8).1, BidRefundAmount := (ParseFloat L a9).1,
              PlatformFeeRefundAmount := (ParseFloat L a10).1,
              TokenAmountRefund := penaltyFromSeller, PenaltyFromSeller := penaltyFromSeller }
          match PutState stub ("PaymentDetail_" ++ FormatInt pd.ID) (marshalPaymentDetail L pd) with
          | .error e => (.error ("Could not store payment detail: " ++ e), stub)
          | .ok stub1 =>
            let p : Payment :=
              { CreatedOn := (clock 1).unix, ID := paymentID, PaymentDetailId := pd.ID,
                PaymentType := paymentType, TotalAmount := totalAmount, UserID := userID }
            match PutState stub1 ("Payment_" ++ paymentID) (marshalPayment L p) with
            | .error e => (.error ("Could not store payment: " ++ e), stub1)
            | .ok stub2 => (.success none, stub2)
  | _ => (.error "Incorrect number of arguments. Expecting 12.", stub)

/-- The block `var order Order; if existingOrderAsBytes != nil ... else ...` of
`RegisterOrder`: the struct loaded or created, and the number of clock readings taken so
far; or the message of the error returned. -/
def RegisterOrder.load (L : GoLib) (clock : Clock) (existingOrderAsBytes : Option Bytes)
    (orderID : Int) : Except String (Order × Nat) :=
  match existingOrderAsBytes with
  | some b =>
    match unmarshalOrder L b with
    | .error e => .error ("Failed to unmarshal existing order: " ++ e)
    | .ok o => .ok (o, 0)
  | none => .ok ({ (default : Order) with CreatedOn := (clock 0).unix, ID := orderID }, 1)

def RegisterOrder (L : GoLib) (clock : Clock) (stub : Store) (args : List String) :
    Response × Store :=
  match args with
  | [a0, a1, a2, a3, a4, a5, a6, a7, a8, a9, a10, a11] =>
    match ParseInt a2 with
    | .error e => (.error ("Failed to parse order ID: " ++ e.Error L), stub)
    | .ok orderID =>
      let existingOrderAsBytes := GetState stub ("Order_" ++ FormatInt orderID)
      match RegisterOrder.load L clock existingOrderAsBytes orderID with
      | .error msg => (.error msg, stub)
      | .ok (order0, readings) =>
        match ParseInt a0 with
        | .error e => (.error ("Failed to parse BidMatchID: " ++ e.Error L), stub)
        | .ok bidMatchID =>
        match ParseInt a1 with
        | .error e => (.error ("Failed to parse BidStatus: " ++ e.Error L), stub)
        | .ok bidStatus =>
        if existingOrderAsBytes = none ∧ bidStatus ≠ 0 ∧ bidStatus ≠ 1 then
          (.error "Invalid BidStatus provided for new Order. It should be 0 or 1.", stub)
        else
        let onMarketPrice := a3
        match ParseFloat L a4 with
        | (_, some e) => (.error ("Failed to parse OrderCost: " ++ e.Error L), stub)
        | (orderCost, none) =>
        match ParseInt a5 with
        | .error e => (.error ("Failed to parse PaymentID: " ++ e.Error L), stub)
        | .ok paymentID =>
        let slotID := a6
        match ParseInt a7 with
        | .error e => (.error ("Failed to parse TotalQuantity: " ++ e.Error L), stub)
        | .ok totalQuantity =>
        match ParseFloat L a8 with
        | (_, some e) => (.error ("Failed to parse UnitCost: " ++ e.Error L), stub)
        | (unitCost, none) =>
        match ParseInt a9 with
        | .error e => (.error ("Failed to parse UserID: " ++ e.Error L), stub)
        | .ok userID =>
        match ParseInt a10 with
        | .error e => (.error ("Failed to parse SlotExecDate: " ++ e.Error L), stub)
        | .ok slotExecDate =>
        match ParseInt a11 with
        | .error e => (.error ("Failed to parse action: " ++ e.Error L), stub)
        | .ok action =>
          let order : Order :=
            { order0 with
              BidMatchID := bidMatchID, BidStatus := bidStatus, OnMarketPrice := onMarketPrice,
              OrderCost := orderCost, PaymentID := paymentID, SlotID := slotID,
              TotalQuantity := totalQuantity, UnitCost := unitCost,
              UpdatedOn := (clock readings).unix, UserID := userID,
              SlotExecDate := slotExecDate, UserAction := action }
          match PutState stub ("Order_" ++ FormatInt order.ID) (marshalOrder L order) with
          | .error e => (.error ("Could not store order: " ++ e), stub)
          | .ok stub1 => (.success none, stub1)
  | _ => (.error "Incorrect number of arguments. Expecting 12.", stub)

/-- The block `var bidMatch BidMatch; if existingBidMatchAsBytes != nil ... else ...` of
`ProcessBidMatch`: the struct loaded or created, or the message of the error returned. -/
def ProcessBidMatch.load (L : GoLib) (clock : Clock) (existingBidMatchAsBytes : Option Bytes)
    (bidMatchID : Int) : Except String BidMatch :=
  match existingBidMatchAsBytes with
  | some b =>
    match unmarshalBidMatch L b with
    | .error e => .error ("Failed to unmarshal existing BidMatch: " ++ e)
    | .ok m => .ok m
  | none => .ok { (default : BidMatch) with BidMatchTms := (clock 0).unix, ID := bidMatchID }

def ProcessBidMatch (L : GoLib) (clock : Clock) (stub : Store) (args : List String) :
    Response × Store :=
  match args with
  | [a0, a1, a2, a3, a4, a5, a6, a7, a8, a9, a10] =>
    match ParseInt a6 with
    | .error e => (.error ("Failed to parse BidMatch ID: " ++ e.Error L), stub)
    | .ok bidMatchID =>
      let existingBidMatchAsBytes := GetState stub ("BidMatch_" ++ FormatInt bidMatchID)
      match ProcessBidMatch.load L clock existingBidMatchAsBytes bidMatchID with
      | .error msg => (.error msg, stub)
      | .ok bidMatch0 =>
        match ParseInt a0 with
        | .error e => (.error ("Failed to parse BidStatus: " ++ e.Error L), stub)
        | .ok bidMatchTms =>
        let bidSlot := a1
        match ParseInt a2 with
        | .error e => (.error ("Failed to parse BidStatus: " ++ e.Error L), stub)
        | .ok bidStatus =>
        match ParseInt a3 with
        | .error e => (.error ("Failed to parse BidUnitPrice: " ++ e.Error L), stub)
        | .ok bidUnitPrice =>
        match ParseInt a4 with
        | .error e => (.error ("Failed to parse BuyerUserId: " ++ e.Error L), stub)
        | .ok buyerUserId =>
        match ParseFloat L a5 with
        | (_, some e) => (.error ("Failed to parse DeliveredBidUnits: " ++ e.Error L), stub)
        | (deliveredBidUnits, none) =>
        match ParseFloat L a7 with
        | (_, some e) => (.error ("Failed to parse OriginalBidUnits: " ++ e.Error L), stub)
        | (originalBidUnits, none) =>
        match ParseInt a8 with
        | .error e => (.error ("Failed to parse SellerUserId: " ++ e.Error L), stub)
        | .ok sellerUserId =>
        match ParseInt a9 with
        | .error e => (.error ("Failed to parse TransactionBuyID: " ++ e.Error L), stub)
        | .ok transactionBuyID =>
        match ParseInt a10 with
        | .error e => (.error ("Failed to parse TransactionSellID: " ++ e.Error L), stub)
        | .ok transactionSellID =>
          let bidMatch : BidMatch :=
            { bidMatch0 with
              BidMatchTms := bidMatchTms, BidSlot := bidSlot, BidStatus := bidStatus,
              BidUnitPrice := bidUnitPrice, BuyerUserId := buyerUserId,
              DeliveredBidUnits := deliveredBidUnits, OriginalBidUnits := originalBidUnits,
              SellerUserId := sellerUserId, TransactionBuyID := transactionBuyID,
              TransactionSellID := transactionSellID }
          match PutState stub ("BidMatch_" ++ FormatInt bidMatch.ID)
              (marshalBidMatch L bidMatch) with
          | .error e => (.error ("Could not store BidMatch: " ++ e), stub)
          | .ok stub1 => (.success none, stub1)
  | _ => (.error "Incorrect number of arguments. Expecting 11.", stub)

/-! ## `read_ledger.go` -/

def ReadUserProfile (L : GoLib) (stub : Store) (args : List String) : Response × Store :=
  match args with
  | [a0] =>
    match ParseInt a0 with
    | .error e => (.error ("Failed to parse User ID: " ++ e.Error L), stub)
    | .ok userID =>
      match GetState stub ("User_" ++ FormatInt userID) with
      | none => (.error ("User with ID " ++ FormatInt userID ++ " does not exist."), stub)
      | some userProfileAsBytes => (.success (some userProfileAsBytes), stub)
  | _ => (.error "Incorrect number of arguments. Expecting 1.", stub)

def ReadPlatformContract (L : GoLib) (stub : Store) (args : List String) : Response × Store :=
  match args with
  | [a0] =>
    match ParseInt a0 with
    | .error e => (.error ("Failed to parse User ID: " ++ e.Error L), stub)
    | .ok userID =>
      match GetState stub ("PlatformContract_" ++ FormatInt userID) with
      | none =>
        (.error ("Platform Contract for User with ID " ++ FormatInt userID ++ " does not exist."),
          stub)
      | some platformContractAsBytes => (.success (some platformContractAsBytes), stub)
  | _ => (.error "Incorrect number of arguments. Expecting 1.", stub)

def ReadPayment (stub : Store) (args : List String) : Response × Store :=
  match args with
  | [paymentID] =>
    match GetState stub ("Payment_" ++ paymentID) with
    | none => (.error ("Payment with ID " ++ paymentID ++ " does not exist."), stub)
    | some paymentAsBytes => (.success (some paymentAsBytes), stub)
  | _ => (.error "Incorrect number of arguments. Expecting 1.", stub)

def ReadPaymentDetail (L : GoLib) (stub : Store) (args : List String) : Response × Store :=
  match args with
  | [a0] =>
    match ParseInt a0 with
    | .error e => (.error ("Failed to parse PaymentDetail ID: " ++ e.Error L), stub)
    | .ok paymentDetailID =>
      match GetState stub ("PaymentDetail_" ++ FormatInt paymentDetailID) with
      | none => (.error ("PaymentDetail with ID " ++ a0 ++ " not found."), stub)
      | some paymentDetailAsBytes => (.success (some paymentDetailAsBytes), stub)
  | _ => (.error "Incorrect number of arguments. Expecting 1.", stub)

def ReadOrder (L : GoLib) (stub : Store) (args : List String) : Response × Store :=
  match args with
  | [a0] =>
    match ParseInt a0 with
    | .error e => (.error ("Failed to parse Order ID: " ++ e.Error L), stub)
    | .ok orderID =>
      match GetState stub ("Order_" ++ FormatInt orderID) with
      | none => (.error ("Order with ID " ++ a0 ++ " not found."), stub)
      | some orderAsBytes => (.success (some orderAsBytes), stub)
  | _ => (.error "Incorrect number of arguments. Expecting 1.", stub)

def ReadBidMatch (L : GoLib) (stub : Store) (args : List String) : Response × Store :=
  match args with
  | [a0] =>
    match ParseInt a0 with
    | .error e => (.error ("Failed to parse BidMatch ID: " ++ e.Error L), stub)
    | .ok bidMatchID =>
      match GetState stub ("BidMatch_" ++ FormatInt bidMatchID) with
      | none => (.error ("BidMatch with ID " ++ a0 ++ " not found."), stub)
      | some bidMatchAsBytes => (.success (some bidMatchAsBytes), stub)
  | _ => (.error "Incorrect number of arguments. Expecting 1.", stub)

/-! ## `energyTradingBasic.go`: the entry points -/

/-- The function names `Invoke` dispatches on, in the order of its comparisons. -/
def invokeNames : List String :=
  ["Write", "UpdateUserProfile", "SignPlatformContract", "RecordPayment", "RegisterOrder",
   "ProcessBidMatch", "ReadUserProfile", "ReadPlatformContract", "ReadPayment",
   "ReadPaymentDetail", "ReadOrder", "ReadBidMatch"]

/-- The method `Invoke`, on the function name and the arguments that
`stub.GetFunctionAndParameters()` returns. -/
def Invoke (L : GoLib) (clock : Clock) (stub : Store) (function : String)
    (args : List String) : Response × Store :=
  if function = "Write" then Write stub args
  else if function = "UpdateUserProfile" then UpdateUserProfile L clock stub args
  else if function = "SignPlatformContract" then SignPlatformContract L clock stub args
  else if function = "RecordPayment" then RecordPayment L clock stub args
  else if function = "RegisterOrder" then RegisterOrder L clock stub args
  else if function = "ProcessBidMatch" then ProcessBidMatch L clock stub args
  else if function = "ReadUserProfile" then ReadUserProfile L stub args
  else if function = "ReadPlatformContract" then ReadPlatformContract L stub args
  else if function = "ReadPayment" then ReadPayment stub args
  else if function = "ReadPaymentDetail" then ReadPaymentDetail L stub args
  else if function = "ReadOrder" then ReadOrder L stub args
  else if function = "ReadBidMatch" then ReadBidMatch L stub args
  else (.error ("Received unknown invoke function name - \x27" ++ function ++ "\x27"), stub)

/-! ## Predicates used in the statements -/

/-- Every integer field of the user is an `int64`. -/
def User.int64 (u : User) : Prop :=
  isInt64 u.ID ∧ isInt64 u.Category ∧ isInt64 u.CreatedOn ∧ isInt64 u.UpdatedOn ∧
    isInt64 u.Source

instance (u : User) : Decidable u.int64 := by
  unfold User.int64; infer_instance

/-- The argument passes `sanitize_arguments`: 1 to 256 bytes. -/
def sane (s : String) : Prop := 1 ≤ len s ∧ len s ≤ 256

instance (s : String) : Decidable (sane s) := by
  unfold sane; infer_instance

/-- Every integer field of the order is an `int64`. -/
def Order.int64 (o : Order) : Prop :=
  isInt64 o.BidMatchID ∧ isInt64 o.BidStatus ∧ isInt64 o.CreatedOn ∧ isInt64 o.ID ∧
    isInt64 o.PaymentID ∧ isInt64 o.SlotExecDate ∧ isInt64 o.TotalQuantity ∧
    isInt64 o.UpdatedOn ∧ isInt64 o.UserAction ∧ isInt64 o.UserID

instance (o : Order) : Decidable o.int64 := by
  unfold Order.int64; infer_instance

/-- The bytes `b` are a value that a successful `RegisterOrder` call put under `key`:
before the call the key did not hold them, after it it does. -/
def WrittenByRegisterOrder (L : GoLib) (key : String) (b : Bytes) : Prop :=
  ∃ (clock : Clock) (stub : Store) (args : List String),
    (RegisterOrder L clock stub args).1 = .success none ∧
    stub key ≠ some b ∧ (RegisterOrder L clock stub args).2 key = some b

/-- Every integer field of the bid match is an `int64`. -/
def BidMatch.int64 (m : BidMatch) : Prop :=
  isInt64 m.BidMatchTms ∧ isInt64 m.BidStatus ∧ isInt64 m.BidUnitPrice ∧
    isInt64 m.BuyerUserId ∧ isInt64 m.ID ∧ isInt64 m.SellerUserId ∧
    isInt64 m.TransactionBuyID ∧ isInt64 m.TransactionSellID

instance (m : BidMatch) : Decidable m.int64 := by
  unfold BidMatch.int64; infer_instance

/-- The bytes `b` are a value that a successful `ProcessBidMatch` call put under `key`:
before the call the key did not hold them, after it it does. -/
def WrittenByProcessBidMatch (L : GoLib) (key : String) (b : Bytes) : Prop :=
  ∃ (clock : Clock) (stub : Store) (args : List String),
    (ProcessBidMatch L clock stub args).1 = .success none ∧
    stub key ≠ some b ∧ (ProcessBidMatch L clock stub args).2 key = some b

/-- Every integer field of the platform contract is an `int64`. -/
def PlatformContract.int64 (c : PlatformContract) : Prop :=
  isInt64 c.UserID ∧ isInt64 c.CreatedOn ∧ isInt64 c.UpdatedOn

instance (c : PlatformContract) : Decidable c.int64 := by
  unfold PlatformContract.int64; infer_instance

/-- Every integer field of the payment is an `int64`. -/
def Payment.int64 (p : Payment) : Prop :=
  isInt64 p.CreatedOn ∧ isInt64 p.PaymentDetailId ∧ isInt64 p.PaymentType ∧ isInt64 p.UserID

instance (p : Payment) : Decidable p.int64 := by
  unfold Payment.int64; infer_instance

/-- The user that `json.Unmarshal` reads from what `json.Marshal` wrote for `u`: `u` with
its strings as they are written. -/
def User.written (u : User) : User :=
  { u with Location := toValidUTF8 u.Location, MeterId := toValidUTF8 u.MeterId }

/-- The order that `json.Unmarshal` reads from what `json.Marshal` wrote for `o`. -/
def Order.written (o : Order) : Order :=
  { o with OnMarketPrice := toValidUTF8 o.OnMarketPrice, SlotID := toValidUTF8 o.SlotID }

/-- The bid match that `json.Unmarshal` reads from what `json.Marshal` wrote for `m`. -/
def BidMatch.written (m : BidMatch) : BidMatch :=
  { m with BidSlot := toValidUTF8 m.BidSlot }

/-- The payment that `json.Unmarshal` reads from what `json.Marshal` wrote for `p`. -/
def Payment.written (p : Payment) : Payment :=
  { p with ID := toValidUTF8 p.ID }

/-- The payment detail that `json.Unmarshal` reads from what `json.Marshal` wrote for `d`. -/
def PaymentDetail.written (d : PaymentDetail) : PaymentDetail :=
  { d with DebitedFrom := toValidUTF8 d.DebitedFrom, CreditedTo := toValidUTF8 d.CreditedTo }

/-- The JSON number that `json.Marshal` writes for `f` is read back as `f` by
`json.Unmarshal`: a property of the library, which Go has at every finite
`float64` (the shortest decimal that identifies the number is written). -/
def GoLib.readsBack (L : GoLib) (f : Float64) : Prop :=
  f.isFinite = true ∧ L.parseFloat (L.formatFloat f) = (f, none)

instance (L : GoLib) (f : Float64) : Decidable (L.readsBack f) := by
  unfold GoLib.readsBack; infer_instance

/-- The lexicographic order of strings, by the code points of their characters:
`as` is at most `bs`. -/
def leChars : List Char → List Char → Bool
  | [], _ => true
  | _ :: _, [] => false
  | a :: as, b :: bs => a.toNat < b.toNat || (a.toNat == b.toNat && leChars as bs)

/-- The names are in alphabetical order: each is at most the next. -/
def alphabetical : List String → Bool
  | a :: b :: rest => leChars a.data b.data && alphabetical (b :: rest)
  | _ => true

/-- The name with its capital letters replaced by small ones. -/
def lowerCased (s : String) : String := String.mk (s.data.map Char.toLower)

/-- The member names of an encoded object, in the order they are written. -/
def memberNames (ms : List (String × JAtom)) : List String := ms.map Prod.fst

/-- The `updatedOn` of the user stored under `key`, if a user is stored there. -/
def storedUserUpdatedOn (L : GoLib) (stub : Store) (key : String) : Option Int :=
  match stub key with
  | none => none
  | some b =>
    match unmarshalUser L b with
    | .ok u => some u.UpdatedOn
    | .error _ => none

/-- The `updatedOn` of the order stored under `key`, if an order is stored there. -/
def storedOrderUpdatedOn (L : GoLib) (stub : Store) (key : String) : Option Int :=
  match stub key with
  | none => none
  | some b =>
    match unmarshalOrder L b with
    | .ok o => some o.UpdatedOn
    | .error _ => none

/-- The ledgers reachable from the empty one through calls of `UpdateUserProfile`,
`RecordPayment`, `RegisterOrder` and `ProcessBidMatch`, with any arguments and clocks. -/
inductive Reachable (L : GoLib) : Store → Prop
  | empty : Reachable L emptyStore
  | updateUserProfile (clock : Clock) (stub : Store) (args : List String) :
      Reachable L stub → Reachable L (UpdateUserProfile L clock stub args).2
  | recordPayment (clock : Clock) (stub : Store) (args : List String) :
      Reachable L stub → Reachable L (RecordPayment L clock stub args).2
  | registerOrder (clock : Clock) (stub : Store) (args : List String) :
      Reachable L stub → Reachable L (RegisterOrder L clock stub args).2
  | processBidMatch (clock : Clock) (stub : Store) (args : List String) :
      Reachable L stub → Reachable L (ProcessBidMatch L clock stub args).2

/-- The ledgers reachable from the empty one through calls of the five domain write
handlers, with any arguments and clocks. -/
inductive ReachableByWriters (L : GoLib) : Store → Prop
  | empty : ReachableByWriters L emptyStore
  | updateUserProfile (clock : Clock) (stub : Store) (args : List String) :
      ReachableByWriters L stub → ReachableByWriters L (UpdateUserProfile L clock stub args).2
  | signPlatformContract (clock : Clock) (stub : Store) (args : List String) :
      ReachableByWriters L stub →
        ReachableByWriters L (SignPlatformContract L clock stub args).2
  | recordPayment (clock : Clock) (stub : Store) (args : List String) :
      ReachableByWriters L stub → ReachableByWriters L (RecordPayment L clock stub args).2
  | registerOrder (clock : Clock) (stub : Store) (args : List String) :
      ReachableByWriters L stub → ReachableByWriters L (RegisterOrder L clock stub args).2
  | processBidMatch (clock : Clock) (stub : Store) (args : List String) :
      ReachableByWriters L stub → ReachableByWriters L (ProcessBidMatch L clock stub args).2

/-- Every value under a key `Order_<n>` is the encoding of an order with id `n` (and
finite costs, as only those have an encoding). -/
def OrdersKeyed (L : GoLib) (s : Store) : Prop :=
  ∀ n, isInt64 n → ∀ b, s ("Order_" ++ FormatInt n) = some b →
    ∃ o : Order, o.int64 ∧ o.ID = n ∧ o.OrderCost.isFinite = true ∧
      o.UnitCost.isFinite = true ∧ b = .json (.obj (o.encode L))

/-- Every value under a key `BidMatch_<n>` is the encoding of a bid match with id `n`. -/
def BidMatchesKeyed (L : GoLib) (s : Store) : Prop :=
  ∀ n, isInt64 n → ∀ b, s ("BidMatch_" ++ FormatInt n) = some b →
    ∃ m : BidMatch, m.int64 ∧ m.ID = n ∧ m.DeliveredBidUnits.isFinite = true ∧
      m.OriginalBidUnits.isFinite = true ∧ b = .json (.obj (m.encode L))

/-! ## An instance of the library parameters

`exampleLib` runs the handlers on concrete inputs.  It answers as Go does on
the inputs the examples below use (the float literals of the repository's
tests with their IEEE-754 bit patterns, `NaN`, `Inf`, quoting of plain ASCII
text); on every other input its answer is a placeholder. -/

def exampleLib : GoLib where
  parseFloat := fun s =>
    if s = "200" then (.fin 0x4069000000000000, none)
    else if s = "3.5" then (.fin 0x400C000000000000, none)
    else if s = "2.5" then (.fin 0x4004000000000000, none)
    else if s = "NaN" then (.nan, none)
    else if s = "Inf" ∨ s = "+Inf" then (.inf false, none)
    else if s = "-Inf" then (.inf true, none)
    else (.fin 0, some .invalid)
  formatFloat := fun f =>
    if f = .fin 0x4069000000000000 then "200"
    else if f = .fin 0x400C000000000000 then "3.5"
    else if f = .fin 0x4004000000000000 then "2.5"
    else "0"
  quote := fun s => "\"" ++ s ++ "\""
  scan := fun _ => .error "invalid character looking for beginning of value"
  foldName := fun s => s.map Char.toUpper
  typeErrorText := fun v f => "json: cannot unmarshal " ++ v ++ " into Go struct field " ++ f

/-- A clock whose every reading has `Unix() = sec` and `UnixNano() = nano`. -/
def clockAt (sec nano : Int) (hs : isInt64 sec) (hn : isInt64 nano) : Clock :=
  fun _ => ⟨sec, nano, hs, hn⟩

def clock100 : Clock := clockAt 100 100000000007 (by decide) (by decide)

def clock200 : Clock := clockAt 200 200000000007 (by decide) (by decide)

/-- The library `exampleLib` with a scanner that reads the one JSON text
`\x7b"id":7\x7d` (as Go does: an object whose member `id` is the number 7). -/
def scanLib : GoLib :=
  { exampleLib with
    scan := fun s =>
      if s = "\x7b\"id\":7\x7d" then .ok (.obj [("id", .num "7")])
      else .error "invalid character looking for beginning of value" }

/-- A ledger with one record of each kind: the empty ledger after `UpdateUserProfile` for
user 1, `SignPlatformContract` for user 1, `RecordPayment` for payment `P1`,
`RegisterOrder` for order 4 and `ProcessBidMatch` for bid match 1, all at second 100. -/
def exampleLedger : Store :=
  (ProcessBidMatch exampleLib clock100
    (RegisterOrder exampleLib clock100
      (RecordPayment exampleLib clock100
        (SignPlatformContract exampleLib clock100
          (UpdateUserProfile exampleLib clock100 emptyStore
            ["1", "Prosumer", "Location A", "Meter1", "Solar"]).2
          ["1"]).2
        ["P1", "WalletRecharge", "200", "6", "Alice", "Bob", "2.5", "2.5", "2.5", "2.5",
         "2.5", "3.5"]).2
      ["1", "0", "4", "2.5", "200", "5", "slot1234", "300", "3.5", "6", "50", "0"]).2
    ["1", "Slot1", "1", "100", "4", "2.5", "1", "3.5", "5", "6", "7"]).2

/-! ## `strconv`: formatting and parsing are inverse on `int64` -/

theorem parseUintLoop_append (xs ys : List Char) :
    ∀ n, parseUintLoop n (xs ++ ys) =
      (parseUintLoop n xs).bind (fun m => parseUintLoop m ys) := by
  induction xs with
  | nil => intro n; rfl
  | cons c cs ih =>
    intro n
    simp only [List.cons_append, parseUintLoop]
    split_ifs <;> first | rfl | exact ih _

theorem digit_toNat (d : Nat) (h : d < 10) : (Char.ofNat (48 + d)).toNat = 48 + d := by
  interval_cases d <;> rfl

theorem parseUintLoop_digit (m d : Nat) (hd : d < 10) (hm : m * 10 + d ≤ maxUint64) :
    parseUintLoop m [Char.ofNat (48 + d)] = .ok (m * 10 + d) := by
  have h64 : (2 : Nat) ^ 64 = 18446744073709551616 := by norm_num
  unfold maxUint64 at hm
  simp only [parseUintLoop, digit_toNat d hd, maxUint64, h64]
  have h1 : 48 ≤ 48 + d ∧ 48 + d ≤ 57 := by omega
  have h2 : ¬ (m ≥ (18446744073709551616 - 1) / 10 + 1) := by omega
  have e1 : m * 10 % 18446744073709551616 = m * 10 := by omega
  have e2 : (m * 10 + (48 + d - 48)) % 18446744073709551616 = m * 10 + d := by omega
  have h3 : ¬ (m * 10 + d < m * 10 ∨ m * 10 + d > 18446744073709551616 - 1) := by omega
  simp only [h1, h2, e1, e2, h3, and_self, if_true, if_false]

theorem parseUintLoop_decDigits :
    ∀ fuel n, n < fuel → n ≤ maxUint64 → parseUintLoop 0 (decDigits fuel n) = .ok n := by
  intro fuel
  induction fuel with
  | zero => intro n h; omega
  | succ f ih =>
    intro n hf hn
    unfold decDigits
    by_cases h10 : n < 10
    · simp only [h10, if_true]
      have := parseUintLoop_digit 0 n h10 (by omega)
      simpa using this
    · simp only [h10, if_false]
      rw [parseUintLoop_append, ih (n / 10) (by omega) (by omega)]
      have := parseUintLoop_digit (n / 10) (n % 10) (Nat.mod_lt _ (by norm_num)) (by omega)
      simp only [Except.bind]
      rw [this]
      congr 1
      omega

theorem decDigits_ne_nil : ∀ fuel n, 0 < fuel → decDigits fuel n ≠ [] := by
  intro fuel n h
  cases fuel with
  | zero => omega
  | succ f =>
    unfold decDigits
    split_ifs <;> simp

theorem decDigits_digits :
    ∀ fuel n, ∀ c ∈ decDigits fuel n, 48 ≤ c.toNat ∧ c.toNat ≤ 57 := by
  intro fuel
  induction fuel with
  | zero => intro n c hc; simp [decDigits] at hc
  | succ f ih =>
    intro n c hc
    unfold decDigits at hc
    by_cases h10 : n < 10
    · simp only [h10, if_true, List.mem_singleton] at hc
      subst hc
      rw [digit_toNat n h10]; omega
    · simp only [h10, if_false, List.mem_append, List.mem_singleton] at hc
      rcases hc with hc | hc
      · exact ih _ c hc
      · subst hc
        rw [digit_toNat _ (Nat.mod_lt _ (by norm_num))]
        have := Nat.mod_lt n (show 0 < 10 by norm_num)
        omega

theorem parseUint_formatUint (n : Nat) (hn : n ≤ maxUint64) :
    parseUint (formatUint n) = .ok n := by
  unfold parseUint formatUint
  rw [if_neg (decDigits_ne_nil _ _ (by omega))]
  exact parseUintLoop_decDigits _ _ (by omega) hn

theorem formatUint_head (n : Nat) :
    ∃ c cs, formatUint n = c :: cs ∧ c ≠ '+' ∧ c ≠ '-' := by
  have hne := decDigits_ne_nil (n + 1) n (by omega)
  have hd := decDigits_digits (n + 1) n
  unfold formatUint
  cases h : decDigits (n + 1) n with
  | nil => exact absurd h hne
  | cons c cs =>
    refine ⟨c, cs, rfl, ?_, ?_⟩
    · intro hc
      have := hd c (by rw [h]; simp)
      subst hc
      revert this; decide
    · intro hc
      have := hd c (by rw [h]; simp)
      subst hc
      revert this; decide

theorem parseIntKind_FormatInt (i : Int) (h : isInt64 i) : parseIntKind (FormatInt i) = .ok i := by
  unfold isInt64 minInt64 maxInt64 at h
  have h63 : ((2 : Int) ^ 63) = 9223372036854775808 := by norm_num
  have hn63 : ((2 : Nat) ^ 63) = 9223372036854775808 := by norm_num
  rw [h63] at h
  have hu : i.natAbs ≤ maxUint64 := by unfold maxUint64; omega
  have hp := parseUint_formatUint i.natAbs hu
  unfold FormatInt parseIntKind
  by_cases hneg : i < 0
  · simp only [hneg, if_true, String.toList, hp, hn63]
    have h1 : ¬ (i.natAbs > 9223372036854775808) := by omega
    have h2 : -((i.natAbs : Nat) : Int) = i := by omega
    simp only [List.cons.injEq, true_and, or_true, if_true]
    rw [hp]
    simp only [h1, gt_iff_lt, if_false, h2, not_true_eq_false, false_and, true_and]
  · obtain ⟨c, cs, hcs, hplus, hminus⟩ := formatUint_head i.natAbs
    simp only [hneg, if_false, String.toList]
    rw [hcs]
    simp only [hplus, hminus, or_self, if_false]
    rw [← hcs, hp]
    have h1 : ¬ (i.natAbs ≥ 9223372036854775808) := by omega
    have h2 : ((i.natAbs : Nat) : Int) = i := by omega
    have hc : ¬ (c = '-') := hminus
    simp only [hn63, h1, h2, hc, not_false_eq_true, and_false, false_and, and_self, ge_iff_le,
      decide_False, decide_True, if_false, Bool.false_eq_true, decide_eq_true_eq, not_true_eq_false]

theorem ParseInt_FormatInt (i : Int) (h : isInt64 i) : ParseInt (FormatInt i) = .ok i := by
  unfold ParseInt
  rw [parseIntKind_FormatInt i h]

theorem parseIntKind_isInt64 (s : String) (n : Int) (h : parseIntKind s = .ok n) :
    isInt64 n := by
  have h63 : ((2 : Int) ^ 63) = 9223372036854775808 := by norm_num
  have hn63 : ((2 : Nat) ^ 63) = 9223372036854775808 := by norm_num
  unfold parseIntKind at h
  unfold isInt64 minInt64 maxInt64
  rw [h63]
  split at h
  · exact absurd h (by simp)
  · rename_i c cs _
    simp only at h
    split at h
    · exact absurd h (by simp)
    · exact absurd h (by simp)
    · rename_i un _
      rw [hn63] at h
      split_ifs at h with h1 h2 h3
      · simp only [Except.ok.injEq] at h
        subst h
        have : c = '-' := by simpa using h3
        simp only [this, true_and, not_lt, gt_iff_lt] at h2
        omega
      · simp only [Except.ok.injEq] at h
        subst h
        have hc : ¬ (c = '-') := by simpa using h3
        simp only [hc, not_false_eq_true, true_and, ge_iff_le, not_le] at h1
        omega

theorem ParseInt_isInt64 (s : String) (n : Int) (h : ParseInt s = .ok n) : isInt64 n := by
  unfold ParseInt at h
  split at h
  · rename_i m hm
    simp only [Except.ok.injEq] at h
    subst h
    exact parseIntKind_isInt64 s m hm
  · exact absurd h (by simp)

theorem FormatInt_injective (i j : Int) (hi : isInt64 i) (hj : isInt64 j)
    (h : FormatInt i = FormatInt j) : i = j := by
  have h1 := ParseInt_FormatInt i hi
  rw [h, ParseInt_FormatInt j hj] at h1
  exact (Except.ok.inj h1).symm

/-! ## Lengths of decimal strings -/

theorem decDigits_length :
    ∀ fuel n k, 0 < k → n < 10 ^ k → (decDigits fuel n).length ≤ k := by
  intro fuel
  induction fuel with
  | zero => intro n k _ _; simp [decDigits]
  | succ f ih =>
    intro n k hk hn
    unfold decDigits
    by_cases h10 : n < 10
    · simp only [h10, if_true, List.length_singleton]; omega
    · simp only [h10, if_false, List.length_append, List.length_singleton]
      obtain ⟨k', rfl⟩ : ∃ k', k = k' + 1 := ⟨k - 1, by omega⟩
      have hk' : 0 < k' := by
        rcases Nat.eq_zero_or_pos k' with h0 | h0
        · subst h0; simp at hn; omega
        · exact h0
      have : n / 10 < 10 ^ k' := by
        rw [Nat.div_lt_iff_lt_mul (by norm_num)]
        rw [pow_succ] at hn
        exact hn
      have := ih (n / 10) k' hk' this
      omega

theorem len_FormatInt (i : Int) (h : isInt64 i) : 1 ≤ len (FormatInt i) ∧ len (FormatInt i) ≤ 20 := by
  unfold isInt64 minInt64 maxInt64 at h
  have h63 : ((2 : Int) ^ 63) = 9223372036854775808 := by norm_num
  rw [h63] at h
  have hlen : (formatUint i.natAbs).length ≤ 19 :=
    decDigits_length _ _ 19 (by norm_num) (by norm_num; omega)
  have hpos : 1 ≤ (formatUint i.natAbs).length := by
    have := decDigits_ne_nil (i.natAbs + 1) i.natAbs (by omega)
    unfold formatUint
    cases hd : decDigits (i.natAbs + 1) i.natAbs with
    | nil => exact absurd hd this
    | cons c cs => simp
  unfold FormatInt len
  split_ifs
  · rw [String.length_mk, List.length_cons]
    omega
  · rw [String.length_mk]
    omega

theorem FormatInt_ne_empty (i : Int) : FormatInt i ≠ "" := by
  unfold FormatInt
  have := decDigits_ne_nil (i.natAbs + 1) i.natAbs (by omega)
  split_ifs
  · intro h
    have := congrArg String.data h
    simp at this
  · intro h
    have h2 := congrArg String.data h
    simp only [formatUint] at h2
    exact this h2

/-! ## `encoding/json`: what `Marshal` writes, `Unmarshal` reads back -/

theorem storeInt_jInt (field : String) (n old : Int) (h : isInt64 n) :
    storeInt field (jInt n) old = .ok n := by
  simp only [storeInt, jInt, parseIntKind_FormatInt n h]

theorem unmarshalUser_marshalUser (L : GoLib) (u : User) (h : u.int64) :
    unmarshalUser L (marshalUser u) = .ok u.written := by
  obtain ⟨h1, h2, h3, h4, h5⟩ := h
  simp [unmarshalUser, marshalUser, Unmarshal, decodeDoc, User.encode, decodeMembers, findField,
    User.fieldNames, User.setField, storeInt_jInt, storeString, h1, h2, h3, h4, h5, Except.map,
    User.written]

/-! ## Argument checks, table lookups and the stub -/

theorem sanitizeFrom_none (l : List String) :
    ∀ i, sanitizeFrom i l = none ↔ ∀ s ∈ l, sane s := by
  induction l with
  | nil => intro i; simp [sanitizeFrom]
  | cons a l ih =>
    intro i
    unfold sanitizeFrom
    by_cases h0 : len a ≤ 0
    · simp only [h0, if_true, List.mem_cons, forall_eq_or_imp, sane]
      constructor
      · intro h; exact absurd h (by simp)
      · intro h; omega
    · by_cases h1 : len a > 256
      · simp only [h0, h1, if_true, if_false, List.mem_cons, forall_eq_or_imp, sane]
        constructor
        · intro h; exact absurd h (by simp)
        · intro h; omega
      · simp only [h0, h1, if_false, List.mem_cons, forall_eq_or_imp, sane, ih (i + 1)]
        constructor
        · intro h; exact ⟨by omega, h⟩
        · intro h; exact h.2

theorem sanitize_arguments_none (l : List String) :
    sanitize_arguments l = none ↔ ∀ s ∈ l, sane s :=
  sanitizeFrom_none l 0

theorem sanitize_arguments_some (l : List String) (h : ¬ ∀ s ∈ l, sane s) :
    ∃ e, sanitize_arguments l = some e := by
  cases hs : sanitize_arguments l with
  | none => exact absurd ((sanitize_arguments_none l).mp hs) h
  | some e => exact ⟨e, rfl⟩

theorem userCategoryMap_lookup (s : String) (c : Int) :
    userCategoryMap.lookup s = some c ↔
      (s = "Prosumer" ∧ c = 0) ∨ (s = "Consumer" ∧ c = 1) := by
  unfold userCategoryMap Prosumer Consumer
  by_cases h1 : s = "Prosumer"
  · subst h1; simp [List.lookup]; exact eq_comm
  · by_cases h2 : s = "Consumer"
    · subst h2; simp [List.lookup]; exact eq_comm
    · have e1 : (s == "Prosumer") = false := beq_eq_false_iff_ne.mpr h1
      have e2 : (s == "Consumer") = false := beq_eq_false_iff_ne.mpr h2
      simp [List.lookup, h1, h2, e1, e2]

theorem energySourceMap_lookup (s : String) (c : Int) :
    energySourceMap.lookup s = some c ↔
      (s = "Solar" ∧ c = 0) ∨ (s = "Wind" ∧ c = 1) ∨ (s = "DG Set" ∧ c = 2) ∨
        (s = "Battery" ∧ c = 3) := by
  unfold energySourceMap Solar Wind DGSet Battery
  by_cases h1 : s = "Solar"
  · subst h1; simp [List.lookup]; exact eq_comm
  · by_cases h2 : s = "Wind"
    · subst h2; simp [List.lookup]; exact eq_comm
    · by_cases h3 : s = "DG Set"
      · subst h3; simp [List.lookup]; exact eq_comm
      · by_cases h4 : s = "Battery"
        · subst h4; simp [List.lookup]; exact eq_comm
        · have e1 : (s == "Solar") = false := beq_eq_false_iff_ne.mpr h1
          have e2 : (s == "Wind") = false := beq_eq_false_iff_ne.mpr h2
          have e3 : (s == "DG Set") = false := beq_eq_false_iff_ne.mpr h3
          have e4 : (s == "Battery") = false := beq_eq_false_iff_ne.mpr h4
          simp [List.lookup, h1, h2, h3, h4, e1, e2, e3, e4]

theorem PutState_ok (stub : Store) (key : String) (value : Bytes) (hk : key ≠ "")
    (hv : value.isEmpty = false) :
    PutState stub key value = .ok (fun k => if k = key then some value else stub k) := by
  simp [PutState, hk, hv]

/-! ## UpdateUserProfile -/

theorem UpdateUserProfile_create (L : GoLib) (clock : Clock) (stub : Store)
    (a0 a1 a2 a3 a4 : String) (id c sc : Int)
    (hs : ∀ s ∈ [a0, a1, a2, a3, a4], sane s) (habs : stub a0 = none)
    (hid : ParseInt a0 = .ok id) (hc : userCategoryMap.lookup a1 = some c)
    (hsc : energySourceMap.lookup a4 = some sc) :
    UpdateUserProfile L clock stub [a0, a1, a2, a3, a4] =
      (.success none, fun k => if k = FormatInt id then
          some (marshalUser { ID := id, Category := c, CreatedOn := (clock 0).unix,
                              UpdatedOn := (clock 0).unix, Location := a2, MeterId := a3,
                              Source := sc })
        else stub k) := by
  have hsan := (sanitize_arguments_none _).mpr hs
  simp only [UpdateUserProfile, hsan, GetState, habs, hid, parseUserCategory, hc,
    parseEnergySource, hsc, Itoa]
  rw [PutState_ok _ _ (marshalUser _) (FormatInt_ne_empty id) rfl]

theorem UpdateUserProfile_update (L : GoLib) (clock : Clock) (stub : Store)
    (a0 a1 a2 a3 a4 : String) (b : Bytes) (u : User) (id c sc : Int)
    (hs : ∀ s ∈ [a0, a1, a2, a3, a4], sane s) (hb : stub a0 = some b)
    (hu : unmarshalUser L b = .ok u)
    (hid : ParseInt a0 = .ok id) (hc : userCategoryMap.lookup a1 = some c)
    (hsc : energySourceMap.lookup a4 = some sc) :
    UpdateUserProfile L clock stub [a0, a1, a2, a3, a4] =
      (.success none, fun k => if k = FormatInt id then
          some (marshalUser { ID := id, Category := c, CreatedOn := u.CreatedOn,
                              UpdatedOn := (clock 0).unix, Location := a2, MeterId := a3,
                              Source := sc })
        else stub k) := by
  have hsan := (sanitize_arguments_none _).mpr hs
  simp only [UpdateUserProfile, hsan, GetState, hb, hu, hid, parseUserCategory, hc,
    parseEnergySource, hsc, Itoa]
  rw [PutState_ok _ _ (marshalUser _) (FormatInt_ne_empty id) rfl]

theorem sane_category (s : String) (c : Int) (h : userCategoryMap.lookup s = some c) :
    sane s ∧ isInt64 c := by
  rcases (userCategoryMap_lookup s c).mp h with ⟨rfl, rfl⟩ | ⟨rfl, rfl⟩ <;> decide

theorem sane_source (s : String) (c : Int) (h : energySourceMap.lookup s = some c) :
    sane s ∧ isInt64 c := by
  rcases (energySourceMap_lookup s c).mp h with ⟨rfl, rfl⟩ | ⟨rfl, rfl⟩ | ⟨rfl, rfl⟩ | ⟨rfl, rfl⟩ <;>
    decide

theorem sane_FormatInt (n : Int) (h : isInt64 n) : sane (FormatInt n) := by
  have := len_FormatInt n h
  unfold sane; omega

theorem sane_args5 (n : Int) (cat loc meter src : String) (c sc : Int) (hn : isInt64 n)
    (hcat : userCategoryMap.lookup cat = some c) (hsrc : energySourceMap.lookup src = some sc)
    (hloc : sane loc) (hmeter : sane meter) :
    ∀ s ∈ [FormatInt n, cat, loc, meter, src], sane s := by
  intro s hs
  simp only [List.mem_cons, List.mem_singleton, List.not_mem_nil, or_false] at hs
  rcases hs with rfl | rfl | rfl | rfl | rfl
  · exact sane_FormatInt n hn
  · exact (sane_category _ c hcat).1
  · exact hloc
  · exact hmeter
  · exact (sane_source _ sc hsrc).1

/-- C1 (fails on the code): after `UpdateUserProfile` has succeeded for id `1` on the
empty ledger, the user is stored under the key `1`, and `ReadUserProfile` for the same id
looks under `User_1`, finds nothing and returns an error. -/
theorem C1_read_after_update_fails :
    ∀ L : GoLib,
      (UpdateUserProfile L clock100 emptyStore
          ["1", "Prosumer", "Location A", "Meter1", "Solar"]).1 = .success none ∧
      (UpdateUserProfile L clock100 emptyStore
          ["1", "Prosumer", "Location A", "Meter1", "Solar"]).2 "1" =
        some (marshalUser { ID := 1, Category := 0, CreatedOn := 100, UpdatedOn := 100,
                            Location := "Location A", MeterId := "Meter1", Source := 0 }) ∧
      (ReadUserProfile L
          (UpdateUserProfile L clock100 emptyStore
            ["1", "Prosumer", "Location A", "Meter1", "Solar"]).2 ["1"]).1 =
        .error "User with ID 1 does not exist." := by
  intro L
  exact ⟨rfl, rfl, rfl⟩

/-- C2 (fails on the code): two successful `UpdateUserProfile` calls for user 1, both
spelling the id `01`.  The existing record is looked up under the spelling `01` but stored
under `1`, so the second call takes the creation path again and the stored `createdOn`
changes from 100 to 200. -/
theorem C2_createdOn_overwritten :
    ∀ L : GoLib,
      (UpdateUserProfile L clock100 emptyStore
          ["01", "Prosumer", "Location A", "Meter1", "Solar"]).1 = .success none ∧
      (UpdateUserProfile L clock100 emptyStore
          ["01", "Prosumer", "Location A", "Meter1", "Solar"]).2 "1" =
        some (marshalUser { ID := 1, Category := 0, CreatedOn := 100, UpdatedOn := 100,
                            Location := "Location A", MeterId := "Meter1", Source := 0 }) ∧
      (UpdateUserProfile L clock200
          (UpdateUserProfile L clock100 emptyStore
            ["01", "Prosumer", "Location A", "Meter1", "Solar"]).2
          ["01", "Consumer", "Location B", "Meter1", "Wind"]).1 = .success none ∧
      (UpdateUserProfile L clock200
          (UpdateUserProfile L clock100 emptyStore
            ["01", "Prosumer", "Location A", "Meter1", "Solar"]).2
          ["01", "Consumer", "Location B", "Meter1", "Wind"]).2 "1" =
        some (marshalUser { ID := 1, Category := 1, CreatedOn := 200, UpdatedOn := 200,
                            Location := "Location B", MeterId := "Meter1", Source := 1 }) := by
  intro L
  exact ⟨rfl, rfl, rfl, rfl⟩

theorem written_user_of_valid (u : User) (h1 : validUTF8 u.Location)
    (h2 : validUTF8 u.MeterId) : u.written = u := by
  unfold validUTF8 at h1 h2
  unfold User.written
  rw [h1, h2]

/-- C3 as stated fails: the location that is the one byte 0xFF has 1 to 256 bytes and
passes `sanitize_arguments`, and `UpdateUserProfile` succeeds on the empty ledger; but the
byte is not valid UTF-8, `json.Marshal` writes U+FFFD for it, and the user stored under
the key has the three bytes of U+FFFD as its location, not the location supplied. -/
theorem C3_counterexample :
    sane "\xff" ∧ emptyStore (FormatInt 1) = none ∧
    (∀ L : GoLib,
      (UpdateUserProfile L clock100 emptyStore
          [FormatInt 1, "Prosumer", "\xff", "MeterId 1", "Solar"]).1 = .success none ∧
      ((UpdateUserProfile L clock100 emptyStore
          [FormatInt 1, "Prosumer", "\xff", "MeterId 1", "Solar"]).2 (FormatInt 1)).map
          (unmarshalUser L) =
        some (.ok { ID := 1, Category := 0, CreatedOn := 100, UpdatedOn := 100,
                    Location := "\xef\xbf\xbd", MeterId := "MeterId 1", Source := 0 })) ∧
    ("\xef\xbf\xbd" : String) ≠ "\xff" :=
  ⟨by decide, rfl, fun _ => ⟨rfl, rfl⟩, by decide⟩

/-- C3, amended: for an `int64` `n` in canonical decimal form, labels of the two tables and
a location and meter id of 1 to 256 bytes that are valid UTF-8, on a ledger with no value
under the key `FormatInt n`, `UpdateUserProfile` succeeds, leaves every other key as it was,
and stores under that key the user with id `n`, the codes of the labels, the location and
meter id supplied and `createdOn = updatedOn =` the clock reading in seconds; the stored
bytes decode to that user. -/
theorem C3_create_user (L : GoLib) (clock : Clock) (stub : Store) (n : Int)
    (cat loc meter src : String) (c sc : Int) (hn : isInt64 n)
    (hcat : userCategoryMap.lookup cat = some c) (hsrc : energySourceMap.lookup src = some sc)
    (hloc : sane loc) (hmeter : sane meter) (hvl : validUTF8 loc) (hvm : validUTF8 meter)
    (habs : stub (FormatInt n) = none) :
    (UpdateUserProfile L clock stub [FormatInt n, cat, loc, meter, src]).1 = .success none ∧
    (∀ k, k ≠ FormatInt n →
      (UpdateUserProfile L clock stub [FormatInt n, cat, loc, meter, src]).2 k = stub k) ∧
    (UpdateUserProfile L clock stub [FormatInt n, cat, loc, meter, src]).2 (FormatInt n) =
      some (marshalUser { ID := n, Category := c, CreatedOn := (clock 0).unix,
                          UpdatedOn := (clock 0).unix, Location := loc, MeterId := meter,
                          Source := sc }) ∧
    unmarshalUser L (marshalUser { ID := n, Category := c, CreatedOn := (clock 0).unix,
                                   UpdatedOn := (clock 0).unix, Location := loc,
                                   MeterId := meter, Source := sc }) =
      .ok { ID := n, Category := c, CreatedOn := (clock 0).unix, UpdatedOn := (clock 0).unix,
            Location := loc, MeterId := meter, Source := sc } := by
  rw [UpdateUserProfile_create L clock stub _ cat loc meter src n c sc
    (sane_args5 n cat loc meter src c sc hn hcat hsrc hloc hmeter) habs
    (ParseInt_FormatInt n hn) hcat hsrc]
  refine ⟨rfl, ?_, ?_, ?_⟩
  · intro k hk
    simp only [hk, if_false]
  · simp only [if_true]
  · rw [unmarshalUser_marshalUser L _
      ⟨hn, (sane_category _ c hcat).2, (clock 0).unix_int64, (clock 0).unix_int64,
        (sane_source _ sc hsrc).2⟩, written_user_of_valid _ hvl hvm]

/-- C3 (amended) at the arguments of the repository's test, on the empty ledger. -/
theorem C3_create_user_witness :
    (UpdateUserProfile exampleLib clock100 emptyStore
        [FormatInt 1, "Prosumer", "Location 1", "MeterId 1", "Solar"]).1 = .success none ∧
    (∀ k, k ≠ FormatInt 1 →
      (UpdateUserProfile exampleLib clock100 emptyStore
        [FormatInt 1, "Prosumer", "Location 1", "MeterId 1", "Solar"]).2 k = emptyStore k) ∧
    (UpdateUserProfile exampleLib clock100 emptyStore
        [FormatInt 1, "Prosumer", "Location 1", "MeterId 1", "Solar"]).2 (FormatInt 1) =
      some (marshalUser { ID := 1, Category := 0, CreatedOn := (clock100 0).unix,
                          UpdatedOn := (clock100 0).unix, Location := "Location 1",
                          MeterId := "MeterId 1", Source := 0 }) ∧
    unmarshalUser exampleLib
        (marshalUser { ID := 1, Category := 0, CreatedOn := (clock100 0).unix,
                       UpdatedOn := (clock100 0).unix, Location := "Location 1",
                       MeterId := "MeterId 1", Source := 0 }) =
      .ok { ID := 1, Category := 0, CreatedOn := (clock100 0).unix,
            UpdatedOn := (clock100 0).unix, Location := "Location 1",
            MeterId := "MeterId 1", Source := 0 } :=
  C3_create_user exampleLib clock100 emptyStore 1 "Prosumer" "Location 1" "MeterId 1" "Solar"
    0 0 (by decide) (by decide) (by decide) (by decide) (by decide) (by decide) (by decide) rfl

/-- C4 as stated fails: user 1 is created at second 100 and updated at second 200 with the
location that is the one byte 0xFF, which has 1 to 256 bytes and passes
`sanitize_arguments`. The update succeeds, but the user it leaves under the key has the
three bytes of U+FFFD as its location, which `json.Marshal` writes for a byte that is not
valid UTF-8, and not the location of the second call. -/
theorem C4_counterexample :
    sane "\xff" ∧
    (∀ L : GoLib,
      (UpdateUserProfile L clock100 emptyStore
          [FormatInt 1, "Prosumer", "Location A", "Meter1", "Solar"]).1 = .success none ∧
      (UpdateUserProfile L clock200
          (UpdateUserProfile L clock100 emptyStore
            [FormatInt 1, "Prosumer", "Location A", "Meter1", "Solar"]).2
          [FormatInt 1, "Consumer", "\xff", "Meter1", "Wind"]).1 = .success none ∧
      ((UpdateUserProfile L clock200
          (UpdateUserProfile L clock100 emptyStore
            [FormatInt 1, "Prosumer", "Location A", "Meter1", "Solar"]).2
          [FormatInt 1, "Consumer", "\xff", "Meter1", "Wind"]).2 (FormatInt 1)).map
          (unmarshalUser L) =
        some (.ok { ID := 1, Category := 1, CreatedOn := 100, UpdatedOn := 200,
                    Location := "\xef\xbf\xbd", MeterId := "Meter1", Source := 1 })) ∧
    ("\xef\xbf\xbd" : String) ≠ "\xff" :=
  ⟨by decide, fun _ => ⟨rfl, rfl, rfl⟩, by decide⟩

/-- C4, amended: on a ledger whose key `FormatInt n` holds the user that a creating
`UpdateUserProfile` call (no value under the key before it) stored for the canonical id
string, a second `UpdateUserProfile` with the same id string and any labels of the tables and
location and meter id of 1 to 256 bytes that are valid UTF-8 succeeds; the user it leaves
under the key has the same id, the `createdOn` of the creating call, the category,
location, meter id and source of the second call and `updatedOn =` the second call's
clock reading, and the stored bytes decode to that user; no other key changes. -/
theorem C4_update_user (L : GoLib) (clock1 clock2 : Clock) (stub0 stub : Store) (n : Int)
    (cat1 loc1 meter1 src1 cat2 loc2 meter2 src2 : String) (c2 sc2 : Int)
    (hn : isInt64 n) (habs : stub0 (FormatInt n) = none)
    (hfirst : (UpdateUserProfile L clock1 stub0 [FormatInt n, cat1, loc1, meter1, src1]).1 =
      .success none)
    (hstub : stub (FormatInt n) =
      (UpdateUserProfile L clock1 stub0 [FormatInt n, cat1, loc1, meter1, src1]).2 (FormatInt n))
    (hcat : userCategoryMap.lookup cat2 = some c2)
    (hsrc : energySourceMap.lookup src2 = some sc2)
    (hloc : sane loc2) (hmeter : sane meter2)
    (hvl : validUTF8 loc2) (hvm : validUTF8 meter2) :
    (UpdateUserProfile L clock2 stub [FormatInt n, cat2, loc2, meter2, src2]).1 = .success none ∧
    (∀ k, k ≠ FormatInt n →
      (UpdateUserProfile L clock2 stub [FormatInt n, cat2, loc2, meter2, src2]).2 k = stub k) ∧
    (UpdateUserProfile L clock2 stub [FormatInt n, cat2, loc2, meter2, src2]).2 (FormatInt n) =
      some (marshalUser { ID := n, Category := c2, CreatedOn := (clock1 0).unix,
                          UpdatedOn := (clock2 0).unix, Location := loc2, MeterId := meter2,
                          Source := sc2 }) ∧
    unmarshalUser L (marshalUser { ID := n, Category := c2, CreatedOn := (clock1 0).unix,
                                   UpdatedOn := (clock2 0).unix, Location := loc2,
                                   MeterId := meter2, Source := sc2 }) =
      .ok { ID := n, Category := c2, CreatedOn := (clock1 0).unix,
            UpdatedOn := (clock2 0).unix, Location := loc2, MeterId := meter2,
            Source := sc2 } := by
  have hid := ParseInt_FormatInt n hn
  -- the creating call went through: its arguments passed every check
  have hfirst2 : ∃ c1 sc1, stub (FormatInt n) =
      some (marshalUser { ID := n, Category := c1, CreatedOn := (clock1 0).unix,
                          UpdatedOn := (clock1 0).unix, Location := loc1, MeterId := meter1,
                          Source := sc1 }) ∧ isInt64 c1 ∧ isInt64 sc1 := by
    rw [hstub]
    revert hfirst
    simp only [UpdateUserProfile, GetState, habs, hid, parseUserCategory, parseEnergySource, Itoa]
    cases hsan : sanitize_arguments [FormatInt n, cat1, loc1, meter1, src1] with
    | some e => intro h; exact absurd h (by simp)
    | none =>
      cases hc1 : userCategoryMap.lookup cat1 with
      | none => intro h; exact absurd h (by simp)
      | some c1 =>
        cases hs1 : energySourceMap.lookup src1 with
        | none => intro h; exact absurd h (by simp)
        | some sc1 =>
          intro _
          refine ⟨c1, sc1, ?_, (sane_category _ c1 hc1).2, (sane_source _ sc1 hs1).2⟩
          simp only []
          rw [PutState_ok _ _ (marshalUser _) (FormatInt_ne_empty n) rfl]
          simp only [if_true]
  obtain ⟨c1, sc1, hb, hc1, hsc1⟩ := hfirst2
  have hu := unmarshalUser_marshalUser L
    { ID := n, Category := c1, CreatedOn := (clock1 0).unix, UpdatedOn := (clock1 0).unix,
      Location := loc1, MeterId := meter1, Source := sc1 }
    ⟨hn, hc1, (clock1 0).unix_int64, (clock1 0).unix_int64, hsc1⟩
  rw [UpdateUserProfile_update L clock2 stub _ cat2 loc2 meter2 src2 _ _ n c2 sc2
    (sane_args5 n cat2 loc2 meter2 src2 c2 sc2 hn hcat hsrc hloc hmeter) hb hu hid hcat hsrc]
  refine ⟨rfl, ?_, ?_, ?_⟩
  · intro k hk
    simp only [hk, if_false]
  · simp only [if_true, User.written]
  · rw [unmarshalUser_marshalUser L _
      ⟨hn, (sane_category _ c2 hcat).2, (clock1 0).unix_int64, (clock2 0).unix_int64,
        (sane_source _ sc2 hsrc).2⟩, written_user_of_valid _ hvl hvm]

/-- C4 (amended) at the two calls of the spec's scenario: create user 1 at second 100 on the empty
ledger, update it at second 200. -/
theorem C4_update_user_witness :
    (UpdateUserProfile exampleLib clock200
        (UpdateUserProfile exampleLib clock100 emptyStore
          [FormatInt 1, "Prosumer", "Location A", "Meter1", "Solar"]).2
        [FormatInt 1, "Consumer", "Location B", "Meter1", "Wind"]).1 = .success none ∧
    (∀ k, k ≠ FormatInt 1 →
      (UpdateUserProfile exampleLib clock200
        (UpdateUserProfile exampleLib clock100 emptyStore
          [FormatInt 1, "Prosumer", "Location A", "Meter1", "Solar"]).2
        [FormatInt 1, "Consumer", "Location B", "Meter1", "Wind"]).2 k =
      (UpdateUserProfile exampleLib clock100 emptyStore
          [FormatInt 1, "Prosumer", "Location A", "Meter1", "Solar"]).2 k) ∧
    (UpdateUserProfile exampleLib clock200
        (UpdateUserProfile exampleLib clock100 emptyStore
          [FormatInt 1, "Prosumer", "Location A", "Meter1", "Solar"]).2
        [FormatInt 1, "Consumer", "Location B", "Meter1", "Wind"]).2 (FormatInt 1) =
      some (marshalUser { ID := 1, Category := 1, CreatedOn := (clock100 0).unix,
                          UpdatedOn := (clock200 0).unix, Location := "Location B",
                          MeterId := "Meter1", Source := 1 }) ∧
    unmarshalUser exampleLib
        (marshalUser { ID := 1, Category := 1, CreatedOn := (clock100 0).unix,
                       UpdatedOn := (clock200 0).unix, Location := "Location B",
                       MeterId := "Meter1", Source := 1 }) =
      .ok { ID := 1, Category := 1, CreatedOn := (clock100 0).unix,
            UpdatedOn := (clock200 0).unix, Location := "Location B",
            MeterId := "Meter1", Source := 1 } :=
  C4_update_user exampleLib clock100 clock200 emptyStore
    (UpdateUserProfile exampleLib clock100 emptyStore
      [FormatInt 1, "Prosumer", "Location A", "Meter1", "Solar"]).2
    1 "Prosumer" "Location A" "Meter1" "Solar" "Consumer" "Location B" "Meter1" "Wind" 1 1
    (by decide) rfl (by decide) rfl (by decide) (by decide) (by decide) (by decide)
    (by decide) (by decide)

/-- C10: `UpdateUserProfile` returns an error and leaves the ledger as it was whenever the
id argument is not accepted by `strconv.ParseInt(_, 10, 64)`, or the category is neither
`Prosumer` nor `Consumer`, or the source is none of `Solar`, `Wind`, `DG Set`, `Battery`;
the lookups compare the exact strings, so `prosumer` and ` Solar` are not table entries. -/
theorem C10_update_user_rejects (L : GoLib) (clock : Clock) (stub : Store)
    (a0 a1 a2 a3 a4 : String)
    (h : (∀ n, ParseInt a0 ≠ .ok n) ∨ (a1 ≠ "Prosumer" ∧ a1 ≠ "Consumer") ∨
      (a4 ≠ "Solar" ∧ a4 ≠ "Wind" ∧ a4 ≠ "DG Set" ∧ a4 ≠ "Battery")) :
    (∃ msg, UpdateUserProfile L clock stub [a0, a1, a2, a3, a4] = (.error msg, stub)) ∧
    parseUserCategory "prosumer" = .error "unknown user category" ∧
    parseEnergySource " Solar" = .error "unknown energy source" := by
  refine ⟨?_, by decide, by decide⟩
  simp only [UpdateUserProfile, GetState, parseUserCategory, parseEnergySource]
  cases hsan : sanitize_arguments [a0, a1, a2, a3, a4] with
  | some e => exact ⟨_, rfl⟩
  | none =>
    simp only []
    split
    · exact ⟨_, rfl⟩
    · cases hid : ParseInt a0 with
      | error e => exact ⟨_, rfl⟩
      | ok id =>
        cases hc : userCategoryMap.lookup a1 with
        | none => exact ⟨_, rfl⟩
        | some c =>
          cases hs : energySourceMap.lookup a4 with
          | none => exact ⟨_, rfl⟩
          | some sc =>
            exfalso
            rcases h with h | h | h
            · exact h id hid
            · rcases (userCategoryMap_lookup a1 c).mp hc with ⟨e, _⟩ | ⟨e, _⟩
              · exact h.1 e
              · exact h.2 e
            · rcases (energySourceMap_lookup a4 sc).mp hs with ⟨e, _⟩ | ⟨e, _⟩ | ⟨e, _⟩ | ⟨e, _⟩
              · exact h.1 e
              · exact h.2.1 e
              · exact h.2.2.1 e
              · exact h.2.2.2 e

/-- C10 at the lower-case category `prosumer`, on the empty ledger. -/
theorem C10_update_user_rejects_witness :
    (∃ msg, UpdateUserProfile exampleLib clock100 emptyStore
        ["1", "prosumer", "Location A", "Meter1", "Solar"] = (.error msg, emptyStore)) ∧
    parseUserCategory "prosumer" = .error "unknown user category" ∧
    parseEnergySource " Solar" = .error "unknown energy source" :=
  C10_update_user_rejects exampleLib clock100 emptyStore "1" "prosumer" "Location A" "Meter1"
    "Solar" (Or.inr (Or.inl (by decide)))

/-! ## RegisterOrder -/

theorem PutState_key (stub : Store) (key : String) (value : Bytes) (hk : key ≠ "") :
    PutState stub key value =
      .ok (fun k => if k = key then (if value.isEmpty then none else some value) else stub k) := by
  unfold PutState
  rw [if_neg hk]
  by_cases hv : value.isEmpty = true
  · simp [hv]
  · simp [hv]

theorem orderKey_ne_empty (x : String) : "Order_" ++ x ≠ "" := by
  intro h
  have := congrArg String.length h
  simp only [String.length_append] at this
  have h6 : "Order_".length = 6 := rfl
  have h0 : "".length = 0 := rfl
  omega

theorem orderKey_injective (x y : String) (h : "Order_" ++ x = "Order_" ++ y) : x = y := by
  have h1 := congrArg String.data h
  simp only [String.data_append] at h1
  have h2 := List.append_cancel_left h1
  exact String.ext h2

/-- The steps of `RegisterOrder` once every numeric argument has parsed. -/
theorem RegisterOrder_parsed (L : GoLib) (clock : Clock) (stub : Store)
    (a0 a1 a2 a3 a4 a5 a6 a7 a8 a9 a10 a11 : String)
    (n bm bs pid tq uid sed act : Int) (oc uc : Float64)
    (h2 : ParseInt a2 = .ok n) (h0 : ParseInt a0 = .ok bm) (h1 : ParseInt a1 = .ok bs)
    (h4 : ParseFloat L a4 = (oc, none)) (h5 : ParseInt a5 = .ok pid)
    (h7 : ParseInt a7 = .ok tq) (h8 : ParseFloat L a8 = (uc, none))
    (h9 : ParseInt a9 = .ok uid) (h10 : ParseInt a10 = .ok sed)
    (h11 : ParseInt a11 = .ok act) :
    RegisterOrder L clock stub [a0, a1, a2, a3, a4, a5, a6, a7, a8, a9, a10, a11] =
      match stub ("Order_" ++ FormatInt n) with
      | none =>
        if bs ≠ 0 ∧ bs ≠ 1 then
          (.error "Invalid BidStatus provided for new Order. It should be 0 or 1.", stub)
        else
          (.success none, fun k => if k = "Order_" ++ FormatInt n then
            (if (marshalOrder L
                  { BidMatchID := bm, BidStatus := bs, CreatedOn := (clock 0).unix, ID := n,
                    OnMarketPrice := a3, OrderCost := oc, PaymentID := pid, SlotID := a6,
                    SlotExecDate := sed, TotalQuantity := tq, UnitCost := uc,
                    UpdatedOn := (clock 1).unix, UserAction := act, UserID := uid }).isEmpty
             then none
             else some (marshalOrder L
                  { BidMatchID := bm, BidStatus := bs, CreatedOn := (clock 0).unix, ID := n,
                    OnMarketPrice := a3, OrderCost := oc, PaymentID := pid, SlotID := a6,
                    SlotExecDate := sed, TotalQuantity := tq, UnitCost := uc,
                    UpdatedOn := (clock 1).unix, UserAction := act, UserID := uid }))
            else stub k)
      | some b =>
        match unmarshalOrder L b with
        | .error e => (.error ("Failed to unmarshal existing order: " ++ e), stub)
        | .ok o =>
          (.success none, fun k => if k = "Order_" ++ FormatInt o.ID then
            (if (marshalOrder L
                  { BidMatchID := bm, BidStatus := bs, CreatedOn := o.CreatedOn, ID := o.ID,
                    OnMarketPrice := a3, OrderCost := oc, PaymentID := pid, SlotID := a6,
                    SlotExecDate := sed, TotalQuantity := tq, UnitCost := uc,
                    UpdatedOn := (clock 0).unix, UserAction := act, UserID := uid }).isEmpty
             then none
             else some (marshalOrder L
                  { BidMatchID := bm, BidStatus := bs, CreatedOn := o.CreatedOn, ID := o.ID,
                    OnMarketPrice := a3, OrderCost := oc, PaymentID := pid, SlotID := a6,
                    SlotExecDate := sed, TotalQuantity := tq, UnitCost := uc,
                    UpdatedOn := (clock 0).unix, UserAction := act, UserID := uid }))
            else stub k) := by
  simp only [RegisterOrder, RegisterOrder.load, h2, GetState]
  cases hst : stub ("Order_" ++ FormatInt n) with
  | none =>
    simp only [h0, h1, true_and, ne_eq]
    by_cases hbs : ¬ bs = 0 ∧ ¬ bs = 1
    · simp only [hbs, and_self, if_true, not_false_eq_true]
    · simp only [hbs, if_false, h4, h5, h7, h8, h9, h10, h11]
      rw [PutState_key _ _ _ (orderKey_ne_empty _)]
  | some b =>
    simp only []
    cases hu : unmarshalOrder L b with
    | error e => rfl
    | ok o =>
      simp only [h0, h1, h4, h5, h7, h8, h9, h10, h11, false_and, if_false]
      rw [PutState_key _ _ _ (orderKey_ne_empty _)]
      simp only [reduceCtorEq, false_and, if_false]

/-- C5: on a ledger with no value under `Order_<n>`, for 12 arguments whose third is the
order id `n` and whose numeric fields all parse, `RegisterOrder` returns success exactly
when the bid status argument is 0 or 1; for any other integer status it returns an error
and the ledger is unchanged. -/
theorem C5_new_order_status (L : GoLib) (clock : Clock) (stub : Store)
    (a0 a1 a2 a3 a4 a5 a6 a7 a8 a9 a10 a11 : String)
    (n bm bs pid tq uid sed act : Int) (oc uc : Float64)
    (h2 : ParseInt a2 = .ok n) (h0 : ParseInt a0 = .ok bm) (h1 : ParseInt a1 = .ok bs)
    (h4 : ParseFloat L a4 = (oc, none)) (h5 : ParseInt a5 = .ok pid)
    (h7 : ParseInt a7 = .ok tq) (h8 : ParseFloat L a8 = (uc, none))
    (h9 : ParseInt a9 = .ok uid) (h10 : ParseInt a10 = .ok sed)
    (h11 : ParseInt a11 = .ok act)
    (habs : stub ("Order_" ++ FormatInt n) = none) :
    ((RegisterOrder L clock stub [a0, a1, a2, a3, a4, a5, a6, a7, a8, a9, a10, a11]).1 =
        .success none ↔ (bs = 0 ∨ bs = 1)) ∧
    (¬ (bs = 0 ∨ bs = 1) →
      ∃ msg, RegisterOrder L clock stub [a0, a1, a2, a3, a4, a5, a6, a7, a8, a9, a10, a11] =
        (.error msg, stub)) := by
  rw [RegisterOrder_parsed L clock stub a0 a1 a2 a3 a4 a5 a6 a7 a8 a9 a10 a11
    n bm bs pid tq uid sed act oc uc h2 h0 h1 h4 h5 h7 h8 h9 h10 h11, habs]
  by_cases hbs : bs = 0 ∨ bs = 1
  · have hn : ¬ (bs ≠ 0 ∧ bs ≠ 1) := by
      rintro ⟨h0, h1⟩
      rcases hbs with h | h
      · exact h0 h
      · exact h1 h
    rw [if_neg hn]
    exact ⟨⟨fun _ => hbs, fun _ => rfl⟩, fun h => absurd hbs h⟩
  · have hn : bs ≠ 0 ∧ bs ≠ 1 := ⟨fun h => hbs (Or.inl h), fun h => hbs (Or.inr h)⟩
    rw [if_pos hn]
    exact ⟨⟨fun h => absurd h (by simp), fun h => absurd h hbs⟩, fun _ => ⟨_, rfl⟩⟩

/-- C5 at a fresh order 4 with bid status 0 on the empty ledger. -/
theorem C5_new_order_status_witness :
    ((RegisterOrder exampleLib clock100 emptyStore
        ["1", "0", "4", "2.5", "200", "5", "slot1234", "300", "3.5", "6", "50", "0"]).1 =
        .success none ↔ ((0 : Int) = 0 ∨ (0 : Int) = 1)) ∧
    (¬ ((0 : Int) = 0 ∨ (0 : Int) = 1) →
      ∃ msg, RegisterOrder exampleLib clock100 emptyStore
        ["1", "0", "4", "2.5", "200", "5", "slot1234", "300", "3.5", "6", "50", "0"] =
        (.error msg, emptyStore)) :=
  C5_new_order_status exampleLib clock100 emptyStore
    "1" "0" "4" "2.5" "200" "5" "slot1234" "300" "3.5" "6" "50" "0"
    4 1 0 5 300 6 50 0 (.fin 0x4069000000000000) (.fin 0x400C000000000000)
    (by decide) (by decide) (by decide) (by decide) (by decide) (by decide) (by decide)
    (by decide) (by decide) (by decide) rfl

/-- C7 (fails on the code): with the 13 positional arguments the repository's test
passes, `RegisterOrder` returns the arity error and writes nothing, on every ledger. -/
theorem C7_thirteen_arguments_rejected :
    ∀ (L : GoLib) (clock : Clock) (stub : Store),
      RegisterOrder L clock stub
        ["1", "0", "100", "4", "2.5", "200", "5", "slot1234", "300", "3.5", "6", "50", "Buy"] =
      (.error "Incorrect number of arguments. Expecting 12.", stub) := by
  intro L clock stub
  rfl

/-- C8 (fails on the code): two 12-argument lists that differ only in the third argument
(`4` against `5`).  The third argument is the order id: the first call stores order 4 under
`Order_4`, the second stores order 5 under `Order_5` and leaves `Order_4` empty, so the
ledgers differ. -/
theorem C8_third_argument_is_order_id :
    (RegisterOrder exampleLib clock100 emptyStore
        ["1", "0", "4", "2.5", "200", "5", "slot1234", "300", "3.5", "6", "50", "0"]).2
        "Order_4" =
      some (marshalOrder exampleLib
        { BidMatchID := 1, BidStatus := 0, CreatedOn := 100, ID := 4, OnMarketPrice := "2.5",
          OrderCost := .fin 0x4069000000000000, PaymentID := 5, SlotID := "slot1234",
          SlotExecDate := 50, TotalQuantity := 300, UnitCost := .fin 0x400C000000000000,
          UpdatedOn := 100, UserAction := 0, UserID := 6 }) ∧
    (RegisterOrder exampleLib clock100 emptyStore
        ["1", "0", "5", "2.5", "200", "5", "slot1234", "300", "3.5", "6", "50", "0"]).2
        "Order_4" = none ∧
    (RegisterOrder exampleLib clock100 emptyStore
        ["1", "0", "5", "2.5", "200", "5", "slot1234", "300", "3.5", "6", "50", "0"]).2
        "Order_5" =
      some (marshalOrder exampleLib
        { BidMatchID := 1, BidStatus := 0, CreatedOn := 100, ID := 5, OnMarketPrice := "2.5",
          OrderCost := .fin 0x4069000000000000, PaymentID := 5, SlotID := "slot1234",
          SlotExecDate := 50, TotalQuantity := 300, UnitCost := .fin 0x400C000000000000,
          UpdatedOn := 100, UserAction := 0, UserID := 6 }) ∧
    (RegisterOrder exampleLib clock100 emptyStore
        ["1", "0", "4", "2.5", "200", "5", "slot1234", "300", "3.5", "6", "50", "0"]).2 ≠
      (RegisterOrder exampleLib clock100 emptyStore
        ["1", "0", "5", "2.5", "200", "5", "slot1234", "300", "3.5", "6", "50", "0"]).2 := by
  refine ⟨by decide, by decide, by decide, ?_⟩
  intro h
  have h4 := congrFun h "Order_4"
  revert h4
  decide

/-- C9 (fails on the code): the ledger after one `RegisterOrder` call on the empty ledger
with action argument `7` is reachable and holds under `Order_4` an order whose action is 7,
a code of no table entry; the stored bytes decode to that order. -/
theorem C9_action_code_unchecked :
    Reachable exampleLib
      (RegisterOrder exampleLib clock100 emptyStore
        ["1", "0", "4", "2.5", "200", "5", "slot1234", "300", "3.5", "6", "50", "7"]).2 ∧
    (RegisterOrder exampleLib clock100 emptyStore
        ["1", "0", "4", "2.5", "200", "5", "slot1234", "300", "3.5", "6", "50", "7"]).1 =
      .success none ∧
    (RegisterOrder exampleLib clock100 emptyStore
        ["1", "0", "4", "2.5", "200", "5", "slot1234", "300", "3.5", "6", "50", "7"]).2
        "Order_4" =
      some (marshalOrder exampleLib
        { BidMatchID := 1, BidStatus := 0, CreatedOn := 100, ID := 4, OnMarketPrice := "2.5",
          OrderCost := .fin 0x4069000000000000, PaymentID := 5, SlotID := "slot1234",
          SlotExecDate := 50, TotalQuantity := 300, UnitCost := .fin 0x400C000000000000,
          UpdatedOn := 100, UserAction := 7, UserID := 6 }) ∧
    unmarshalOrder exampleLib (marshalOrder exampleLib
        { BidMatchID := 1, BidStatus := 0, CreatedOn := 100, ID := 4, OnMarketPrice := "2.5",
          OrderCost := .fin 0x4069000000000000, PaymentID := 5, SlotID := "slot1234",
          SlotExecDate := 50, TotalQuantity := 300, UnitCost := .fin 0x400C000000000000,
          UpdatedOn := 100, UserAction := 7, UserID := 6 }) =
      .ok { BidMatchID := 1, BidStatus := 0, CreatedOn := 100, ID := 4, OnMarketPrice := "2.5",
            OrderCost := .fin 0x4069000000000000, PaymentID := 5, SlotID := "slot1234",
            SlotExecDate := 50, TotalQuantity := 300, UnitCost := .fin 0x400C000000000000,
            UpdatedOn := 100, UserAction := 7, UserID := 6 } ∧
    ¬ ((0 : Int) ≤ 7 ∧ (7 : Int) ≤ 1) ∧ actionMap.all (fun e => decide (e.2 ≠ 7)) = true := by
  refine ⟨Reachable.registerOrder _ _ _ Reachable.empty, by decide, by decide, by decide,
    by decide, by decide⟩

/-! ### Orders that `RegisterOrder` wrote -/

theorem storeInt_isInt64 (field : String) (a : JAtom) (old v : Int)
    (h : storeInt field a old = .ok v) (hold : isInt64 old) : isInt64 v := by
  unfold storeInt at h
  split at h
  · simp only [Except.ok.injEq] at h; subst h; exact hold
  · split at h
    · rename_i m hm
      simp only [Except.ok.injEq] at h; subst h
      exact parseIntKind_isInt64 _ _ hm
    · exact absurd h (by simp)
  · exact absurd h (by simp)

theorem except_map_ok {ε α β : Type} (x : Except ε α) (f : α → β) (y : β)
    (h : x.map f = .ok y) : ∃ v, x = .ok v ∧ y = f v := by
  cases x with
  | error e => exact absurd h (by simp [Except.map])
  | ok v =>
    simp only [Except.map, Except.ok.injEq] at h
    exact ⟨v, rfl, h.symm⟩

theorem orderSetField_int64 (L : GoLib) (o o1 : Order) (name : String) (a : JAtom)
    (ho : o.int64) (h : Order.setField L o name a = .ok o1) : o1.int64 := by
  obtain ⟨i1, i2, i3, i4, i5, i6, i7, i8, i9, i10⟩ := ho
  unfold Order.setField at h
  by_cases c0 : name = "bidMatchId"
  · rw [if_pos c0] at h
    obtain ⟨v, hv, rfl⟩ := except_map_ok _ _ _ h
    have hi := storeInt_isInt64 _ _ _ _ hv i1
    exact ⟨hi, i2, i3, i4, i5, i6, i7, i8, i9, i10⟩
  · rw [if_neg c0] at h
    by_cases c1 : name = "bidStatus"
    · rw [if_pos c1] at h
      obtain ⟨v, hv, rfl⟩ := except_map_ok _ _ _ h
      have hi := storeInt_isInt64 _ _ _ _ hv i2
      exact ⟨i1, hi, i3, i4, i5, i6, i7, i8, i9, i10⟩
    · rw [if_neg c1] at h
      by_cases c2 : name = "createdOn"
      · rw [if_pos c2] at h
        obtain ⟨v, hv, rfl⟩ := except_map_ok _ _ _ h
        have hi := storeInt_isInt64 _ _ _ _ hv i3
        exact ⟨i1, i2, hi, i4, i5, i6, i7, i8, i9, i10⟩
      · rw [if_neg c2] at h
        by_cases c3 : name = "id"
        · rw [if_pos c3] at h
          obtain ⟨v, hv, rfl⟩ := except_map_ok _ _ _ h
          have hi := storeInt_isInt64 _ _ _ _ hv i4
          exact ⟨i1, i2, i3, hi, i5, i6, i7, i8, i9, i10⟩
        · rw [if_neg c3] at h
          by_cases c4 : name = "onMarketPrice"
          · rw [if_pos c4] at h
            obtain ⟨v, _, rfl⟩ := except_map_ok _ _ _ h
            exact ⟨i1, i2, i3, i4, i5, i6, i7, i8, i9, i10⟩
          · rw [if_neg c4] at h
            by_cases c5 : name = "status"
            · rw [if_pos c5] at h
              obtain ⟨v, _, rfl⟩ := except_map_ok _ _ _ h
              exact ⟨i1, i2, i3, i4, i5, i6, i7, i8, i9, i10⟩
            · rw [if_neg c5] at h
              by_cases c6 : name = "paymentId"
              · rw [if_pos c6] at h
                obtain ⟨v, hv, rfl⟩ := except_map_ok _ _ _ h
                have hi := storeInt_isInt64 _ _ _ _ hv i5
                exact ⟨i1, i2, i3, i4, hi, i6, i7, i8, i9, i10⟩
              · rw [if_neg c6] at h
                by_cases c7 : name = "slotId"
                · rw [if_pos c7] at h
                  obtain ⟨v, _, rfl⟩ := except_map_ok _ _ _ h
                  exact ⟨i1, i2, i3, i4, i5, i6, i7, i8, i9, i10⟩
                · rw [if_neg c7] at h
                  by_cases c8 : name = "slotExecDate"
                  · rw [if_pos c8] at h
                    obtain ⟨v, hv, rfl⟩ := except_map_ok _ _ _ h
                    have hi := storeInt_isInt64 _ _ _ _ hv i6
                    exact ⟨i1, i2, i3, i4, i5, hi, i7, i8, i9, i10⟩
                  · rw [if_neg c8] at h
                    by_cases c9 : name = "totalQuantity"
                    · rw [if_pos c9] at h
                      obtain ⟨v, hv, rfl⟩ := except_map_ok _ _ _ h
                      have hi := storeInt_isInt64 _ _ _ _ hv i7
                      exact ⟨i1, i2, i3, i4, i5, i6, hi, i8, i9, i10⟩
                    · rw [if_neg c9] at h
                      by_cases c10 : name = "unitCost"
                      · rw [if_pos c10] at h
                        obtain ⟨v, _, rfl⟩ := except_map_ok _ _ _ h
                        exact ⟨i1, i2, i3, i4, i5, i6, i7, i8, i9, i10⟩
                      · rw [if_neg c10] at h
                        by_cases c11 : name = "updatedOn"
                        · rw [if_pos c11] at h
                          obtain ⟨v, hv, rfl⟩ := except_map_ok _ _ _ h
                          have hi := storeInt_isInt64 _ _ _ _ hv i8
                          exact ⟨i1, i2, i3, i4, i5, i6, i7, hi, i9, i10⟩
                        · rw [if_neg c11] at h
                          by_cases c12 : name = "action"
                          · rw [if_pos c12] at h
                            obtain ⟨v, hv, rfl⟩ := except_map_ok _ _ _ h
                            have hi := storeInt_isInt64 _ _ _ _ hv i9
                            exact ⟨i1, i2, i3, i4, i5, i6, i7, i8, hi, i10⟩
                          · rw [if_neg c12] at h
                            by_cases c13 : name = "userId"
                            · rw [if_pos c13] at h
                              obtain ⟨v, hv, rfl⟩ := except_map_ok _ _ _ h
                              have hi := storeInt_isInt64 _ _ _ _ hv i10
                              exact ⟨i1, i2, i3, i4, i5, i6, i7, i8, i9, hi⟩
                            · rw [if_neg c13] at h
                              simp only [Except.ok.injEq] at h
                              subst h
                              exact ⟨i1, i2, i3, i4, i5, i6, i7, i8, i9, i10⟩

theorem decodeMembers_invariant {α : Type} (L : GoLib) (names : List String)
    (set : α → String → JAtom → Except JsonError α) (P : α → Prop)
    (hset : ∀ x name a y, P x → set x name a = .ok y → P y) :
    ∀ (ms : List (String × JAtom)) (x y : α),
      P x → decodeMembers L names set ms x = .ok y → P y := by
  intro ms
  induction ms with
  | nil =>
    intro x y hx h
    simp only [decodeMembers, Except.ok.injEq] at h
    subst h; exact hx
  | cons m ms ih =>
    intro x y hx h
    obtain ⟨k, a⟩ := m
    simp only [decodeMembers] at h
    split at h
    · exact ih x y hx h
    · split at h
      · rename_i x1 hx1
        exact ih x1 y (hset _ _ _ _ hx hx1) h
      · exact absurd h (by simp)

theorem Unmarshal_ok {α : Type} (L : GoLib) (names : List String)
    (set : α → String → JAtom → Except JsonError α) (zero : α) (typeName : String)
    (b : Bytes) (x : α) (h : Unmarshal L names set zero typeName b = .ok x) :
    ∃ d, decodeDoc L names set zero typeName d = .ok x ∧
      (b = .json d ∨ ∃ t, b = .text t ∧ L.scan t = .ok d) := by
  cases b with
  | text t =>
    simp only [Unmarshal] at h
    cases hs : L.scan t with
    | error m => rw [hs] at h; exact absurd h (by simp)
    | ok d =>
      rw [hs] at h
      simp only at h
      cases hx : decodeDoc L names set zero typeName d with
      | error e => rw [hx] at h; exact absurd h (by simp)
      | ok y =>
        rw [hx] at h
        simp only [Except.ok.injEq] at h
        subst h
        exact ⟨d, hx, Or.inr ⟨t, rfl, hs⟩⟩
  | json d =>
    simp only [Unmarshal] at h
    cases hx : decodeDoc L names set zero typeName d with
    | error e => rw [hx] at h; exact absurd h (by simp)
    | ok y =>
      rw [hx] at h
      simp only [Except.ok.injEq] at h
      subst h
      exact ⟨d, hx, Or.inl rfl⟩

theorem unmarshalOrder_int64 (L : GoLib) (b : Bytes) (o : Order)
    (h : unmarshalOrder L b = .ok o) : o.int64 := by
  have hdef : (default : Order).int64 := by
    refine ⟨?_, ?_, ?_, ?_, ?_, ?_, ?_, ?_, ?_, ?_⟩ <;> decide
  obtain ⟨d, hd, _⟩ := Unmarshal_ok L _ _ _ _ b o h
  unfold decodeDoc at hd
  split at hd
  · simp only [Except.ok.injEq] at hd; subst hd; exact hdef
  · exact absurd hd (by simp)
  · exact decodeMembers_invariant L _ _ Order.int64
      (fun x name a y hx hy => orderSetField_int64 L x y name a hx hy) _ _ _ hdef hd

theorem RegisterOrder_success_inv (L : GoLib) (clock : Clock) (stub : Store)
    (args : List String) (h : (RegisterOrder L clock stub args).1 = .success none) :
    ∃ (a0 a1 a2 a3 a4 a5 a6 a7 a8 a9 a10 a11 : String) (n bm bs pid tq uid sed act : Int)
      (oc uc : Float64),
      args = [a0, a1, a2, a3, a4, a5, a6, a7, a8, a9, a10, a11] ∧
      ParseInt a2 = .ok n ∧ ParseInt a0 = .ok bm ∧ ParseInt a1 = .ok bs ∧
      ParseFloat L a4 = (oc, none) ∧ ParseInt a5 = .ok pid ∧ ParseInt a7 = .ok tq ∧
      ParseFloat L a8 = (uc, none) ∧ ParseInt a9 = .ok uid ∧ ParseInt a10 = .ok sed ∧
      ParseInt a11 = .ok act := by
  unfold RegisterOrder at h
  split at h
  · rename_i a0 a1 a2 a3 a4 a5 a6 a7 a8 a9 a10 a11
    cases h2 : ParseInt a2 with
    | error e => rw [h2] at h; exact absurd h (by simp)
    | ok n =>
    rw [h2] at h
    simp only at h
    cases hl : RegisterOrder.load L clock (GetState stub ("Order_" ++ FormatInt n)) n with
    | error e => rw [hl] at h; exact absurd h (by simp)
    | ok p =>
    obtain ⟨order0, readings⟩ := p
    rw [hl] at h
    simp only at h
    cases h0 : ParseInt a0 with
    | error e => rw [h0] at h; exact absurd h (by simp)
    | ok bm =>
    rw [h0] at h
    simp only at h
    cases h1 : ParseInt a1 with
    | error e => rw [h1] at h; exact absurd h (by simp)
    | ok bs =>
    rw [h1] at h
    simp only at h
    split_ifs at h
    rcases h4 : ParseFloat L a4 with ⟨oc, _ | e⟩
    swap
    · rw [h4] at h; exact absurd h (by simp)
    rw [h4] at h
    simp only at h
    cases h5 : ParseInt a5 with
    | error e => rw [h5] at h; exact absurd h (by simp)
    | ok pid =>
    rw [h5] at h
    simp only at h
    cases h7 : ParseInt a7 with
    | error e => rw [h7] at h; exact absurd h (by simp)
    | ok tq =>
    rw [h7] at h
    simp only at h
    rcases h8 : ParseFloat L a8 with ⟨uc, _ | e⟩
    swap
    · rw [h8] at h; exact absurd h (by simp)
    rw [h8] at h
    simp only at h
    cases h9 : ParseInt a9 with
    | error e => rw [h9] at h; exact absurd h (by simp)
    | ok uid =>
    rw [h9] at h
    simp only at h
    cases h10 : ParseInt a10 with
    | error e => rw [h10] at h; exact absurd h (by simp)
    | ok sed =>
    rw [h10] at h
    simp only at h
    cases h11 : ParseInt a11 with
    | error e => rw [h11] at h; exact absurd h (by simp)
    | ok act =>
    exact ⟨a0, a1, a2, a3, a4, a5, a6, a7, a8, a9, a10, a11, n, bm, bs, pid, tq, uid, sed, act,
      oc, uc, rfl, h2, h0, h1, h4, h5, h7, h8, h9, h10, h11⟩
  · exact absurd h (by simp)

theorem unmarshalOrder_encode (L : GoLib) (o1 o : Order) (hi : o1.int64)
    (h : unmarshalOrder L (.json (.obj (o1.encode L))) = .ok o) :
    o.ID = o1.ID ∧ o.CreatedOn = o1.CreatedOn := by
  obtain ⟨i1, i2, i3, i4, i5, i6, i7, i8, i9, i10⟩ := hi
  simp only [unmarshalOrder, Unmarshal, decodeDoc, Order.encode, decodeMembers, findField,
    Order.fieldNames, Order.setField, storeInt_jInt, storeString, storeFloat, jFloat,
    Except.map, i1, i2, i3, i4, i5, i6, i7, i8, i9, i10] at h
  simp at h
  rcases hp1 : L.parseFloat (L.formatFloat o1.OrderCost) with ⟨f1, _ | e1⟩
  · rcases hp2 : L.parseFloat (L.formatFloat o1.UnitCost) with ⟨f2, _ | e2⟩
    · simp [hp1, hp2] at h
      subst h
      exact ⟨rfl, rfl⟩
    · simp [hp1, hp2] at h
  · simp [hp1] at h

theorem marshalOrder_finite (L : GoLib) (o : Order)
    (h1 : o.OrderCost.isFinite = true) (h2 : o.UnitCost.isFinite = true) :
    marshalOrder L o = .json (.obj (o.encode L)) := by
  unfold marshalOrder
  rw [if_pos ⟨h1, h2⟩]

theorem marshalOrder_cases (L : GoLib) (o : Order) :
    (marshalOrder L o = .json (.obj (o.encode L)) ∧ (marshalOrder L o).isEmpty = false) ∨
      (marshalOrder L o).isEmpty = true := by
  unfold marshalOrder
  split_ifs
  · exact Or.inl ⟨rfl, rfl⟩
  · exact Or.inr rfl

/-- What a stored value is when `RegisterOrder` wrote it under `Order_<n>`: the document of
an order with id `n` whose integer fields are `int64`. -/
theorem writtenByRegisterOrder_shape (L : GoLib) (n : Int) (b : Bytes) (hn : isInt64 n)
    (h : WrittenByRegisterOrder L ("Order_" ++ FormatInt n) b) :
    ∃ o1 : Order, o1.int64 ∧ o1.ID = n ∧ b = .json (.obj (o1.encode L)) := by
  obtain ⟨clock, stub, args, hsucc, hne, heq⟩ := h
  obtain ⟨a0, a1, a2, a3, a4, a5, a6, a7, a8, a9, a10, a11, m, bm, bs, pid, tq, uid, sed, act,
    oc, uc, rfl, h2, h0, h1, h4, h5, h7, h8, h9, h10, h11⟩ :=
    RegisterOrder_success_inv L clock stub args hsucc
  have im := ParseInt_isInt64 _ _ h2
  have ibm := ParseInt_isInt64 _ _ h0
  have ibs := ParseInt_isInt64 _ _ h1
  have ipid := ParseInt_isInt64 _ _ h5
  have itq := ParseInt_isInt64 _ _ h7
  have iuid := ParseInt_isInt64 _ _ h9
  have ised := ParseInt_isInt64 _ _ h10
  have iact := ParseInt_isInt64 _ _ h11
  rw [RegisterOrder_parsed L clock stub a0 a1 a2 a3 a4 a5 a6 a7 a8 a9 a10 a11
    m bm bs pid tq uid sed act oc uc h2 h0 h1 h4 h5 h7 h8 h9 h10 h11] at heq hsucc
  -- the value put under the key of the order written, for either branch
  have key : ∀ (o1 : Order) (st : Store), o1.int64 →
      st = (fun k => if k = "Order_" ++ FormatInt o1.ID then
            (if (marshalOrder L o1).isEmpty then none else some (marshalOrder L o1))
          else stub k) →
      st ("Order_" ++ FormatInt n) = some b →
      ∃ o1 : Order, o1.int64 ∧ o1.ID = n ∧ b = .json (.obj (o1.encode L)) := by
    intro o1 st hi hst hb
    subst hst
    simp only at hb
    by_cases hk : "Order_" ++ FormatInt n = "Order_" ++ FormatInt o1.ID
    · rw [if_pos hk] at hb
      have hid : n = o1.ID := FormatInt_injective n o1.ID hn hi.2.2.2.1 (orderKey_injective _ _ hk)
      rcases marshalOrder_cases L o1 with ⟨hj, he⟩ | he
      · rw [he] at hb
        simp only [Bool.false_eq_true, if_false, Option.some.injEq] at hb
        exact ⟨o1, hi, hid.symm, by rw [← hb, hj]⟩
      · rw [he] at hb
        simp at hb
    · rw [if_neg hk] at hb
      exact absurd hb hne
  cases hst : stub ("Order_" ++ FormatInt m) with
  | none =>
    rw [hst] at heq hsucc
    simp only at heq hsucc
    by_cases hbs : bs ≠ 0 ∧ bs ≠ 1
    · rw [if_pos hbs] at hsucc
      exact absurd hsucc (by simp)
    · rw [if_neg hbs] at heq
      simp only at heq
      exact key
        { BidMatchID := bm, BidStatus := bs, CreatedOn := (clock 0).unix, ID := m,
          OnMarketPrice := a3, OrderCost := oc, PaymentID := pid, SlotID := a6,
          SlotExecDate := sed, TotalQuantity := tq, UnitCost := uc,
          UpdatedOn := (clock 1).unix, UserAction := act, UserID := uid } _
        ⟨ibm, ibs, (clock 0).unix_int64, im, ipid, ised, itq, (clock 1).unix_int64, iact, iuid⟩
        rfl heq
  | some b0 =>
    rw [hst] at heq hsucc
    simp only at heq hsucc
    cases hu : unmarshalOrder L b0 with
    | error e =>
      rw [hu] at hsucc
      exact absurd hsucc (by simp)
    | ok o =>
      rw [hu] at heq
      simp only at heq
      have io := unmarshalOrder_int64 L b0 o hu
      exact key
        { BidMatchID := bm, BidStatus := bs, CreatedOn := o.CreatedOn, ID := o.ID,
          OnMarketPrice := a3, OrderCost := oc, PaymentID := pid, SlotID := a6,
          SlotExecDate := sed, TotalQuantity := tq, UnitCost := uc,
          UpdatedOn := (clock 0).unix, UserAction := act, UserID := uid } _
        ⟨ibm, ibs, io.2.2.1, io.2.2.2.1, ipid, ised, itq, (clock 0).unix_int64, iact, iuid⟩
        rfl heq

/-- C6 as stated fails: order 4 is registered on the empty ledger, then registered again
with the order cost `NaN`, which `strconv.ParseFloat` accepts.  `json.Marshal` rejects NaN,
the handler drops that error and puts nil bytes: the call returns success and `Order_4`
holds no order any more.  And registered again with the on-market price that is the one
byte 0xFF, which is not valid UTF-8, the order left under `Order_4` has U+FFFD as its
on-market price, not the argument. -/
theorem C6_counterexample :
    (RegisterOrder exampleLib clock100 emptyStore
        ["1", "0", "4", "2.5", "200", "5", "slot1234", "300", "3.5", "6", "50", "0"]).1 =
      .success none ∧
    (RegisterOrder exampleLib clock100 emptyStore
        ["1", "0", "4", "2.5", "200", "5", "slot1234", "300", "3.5", "6", "50", "0"]).2
        "Order_4" =
      some (marshalOrder exampleLib
        { BidMatchID := 1, BidStatus := 0, CreatedOn := 100, ID := 4, OnMarketPrice := "2.5",
          OrderCost := .fin 0x4069000000000000, PaymentID := 5, SlotID := "slot1234",
          SlotExecDate := 50, TotalQuantity := 300, UnitCost := .fin 0x400C000000000000,
          UpdatedOn := 100, UserAction := 0, UserID := 6 }) ∧
    ParseFloat exampleLib "NaN" = (.nan, none) ∧
    (RegisterOrder exampleLib clock200
        (RegisterOrder exampleLib clock100 emptyStore
          ["1", "0", "4", "2.5", "200", "5", "slot1234", "300", "3.5", "6", "50", "0"]).2
        ["1", "0", "4", "2.5", "NaN", "5", "slot1234", "300", "3.5", "6", "50", "0"]).1 =
      .success none ∧
    (RegisterOrder exampleLib clock200
        (RegisterOrder exampleLib clock100 emptyStore
          ["1", "0", "4", "2.5", "200", "5", "slot1234", "300", "3.5", "6", "50", "0"]).2
        ["1", "0", "4", "2.5", "NaN", "5", "slot1234", "300", "3.5", "6", "50", "0"]).2
        "Order_4" = none ∧
    (RegisterOrder exampleLib clock200
        (RegisterOrder exampleLib clock100 emptyStore
          ["1", "0", "4", "2.5", "200", "5", "slot1234", "300", "3.5", "6", "50", "0"]).2
        ["1", "0", "4", "\xff", "200", "5", "slot1234", "300", "3.5", "6", "50", "0"]).1 =
      .success none ∧
    ((RegisterOrder exampleLib clock200
        (RegisterOrder exampleLib clock100 emptyStore
          ["1", "0", "4", "2.5", "200", "5", "slot1234", "300", "3.5", "6", "50", "0"]).2
        ["1", "0", "4", "\xff", "200", "5", "slot1234", "300", "3.5", "6", "50", "0"]).2
        "Order_4").map (unmarshalOrder exampleLib) =
      some (.ok { BidMatchID := 1, BidStatus := 0, CreatedOn := 100, ID := 4,
                  OnMarketPrice := "\xef\xbf\xbd", OrderCost := .fin 0x4069000000000000,
                  PaymentID := 5, SlotID := "slot1234", SlotExecDate := 50,
                  TotalQuantity := 300, UnitCost := .fin 0x400C000000000000,
                  UpdatedOn := 200, UserAction := 0, UserID := 6 }) ∧
    ("\xef\xbf\xbd" : String) ≠ "\xff" := by
  refine ⟨by decide, by decide, by decide, by decide, by decide, by decide, by decide,
    by decide⟩

/-- C6, amended: on a ledger whose key `Order_<n>` holds an order written by
`RegisterOrder`, a further `RegisterOrder` with order id `n` (third argument) whose numeric
arguments parse, the order cost and unit cost to finite numbers, succeeds, changes no key
but `Order_<n>`, and leaves there the order with the same id `n` and the same `createdOn`
as the order held before, the other fields equal to the new arguments and `updatedOn` equal
to the clock reading (encoded as `json.Marshal` writes it: a string argument stands in it
as it is when it is valid UTF-8). -/
theorem C6_update_order (L : GoLib) (clock : Clock) (stub : Store)
    (a0 a1 a2 a3 a4 a5 a6 a7 a8 a9 a10 a11 : String)
    (n bm bs pid tq uid sed act : Int) (oc uc : Float64) (b : Bytes) (o : Order)
    (h2 : ParseInt a2 = .ok n) (h0 : ParseInt a0 = .ok bm) (h1 : ParseInt a1 = .ok bs)
    (h4 : ParseFloat L a4 = (oc, none)) (h5 : ParseInt a5 = .ok pid)
    (h7 : ParseInt a7 = .ok tq) (h8 : ParseFloat L a8 = (uc, none))
    (h9 : ParseInt a9 = .ok uid) (h10 : ParseInt a10 = .ok sed)
    (h11 : ParseInt a11 = .ok act)
    (hoc : oc.isFinite = true) (huc : uc.isFinite = true)
    (hb : stub ("Order_" ++ FormatInt n) = some b)
    (hw : WrittenByRegisterOrder L ("Order_" ++ FormatInt n) b)
    (ho : unmarshalOrder L b = .ok o) :
    (RegisterOrder L clock stub [a0, a1, a2, a3, a4, a5, a6, a7, a8, a9, a10, a11]).1 =
      .success none ∧
    (∀ k, k ≠ "Order_" ++ FormatInt n →
      (RegisterOrder L clock stub [a0, a1, a2, a3, a4, a5, a6, a7, a8, a9, a10, a11]).2 k =
        stub k) ∧
    o.ID = n ∧
    (RegisterOrder L clock stub [a0, a1, a2, a3, a4, a5, a6, a7, a8, a9, a10, a11]).2
        ("Order_" ++ FormatInt n) =
      some (.json (.obj (Order.encode L
        { BidMatchID := bm, BidStatus := bs, CreatedOn := o.CreatedOn, ID := n,
          OnMarketPrice := a3, OrderCost := oc, PaymentID := pid, SlotID := a6,
          SlotExecDate := sed, TotalQuantity := tq, UnitCost := uc,
          UpdatedOn := (clock 0).unix, UserAction := act, UserID := uid }))) := by
  have hn := ParseInt_isInt64 _ _ h2
  obtain ⟨o1, hi1, hid1, hb1⟩ := writtenByRegisterOrder_shape L n b hn hw
  subst hb1
  have hid : o.ID = n := by
    rw [← hid1]
    exact (unmarshalOrder_encode L o1 o hi1 ho).1
  rw [RegisterOrder_parsed L clock stub a0 a1 a2 a3 a4 a5 a6 a7 a8 a9 a10 a11
    n bm bs pid tq uid sed act oc uc h2 h0 h1 h4 h5 h7 h8 h9 h10 h11, hb]
  simp only [ho, hid]
  rw [marshalOrder_finite L _ hoc huc]
  refine ⟨trivial, ?_, trivial, ?_⟩
  · intro k hk
    simp only [hk, if_false]
  · simp only [if_true, Bytes.isEmpty, Bool.false_eq_true, if_false]

/-- C6 amended, at the scenario of the spec: order 4 registered on the empty ledger at
second 100, registered again at second 200 with a changed unit cost. -/
theorem C6_update_order_witness :
    (RegisterOrder exampleLib clock200
        (RegisterOrder exampleLib clock100 emptyStore
          ["1", "0", "4", "2.5", "200", "5", "slot1234", "300", "3.5", "6", "50", "0"]).2
        ["1", "1", "4", "2.5", "200", "5", "slot1234", "300", "2.5", "6", "50", "0"]).1 =
      .success none ∧
    (∀ k, k ≠ "Order_" ++ FormatInt 4 →
      (RegisterOrder exampleLib clock200
        (RegisterOrder exampleLib clock100 emptyStore
          ["1", "0", "4", "2.5", "200", "5", "slot1234", "300", "3.5", "6", "50", "0"]).2
        ["1", "1", "4", "2.5", "200", "5", "slot1234", "300", "2.5", "6", "50", "0"]).2 k =
      (RegisterOrder exampleLib clock100 emptyStore
          ["1", "0", "4", "2.5", "200", "5", "slot1234", "300", "3.5", "6", "50", "0"]).2 k) ∧
    (4 : Int) = 4 ∧
    (RegisterOrder exampleLib clock200
        (RegisterOrder exampleLib clock100 emptyStore
          ["1", "0", "4", "2.5", "200", "5", "slot1234", "300", "3.5", "6", "50", "0"]).2
        ["1", "1", "4", "2.5", "200", "5", "slot1234", "300", "2.5", "6", "50", "0"]).2
        ("Order_" ++ FormatInt 4) =
      some (.json (.obj (Order.encode exampleLib
        { BidMatchID := 1, BidStatus := 1, CreatedOn := 100, ID := 4,
          OnMarketPrice := "2.5", OrderCost := .fin 0x4069000000000000, PaymentID := 5,
          SlotID := "slot1234", SlotExecDate := 50, TotalQuantity := 300,
          UnitCost := .fin 0x4004000000000000, UpdatedOn := (clock200 0).unix,
          UserAction := 0, UserID := 6 }))) :=
  C6_update_order exampleLib clock200
    (RegisterOrder exampleLib clock100 emptyStore
      ["1", "0", "4", "2.5", "200", "5", "slot1234", "300", "3.5", "6", "50", "0"]).2
    "1" "1" "4" "2.5" "200" "5" "slot1234" "300" "2.5" "6" "50" "0"
    4 1 1 5 300 6 50 0 (.fin 0x4069000000000000) (.fin 0x4004000000000000)
    (marshalOrder exampleLib
      { BidMatchID := 1, BidStatus := 0, CreatedOn := 100, ID := 4, OnMarketPrice := "2.5",
        OrderCost := .fin 0x4069000000000000, PaymentID := 5, SlotID := "slot1234",
        SlotExecDate := 50, TotalQuantity := 300, UnitCost := .fin 0x400C000000000000,
        UpdatedOn := 100, UserAction := 0, UserID := 6 })
    { BidMatchID := 1, BidStatus := 0, CreatedOn := 100, ID := 4, OnMarketPrice := "2.5",
      OrderCost := .fin 0x4069000000000000, PaymentID := 5, SlotID := "slot1234",
      SlotExecDate := 50, TotalQuantity := 300, UnitCost := .fin 0x400C000000000000,
      UpdatedOn := 100, UserAction := 0, UserID := 6 }
    (by decide) (by decide) (by decide) (by decide) (by decide) (by decide) (by decide)
    (by decide) (by decide) (by decide) rfl rfl (by decide)
    ⟨clock100, emptyStore,
      ["1", "0", "4", "2.5", "200", "5", "slot1234", "300", "3.5", "6", "50", "0"],
      by decide, by decide, by decide⟩
    (by decide)

/-! ## The enumeration tables -/

/-- C11: for each of the five tables, every entry of the label-to-code map is found by its
label and its code is sent back to that label by the `...String` function; every code from
0 to the table size minus one is in bounds for the `...String` function and is the code its
label maps to; and the codes, in declaration order, are 0, 1, 2, … -/
theorem C11_tables_round_trip :
    ((∀ e ∈ energyBidMap, energyBidMap.lookup e.1 = some e.2 ∧
          EnergyBidStatusString e.2 = some e.1) ∧
      (∀ c : Nat, c < energyBidMap.length →
          ∃ l, EnergyBidStatusString c = some l ∧ energyBidMap.lookup l = some (c : Int)) ∧
      energyBidMap.map Prod.snd = [0, 1, 2, 3, 4]) ∧
    ((∀ e ∈ energySourceMap, energySourceMap.lookup e.1 = some e.2 ∧
          EnergySourceString e.2 = some e.1) ∧
      (∀ c : Nat, c < energySourceMap.length →
          ∃ l, EnergySourceString c = some l ∧ energySourceMap.lookup l = some (c : Int)) ∧
      energySourceMap.map Prod.snd = [0, 1, 2, 3]) ∧
    ((∀ e ∈ actionMap, actionMap.lookup e.1 = some e.2 ∧ ActionString e.2 = some e.1) ∧
      (∀ c : Nat, c < actionMap.length →
          ∃ l, ActionString c = some l ∧ actionMap.lookup l = some (c : Int)) ∧
      actionMap.map Prod.snd = [0, 1]) ∧
    ((∀ e ∈ userCategoryMap, userCategoryMap.lookup e.1 = some e.2 ∧
          UserCategoryString e.2 = some e.1) ∧
      (∀ c : Nat, c < userCategoryMap.length →
          ∃ l, UserCategoryString c = some l ∧ userCategoryMap.lookup l = some (c : Int)) ∧
      userCategoryMap.map Prod.snd = [0, 1]) ∧
    ((∀ e ∈ paymentTypeMap, paymentTypeMap.lookup e.1 = some e.2 ∧
          PaymentTypeString e.2 = some e.1) ∧
      (∀ c : Nat, c < paymentTypeMap.length →
          ∃ l, PaymentTypeString c = some l ∧ paymentTypeMap.lookup l = some (c : Int)) ∧
      paymentTypeMap.map Prod.snd = [0, 1, 2, 3, 4]) := by
  refine ⟨⟨by decide, ?_, by decide⟩, ⟨by decide, ?_, by decide⟩, ⟨by decide, ?_, by decide⟩,
    ⟨by decide, ?_, by decide⟩, ⟨by decide, ?_, by decide⟩⟩
  · intro c hc
    have hc5 : c < 5 := hc
    interval_cases c <;> exact ⟨_, rfl, by decide⟩
  · intro c hc
    have hc4 : c < 4 := hc
    interval_cases c <;> exact ⟨_, rfl, by decide⟩
  · intro c hc
    have hc2 : c < 2 := hc
    interval_cases c <;> exact ⟨_, rfl, by decide⟩
  · intro c hc
    have hc2 : c < 2 := hc
    interval_cases c <;> exact ⟨_, rfl, by decide⟩
  · intro c hc
    have hc5 : c < 5 := hc
    interval_cases c <;> exact ⟨_, rfl, by decide⟩

/-! ## Ledger keys -/

theorem prefix_cancel (p x y : String) (h : p ++ x = p ++ y) : x = y := by
  have h1 := congrArg String.data h
  simp only [String.data_append] at h1
  exact String.ext (List.append_cancel_left h1)

theorem FormatInt_head (i : Int) :
    ∃ c cs, (FormatInt i).data = c :: cs ∧ (c = '-' ∨ (48 ≤ c.toNat ∧ c.toNat ≤ 57)) := by
  unfold FormatInt
  split_ifs
  · exact ⟨'-', _, rfl, Or.inl rfl⟩
  · have hne := decDigits_ne_nil (i.natAbs + 1) i.natAbs (by omega)
    have hd := decDigits_digits (i.natAbs + 1) i.natAbs
    unfold formatUint
    cases h : decDigits (i.natAbs + 1) i.natAbs with
    | nil => exact absurd h hne
    | cons c cs => exact ⟨c, cs, rfl, Or.inr (hd c (by rw [h]; simp))⟩

/-- A decimal string starts with `-` or a digit, a prefixed key with the first letter of
its prefix. -/
theorem Itoa_ne_of_head (i : Int) (k : String) (c0 : Char) (rest : List Char)
    (hk : k.data = c0 :: rest) (hc : c0 ≠ '-' ∧ ¬ (48 ≤ c0.toNat ∧ c0.toNat ≤ 57)) :
    Itoa i ≠ k := by
  intro h
  obtain ⟨c, cs, hcs, hd⟩ := FormatInt_head i
  have h1 := congrArg String.data h
  rw [Itoa, hcs, hk] at h1
  simp only [List.cons.injEq] at h1
  obtain ⟨rfl, _⟩ := h1
  rcases hd with hd | hd
  · exact hc.1 hd
  · exact hc.2 hd

theorem platformContractKey_ne_payment (x y : String) :
    "PlatformContract_" ++ x ≠ "Payment_" ++ y := by
  intro h
  have h1 := congrArg String.data h
  simp at h1

theorem platformContractKey_ne_paymentDetail (x y : String) :
    "PlatformContract_" ++ x ≠ "PaymentDetail_" ++ y := by
  intro h
  have h1 := congrArg String.data h
  simp at h1

theorem platformContractKey_ne_order (x y : String) :
    "PlatformContract_" ++ x ≠ "Order_" ++ y := by
  intro h
  have h1 := congrArg String.data h
  simp at h1

theorem platformContractKey_ne_bidMatch (x y : String) :
    "PlatformContract_" ++ x ≠ "BidMatch_" ++ y := by
  intro h
  have h1 := congrArg String.data h
  simp at h1

theorem paymentKey_ne_paymentDetail (x y : String) :
    "Payment_" ++ x ≠ "PaymentDetail_" ++ y := by
  intro h
  have h1 := congrArg String.data h
  simp at h1

theorem paymentKey_ne_order (x y : String) : "Payment_" ++ x ≠ "Order_" ++ y := by
  intro h
  have h1 := congrArg String.data h
  simp at h1

theorem paymentKey_ne_bidMatch (x y : String) : "Payment_" ++ x ≠ "BidMatch_" ++ y := by
  intro h
  have h1 := congrArg String.data h
  simp at h1

theorem paymentDetailKey_ne_order (x y : String) : "PaymentDetail_" ++ x ≠ "Order_" ++ y := by
  intro h
  have h1 := congrArg String.data h
  simp at h1

theorem paymentDetailKey_ne_bidMatch (x y : String) :
    "PaymentDetail_" ++ x ≠ "BidMatch_" ++ y := by
  intro h
  have h1 := congrArg String.data h
  simp at h1

theorem orderKey_ne_bidMatch (x y : String) : "Order_" ++ x ≠ "BidMatch_" ++ y := by
  intro h
  have h1 := congrArg String.data h
  simp at h1

/-- C12: for `int64` identifiers `i`, `j` and payment ids `s`, `t`, the six kinds of ledger
key (the decimal id for a user, and the prefixes `PlatformContract_`, `Payment_`,
`PaymentDetail_`, `Order_`, `BidMatch_` followed by a decimal id, for a payment by any
string) are pairwise different across kinds, and within each kind equal keys come from equal
identifiers. -/
theorem C12_keys_disjoint (i j : Int) (s t : String) (hi : isInt64 i) (hj : isInt64 j) :
    (Itoa i ≠ "PlatformContract_" ++ FormatInt j ∧ Itoa i ≠ "Payment_" ++ s ∧
      Itoa i ≠ "PaymentDetail_" ++ FormatInt j ∧ Itoa i ≠ "Order_" ++ FormatInt j ∧
      Itoa i ≠ "BidMatch_" ++ FormatInt j) ∧
    ("PlatformContract_" ++ FormatInt i ≠ "Payment_" ++ s ∧
      "PlatformContract_" ++ FormatInt i ≠ "PaymentDetail_" ++ FormatInt j ∧
      "PlatformContract_" ++ FormatInt i ≠ "Order_" ++ FormatInt j ∧
      "PlatformContract_" ++ FormatInt i ≠ "BidMatch_" ++ FormatInt j) ∧
    ("Payment_" ++ s ≠ "PaymentDetail_" ++ FormatInt j ∧
      "Payment_" ++ s ≠ "Order_" ++ FormatInt j ∧
      "Payment_" ++ s ≠ "BidMatch_" ++ FormatInt j) ∧
    ("PaymentDetail_" ++ FormatInt i ≠ "Order_" ++ FormatInt j ∧
      "PaymentDetail_" ++ FormatInt i ≠ "BidMatch_" ++ FormatInt j) ∧
    "Order_" ++ FormatInt i ≠ "BidMatch_" ++ FormatInt j ∧
    ((Itoa i = Itoa j → i = j) ∧
      ("PlatformContract_" ++ FormatInt i = "PlatformContract_" ++ FormatInt j → i = j) ∧
      ("Payment_" ++ s = "Payment_" ++ t → s = t) ∧
      ("PaymentDetail_" ++ FormatInt i = "PaymentDetail_" ++ FormatInt j → i = j) ∧
      ("Order_" ++ FormatInt i = "Order_" ++ FormatInt j → i = j) ∧
      ("BidMatch_" ++ FormatInt i = "BidMatch_" ++ FormatInt j → i = j)) := by
  have inj : ∀ p : String, p ++ FormatInt i = p ++ FormatInt j → i = j := fun p h =>
    FormatInt_injective i j hi hj (prefix_cancel p _ _ h)
  refine ⟨⟨?_, ?_, ?_, ?_, ?_⟩,
    ⟨platformContractKey_ne_payment _ _, platformContractKey_ne_paymentDetail _ _,
      platformContractKey_ne_order _ _, platformContractKey_ne_bidMatch _ _⟩,
    ⟨paymentKey_ne_paymentDetail _ _, paymentKey_ne_order _ _, paymentKey_ne_bidMatch _ _⟩,
    ⟨paymentDetailKey_ne_order _ _, paymentDetailKey_ne_bidMatch _ _⟩,
    orderKey_ne_bidMatch _ _,
    ⟨fun h => FormatInt_injective i j hi hj h, inj _, prefix_cancel _ s t, inj _, inj _, inj _⟩⟩
  · exact Itoa_ne_of_head i _ 'P' _ (by simp [String.data_append]; rfl) (by decide)
  · exact Itoa_ne_of_head i _ 'P' _ (by simp [String.data_append]; rfl) (by decide)
  · exact Itoa_ne_of_head i _ 'P' _ (by simp [String.data_append]; rfl) (by decide)
  · exact Itoa_ne_of_head i _ 'O' _ (by simp [String.data_append]; rfl) (by decide)
  · exact Itoa_ne_of_head i _ 'B' _ (by simp [String.data_append]; rfl) (by decide)

/-- C12 at the identifiers 1 and 2 and the payment ids `P1` and `P2`. -/
theorem C12_keys_disjoint_witness :
    (Itoa 1 ≠ "PlatformContract_" ++ FormatInt 2 ∧ Itoa 1 ≠ "Payment_" ++ "P1" ∧
      Itoa 1 ≠ "PaymentDetail_" ++ FormatInt 2 ∧ Itoa 1 ≠ "Order_" ++ FormatInt 2 ∧
      Itoa 1 ≠ "BidMatch_" ++ FormatInt 2) ∧
    ("PlatformContract_" ++ FormatInt 1 ≠ "Payment_" ++ "P1" ∧
      "PlatformContract_" ++ FormatInt 1 ≠ "PaymentDetail_" ++ FormatInt 2 ∧
      "PlatformContract_" ++ FormatInt 1 ≠ "Order_" ++ FormatInt 2 ∧
      "PlatformContract_" ++ FormatInt 1 ≠ "BidMatch_" ++ FormatInt 2) ∧
    ("Payment_" ++ "P1" ≠ "PaymentDetail_" ++ FormatInt 2 ∧
      "Payment_" ++ "P1" ≠ "Order_" ++ FormatInt 2 ∧
      "Payment_" ++ "P1" ≠ "BidMatch_" ++ FormatInt 2) ∧
    ("PaymentDetail_" ++ FormatInt 1 ≠ "Order_" ++ FormatInt 2 ∧
      "PaymentDetail_" ++ FormatInt 1 ≠ "BidMatch_" ++ FormatInt 2) ∧
    "Order_" ++ FormatInt 1 ≠ "BidMatch_" ++ FormatInt 2 ∧
    ((Itoa 1 = Itoa 2 → (1 : Int) = 2) ∧
      ("PlatformContract_" ++ FormatInt 1 = "PlatformContract_" ++ FormatInt 2 → (1 : Int) = 2) ∧
      ("Payment_" ++ "P1" = "Payment_" ++ "P2" → "P1" = "P2") ∧
      ("PaymentDetail_" ++ FormatInt 1 = "PaymentDetail_" ++ FormatInt 2 → (1 : Int) = 2) ∧
      ("Order_" ++ FormatInt 1 = "Order_" ++ FormatInt 2 → (1 : Int) = 2) ∧
      ("BidMatch_" ++ FormatInt 1 = "BidMatch_" ++ FormatInt 2 → (1 : Int) = 2)) :=
  C12_keys_disjoint 1 2 "P1" "P2" (by decide) (by decide)

/-! ## Arity checks -/

theorem Write_arity (stub : Store) (args : List String) (h : args.length ≠ 2) :
    Write stub args =
      (.error "Incorrect number of arguments. Expecting 2. key of the variable and value to set",
        stub) := by
  unfold Write
  split
  · simp at h
  · rfl

theorem UpdateUserProfile_arity (L : GoLib) (clock : Clock) (stub : Store)
    (args : List String) (h : args.length ≠ 5) :
    UpdateUserProfile L clock stub args =
      (.error "Incorrect number of arguments. Expecting 5", stub) := by
  unfold UpdateUserProfile
  split
  · simp at h
  · rfl

theorem SignPlatformContract_arity (L : GoLib) (clock : Clock) (stub : Store)
    (args : List String) (h : args.length ≠ 1) :
    SignPlatformContract L clock stub args =
      (.error "Incorrect number of arguments. Expecting 1 (UserID)", stub) := by
  unfold SignPlatformContract
  split
  · simp at h
  · rfl

theorem RecordPayment_arity (L : GoLib) (clock : Clock) (stub : Store)
    (args : List String) (h : args.length ≠ 12) :
    RecordPayment L clock stub args =
      (.error "Incorrect number of arguments. Expecting 12.", stub) := by
  unfold RecordPayment
  split
  · simp at h
  · rfl

theorem RegisterOrder_arity (L : GoLib) (clock : Clock) (stub : Store)
    (args : List String) (h : args.length ≠ 12) :
    RegisterOrder L clock stub args =
      (.error "Incorrect number of arguments. Expecting 12.", stub) := by
  unfold RegisterOrder
  split
  · simp at h
  · rfl

theorem ProcessBidMatch_arity (L : GoLib) (clock : Clock) (stub : Store)
    (args : List String) (h : args.length ≠ 11) :
    ProcessBidMatch L clock stub args =
      (.error "Incorrect number of arguments. Expecting 11.", stub) := by
  unfold ProcessBidMatch
  split
  · simp at h
  · rfl

/-- C13: each of the six write handlers, given an argument list whose length is not the
handler's arity, returns an error and leaves the ledger as it was; the message is the
phrase `Incorrect number of arguments. Expecting `, the expected count in decimal, and a
handler-specific tail. -/
theorem C13_arity_errors (L : GoLib) (clock : Clock) (stub : Store) (args : List String) :
    (args.length ≠ 2 → Write stub args =
      (.error ("Incorrect number of arguments. Expecting " ++ Itoa 2 ++
        ". key of the variable and value to set"), stub)) ∧
    (args.length ≠ 5 → UpdateUserProfile L clock stub args =
      (.error ("Incorrect number of arguments. Expecting " ++ Itoa 5 ++ ""), stub)) ∧
    (args.length ≠ 1 → SignPlatformContract L clock stub args =
      (.error ("Incorrect number of arguments. Expecting " ++ Itoa 1 ++ " (UserID)"), stub)) ∧
    (args.length ≠ 12 → RecordPayment L clock stub args =
      (.error ("Incorrect number of arguments. Expecting " ++ Itoa 12 ++ "."), stub)) ∧
    (args.length ≠ 12 → RegisterOrder L clock stub args =
      (.error ("Incorrect number of arguments. Expecting " ++ Itoa 12 ++ "."), stub)) ∧
    (args.length ≠ 11 → ProcessBidMatch L clock stub args =
      (.error ("Incorrect number of arguments. Expecting " ++ Itoa 11 ++ "."), stub)) := by
  refine ⟨fun h => ?_, fun h => ?_, fun h => ?_, fun h => ?_, fun h => ?_, fun h => ?_⟩
  · rw [Write_arity stub args h]; rfl
  · rw [UpdateUserProfile_arity L clock stub args h]; rfl
  · rw [SignPlatformContract_arity L clock stub args h]; rfl
  · rw [RecordPayment_arity L clock stub args h]; rfl
  · rw [RegisterOrder_arity L clock stub args h]; rfl
  · rw [ProcessBidMatch_arity L clock stub args h]; rfl

/-- C13 at the one-argument list of the repository's tests (`["1"]`), and at a two-argument
list for `SignPlatformContract`, whose arity is one. -/
theorem C13_arity_errors_witness :
    Write emptyStore ["1"] =
      (.error ("Incorrect number of arguments. Expecting " ++ Itoa 2 ++
        ". key of the variable and value to set"), emptyStore) ∧
    UpdateUserProfile exampleLib clock100 emptyStore ["1"] =
      (.error ("Incorrect number of arguments. Expecting " ++ Itoa 5 ++ ""), emptyStore) ∧
    SignPlatformContract exampleLib clock100 emptyStore ["12345", "ExtraArg"] =
      (.error ("Incorrect number of arguments. Expecting " ++ Itoa 1 ++ " (UserID)"),
        emptyStore) ∧
    RecordPayment exampleLib clock100 emptyStore ["1"] =
      (.error ("Incorrect number of arguments. Expecting " ++ Itoa 12 ++ "."), emptyStore) ∧
    RegisterOrder exampleLib clock100 emptyStore ["1"] =
      (.error ("Incorrect number of arguments. Expecting " ++ Itoa 12 ++ "."), emptyStore) ∧
    ProcessBidMatch exampleLib clock100 emptyStore ["1"] =
      (.error ("Incorrect number of arguments. Expecting " ++ Itoa 11 ++ "."), emptyStore) :=
  ⟨(C13_arity_errors exampleLib clock100 emptyStore ["1"]).1 (by decide),
   (C13_arity_errors exampleLib clock100 emptyStore ["1"]).2.1 (by decide),
   (C13_arity_errors exampleLib clock100 emptyStore ["12345", "ExtraArg"]).2.2.1 (by decide),
   (C13_arity_errors exampleLib clock100 emptyStore ["1"]).2.2.2.1 (by decide),
   (C13_arity_errors exampleLib clock100 emptyStore ["1"]).2.2.2.2.1 (by decide),
   (C13_arity_errors exampleLib clock100 emptyStore ["1"]).2.2.2.2.2 (by decide)⟩

/-! ## SignPlatformContract -/

/-- C14: on a ledger with no value under the key that `SignPlatformContract` looks the user
up by (its argument), the handler returns the error `User with ID <argument> not found` and
leaves the ledger as it was, so that no `PlatformContract_` key is written. -/
theorem C14_sign_without_user (L : GoLib) (clock : Clock) (stub : Store) (a0 : String)
    (h : stub a0 = none) :
    SignPlatformContract L clock stub [a0] =
      (.error ("User with ID " ++ a0 ++ " not found"), stub) := by
  simp only [SignPlatformContract, GetState, h]

/-- C14 at the scenario of the spec: `SignPlatformContract(["999"])` on the empty ledger. -/
theorem C14_sign_without_user_witness :
    SignPlatformContract exampleLib clock100 emptyStore ["999"] =
      (.error ("User with ID " ++ "999" ++ " not found"), emptyStore) :=
  C14_sign_without_user exampleLib clock100 emptyStore "999" rfl

theorem platformContractKey_ne_empty (x : String) : "PlatformContract_" ++ x ≠ "" := by
  intro h
  have h1 := congrArg String.data h
  simp at h1

/-- The steps of `SignPlatformContract` on one argument that parses as the id `n`. -/
theorem SignPlatformContract_parsed (L : GoLib) (clock : Clock) (stub : Store) (a0 : String)
    (n : Int) (hid : ParseInt a0 = .ok n) :
    SignPlatformContract L clock stub [a0] =
      match stub a0 with
      | none => (.error ("User with ID " ++ a0 ++ " not found"), stub)
      | some _ =>
        (.success none, fun k => if k = "PlatformContract_" ++ FormatInt n then
            some (marshalPlatformContract
              { UserID := n, CreatedOn := (clock 0).unix, UpdatedOn := (clock 0).unix })
          else stub k) := by
  simp only [SignPlatformContract, GetState, hid]
  cases stub a0 with
  | none => rfl
  | some b =>
    simp only []
    rw [PutState_ok _ _ (marshalPlatformContract _) (platformContractKey_ne_empty _) rfl]

theorem unmarshalPlatformContract_marshal (L : GoLib) (c : PlatformContract)
    (h1 : isInt64 c.UserID) (h2 : isInt64 c.CreatedOn) (h3 : isInt64 c.UpdatedOn) :
    unmarshalPlatformContract L (marshalPlatformContract c) = .ok c := by
  simp [unmarshalPlatformContract, marshalPlatformContract, Unmarshal, decodeDoc,
    PlatformContract.encode, decodeMembers, findField, PlatformContract.fieldNames,
    PlatformContract.setField, storeInt_jInt, h1, h2, h3, Except.map]

/-- After a successful `UpdateUserProfile` the key `Itoa id` holds the encoding of a user. -/
theorem UpdateUserProfile_success_stored (L : GoLib) (clock : Clock) (stub : Store)
    (a0 a1 a2 a3 a4 : String) (id : Int) (hid : ParseInt a0 = .ok id)
    (h : (UpdateUserProfile L clock stub [a0, a1, a2, a3, a4]).1 = .success none) :
    ∃ u : User,
      (UpdateUserProfile L clock stub [a0, a1, a2, a3, a4]).2 (FormatInt id) =
        some (marshalUser u) := by
  revert h
  simp only [UpdateUserProfile, GetState, hid, parseUserCategory, parseEnergySource, Itoa]
  cases hsan : sanitize_arguments [a0, a1, a2, a3, a4] with
  | some e => intro h; exact absurd h (by simp)
  | none =>
    simp only []
    split
    · intro h; exact absurd h (by simp)
    · cases hc : userCategoryMap.lookup a1 with
      | none => intro h; exact absurd h (by simp)
      | some c =>
        cases hs : energySourceMap.lookup a4 with
        | none => intro h; exact absurd h (by simp)
        | some sc =>
          intro _
          simp only []
          rw [PutState_ok _ _ (marshalUser _) (FormatInt_ne_empty id) rfl]
          simp only [if_true]
          exact ⟨_, rfl⟩

/-- C15: after a successful `UpdateUserProfile` whose id argument is the canonical decimal
string of the `int64` `n`, on any ledger that holds the user this call stored,
`SignPlatformContract` with the same string succeeds and changes no key but
`PlatformContract_<n>`; `ReadPlatformContract` for `n` then succeeds, leaves the ledger as
it is, and returns the encoding of the contract with `userId = n` and
`createdOn = updatedOn =` the clock reading of the signing, which decodes to that contract. -/
theorem C15_sign_and_read (L : GoLib) (clockU clockS : Clock) (stub0 stub : Store) (n : Int)
    (cat loc meter src : String) (hn : isInt64 n)
    (hU : (UpdateUserProfile L clockU stub0 [FormatInt n, cat, loc, meter, src]).1 =
      .success none)
    (hstub : stub (FormatInt n) =
      (UpdateUserProfile L clockU stub0 [FormatInt n, cat, loc, meter, src]).2 (FormatInt n)) :
    (SignPlatformContract L clockS stub [FormatInt n]).1 = .success none ∧
    (∀ k, k ≠ "PlatformContract_" ++ FormatInt n →
      (SignPlatformContract L clockS stub [FormatInt n]).2 k = stub k) ∧
    ReadPlatformContract L (SignPlatformContract L clockS stub [FormatInt n]).2 [FormatInt n] =
      (.success (some (marshalPlatformContract
          { UserID := n, CreatedOn := (clockS 0).unix, UpdatedOn := (clockS 0).unix })),
        (SignPlatformContract L clockS stub [FormatInt n]).2) ∧
    unmarshalPlatformContract L (marshalPlatformContract
        { UserID := n, CreatedOn := (clockS 0).unix, UpdatedOn := (clockS 0).unix }) =
      .ok { UserID := n, CreatedOn := (clockS 0).unix, UpdatedOn := (clockS 0).unix } := by
  have hid := ParseInt_FormatInt n hn
  obtain ⟨u, hu⟩ := UpdateUserProfile_success_stored L clockU stub0 _ cat loc meter src n hid hU
  rw [← hstub] at hu
  rw [SignPlatformContract_parsed L clockS stub _ n hid, hu]
  refine ⟨rfl, ?_, ?_, ?_⟩
  · intro k hk
    simp only [hk, if_false]
  · simp only [ReadPlatformContract, hid, GetState, if_true]
  · exact unmarshalPlatformContract_marshal L _ hn (clockS 0).unix_int64 (clockS 0).unix_int64

/-- C15 at the user 12345 of the repository's test: created at second 100 on the empty
ledger, signing at second 200. -/
theorem C15_sign_and_read_witness :
    (SignPlatformContract exampleLib clock200
        (UpdateUserProfile exampleLib clock100 emptyStore
          [FormatInt 12345, "Prosumer", "Location 1", "MeterId 1", "Solar"]).2
        [FormatInt 12345]).1 = .success none ∧
    (∀ k, k ≠ "PlatformContract_" ++ FormatInt 12345 →
      (SignPlatformContract exampleLib clock200
        (UpdateUserProfile exampleLib clock100 emptyStore
          [FormatInt 12345, "Prosumer", "Location 1", "MeterId 1", "Solar"]).2
        [FormatInt 12345]).2 k =
      (UpdateUserProfile exampleLib clock100 emptyStore
          [FormatInt 12345, "Prosumer", "Location 1", "MeterId 1", "Solar"]).2 k) ∧
    ReadPlatformContract exampleLib
        (SignPlatformContract exampleLib clock200
          (UpdateUserProfile exampleLib clock100 emptyStore
            [FormatInt 12345, "Prosumer", "Location 1", "MeterId 1", "Solar"]).2
          [FormatInt 12345]).2 [FormatInt 12345] =
      (.success (some (marshalPlatformContract
          { UserID := 12345, CreatedOn := (clock200 0).unix, UpdatedOn := (clock200 0).unix })),
        (SignPlatformContract exampleLib clock200
          (UpdateUserProfile exampleLib clock100 emptyStore
            [FormatInt 12345, "Prosumer", "Location 1", "MeterId 1", "Solar"]).2
          [FormatInt 12345]).2) ∧
    unmarshalPlatformContract exampleLib (marshalPlatformContract
        { UserID := 12345, CreatedOn := (clock200 0).unix, UpdatedOn := (clock200 0).unix }) =
      .ok { UserID := 12345, CreatedOn := (clock200 0).unix, UpdatedOn := (clock200 0).unix } :=
  C15_sign_and_read exampleLib clock100 clock200 emptyStore
    (UpdateUserProfile exampleLib clock100 emptyStore
      [FormatInt 12345, "Prosumer", "Location 1", "MeterId 1", "Solar"]).2
    12345 "Prosumer" "Location 1" "MeterId 1" "Solar" (by decide) (by decide) rfl

/-- C16 as stated fails: user 1 is created, signs at second 100 and signs again at second
200.  The second signing builds a new contract and overwrites the stored one: its
`createdOn` is 200, not the 100 of the first signing. -/
theorem C16_counterexample :
    (SignPlatformContract exampleLib clock100
        (UpdateUserProfile exampleLib clock100 emptyStore
          ["1", "Prosumer", "Location A", "Meter1", "Solar"]).2 ["1"]).1 = .success none ∧
    (SignPlatformContract exampleLib clock100
        (UpdateUserProfile exampleLib clock100 emptyStore
          ["1", "Prosumer", "Location A", "Meter1", "Solar"]).2 ["1"]).2
        "PlatformContract_1" =
      some (marshalPlatformContract { UserID := 1, CreatedOn := 100, UpdatedOn := 100 }) ∧
    (SignPlatformContract exampleLib clock200
        (SignPlatformContract exampleLib clock100
          (UpdateUserProfile exampleLib clock100 emptyStore
            ["1", "Prosumer", "Location A", "Meter1", "Solar"]).2 ["1"]).2 ["1"]).1 =
      .success none ∧
    (SignPlatformContract exampleLib clock200
        (SignPlatformContract exampleLib clock100
          (UpdateUserProfile exampleLib clock100 emptyStore
            ["1", "Prosumer", "Location A", "Meter1", "Solar"]).2 ["1"]).2 ["1"]).2
        "PlatformContract_1" =
      some (marshalPlatformContract { UserID := 1, CreatedOn := 200, UpdatedOn := 200 }) := by
  refine ⟨by decide, by decide, by decide, by decide⟩

/-- C16, amended: when `SignPlatformContract` succeeds for the user `n` on a ledger whose
key `PlatformContract_<n>` holds the contract that an earlier successful signing of user `n`
stored, the contract stored afterwards has the same `userId` as that one, and both its
`createdOn` and its `updatedOn` are the clock reading of the new signing. -/
theorem C16_sign_again (L : GoLib) (clock1 clock2 : Clock) (stub1 stub : Store)
    (a1 a2 : String) (n : Int) (h1 : ParseInt a1 = .ok n) (h2 : ParseInt a2 = .ok n)
    (hfirst : (SignPlatformContract L clock1 stub1 [a1]).1 = .success none)
    (hstub : stub ("PlatformContract_" ++ FormatInt n) =
      (SignPlatformContract L clock1 stub1 [a1]).2 ("PlatformContract_" ++ FormatInt n))
    (hsecond : (SignPlatformContract L clock2 stub [a2]).1 = .success none) :
    stub ("PlatformContract_" ++ FormatInt n) =
      some (marshalPlatformContract
        { UserID := n, CreatedOn := (clock1 0).unix, UpdatedOn := (clock1 0).unix }) ∧
    (SignPlatformContract L clock2 stub [a2]).2 ("PlatformContract_" ++ FormatInt n) =
      some (marshalPlatformContract
        { UserID := n, CreatedOn := (clock2 0).unix, UpdatedOn := (clock2 0).unix }) ∧
    (∀ k, k ≠ "PlatformContract_" ++ FormatInt n →
      (SignPlatformContract L clock2 stub [a2]).2 k = stub k) := by
  rw [SignPlatformContract_parsed L clock1 stub1 a1 n h1] at hfirst hstub
  rw [SignPlatformContract_parsed L clock2 stub a2 n h2] at hsecond ⊢
  cases hu1 : stub1 a1 with
  | none => rw [hu1] at hfirst; exact absurd hfirst (by simp)
  | some b1 =>
    cases hu2 : stub a2 with
    | none => rw [hu2] at hsecond; exact absurd hsecond (by simp)
    | some b2 =>
      rw [hu1] at hstub
      simp only [if_true] at hstub
      refine ⟨hstub, by simp only [if_true], ?_⟩
      intro k hk
      simp only [hk, if_false]

/-- C16 amended, at user 1 signing at second 100 and again at second 200. -/
theorem C16_sign_again_witness :
    (SignPlatformContract exampleLib clock100
        (UpdateUserProfile exampleLib clock100 emptyStore
          ["1", "Prosumer", "Location A", "Meter1", "Solar"]).2 ["1"]).2
        ("PlatformContract_" ++ FormatInt 1) =
      some (marshalPlatformContract
        { UserID := 1, CreatedOn := (clock100 0).unix, UpdatedOn := (clock100 0).unix }) ∧
    (SignPlatformContract exampleLib clock200
        (SignPlatformContract exampleLib clock100
          (UpdateUserProfile exampleLib clock100 emptyStore
            ["1", "Prosumer", "Location A", "Meter1", "Solar"]).2 ["1"]).2 ["1"]).2
        ("PlatformContract_" ++ FormatInt 1) =
      some (marshalPlatformContract
        { UserID := 1, CreatedOn := (clock200 0).unix, UpdatedOn := (clock200 0).unix }) ∧
    (∀ k, k ≠ "PlatformContract_" ++ FormatInt 1 →
      (SignPlatformContract exampleLib clock200
        (SignPlatformContract exampleLib clock100
          (UpdateUserProfile exampleLib clock100 emptyStore
            ["1", "Prosumer", "Location A", "Meter1", "Solar"]).2 ["1"]).2 ["1"]).2 k =
      (SignPlatformContract exampleLib clock100
          (UpdateUserProfile exampleLib clock100 emptyStore
            ["1", "Prosumer", "Location A", "Meter1", "Solar"]).2 ["1"]).2 k) :=
  C16_sign_again exampleLib clock100 clock200
    (UpdateUserProfile exampleLib clock100 emptyStore
      ["1", "Prosumer", "Location A", "Meter1", "Solar"]).2
    (SignPlatformContract exampleLib clock100
      (UpdateUserProfile exampleLib clock100 emptyStore
        ["1", "Prosumer", "Location A", "Meter1", "Solar"]).2 ["1"]).2
    "1" "1" 1 (by decide) (by decide) (by decide) rfl (by decide)

/-! ## RecordPayment -/

theorem paymentKey_ne_empty (x : String) : "Payment_" ++ x ≠ "" := by
  intro h
  have h1 := congrArg String.data h
  simp at h1

theorem paymentDetailKey_ne_empty (x : String) : "PaymentDetail_" ++ x ≠ "" := by
  intro h
  have h1 := congrArg String.data h
  simp at h1

/-- The steps of `RecordPayment` once the payment type is a label of the table and the total
amount and the user id have parsed: the detail record is put first, the payment second. -/
theorem RecordPayment_parsed (L : GoLib) (clock : Clock) (stub : Store)
    (a0 a1 a2 a3 a4 a5 a6 a7 a8 a9 a10 a11 : String) (pt uid : Int) (ta : Float64)
    (h1 : paymentTypeMap.lookup a1 = some pt) (h2 : ParseFloat L a2 = (ta, none))
    (h3 : ParseInt a3 = .ok uid) :
    RecordPayment L clock stub [a0, a1, a2, a3, a4, a5, a6, a7, a8, a9, a10, a11] =
      (.success none, fun k =>
        if k = "Payment_" ++ a0 then
          (if (marshalPayment L
                { CreatedOn := (clock 1).unix, ID := a0, PaymentDetailId := (clock 0).unixNano,
                  PaymentType := pt, TotalAmount := ta, UserID := uid }).isEmpty then none
           else some (marshalPayment L
                { CreatedOn := (clock 1).unix, ID := a0, PaymentDetailId := (clock 0).unixNano,
                  PaymentType := pt, TotalAmount := ta, UserID := uid }))
        else if k = "PaymentDetail_" ++ FormatInt (clock 0).unixNano then
          (if (marshalPaymentDetail L
                { ID := (clock 0).unixNano, DebitedFrom := a4, CreditedTo := a5,
                  TotalUnitCost := (ParseFloat L a6).1, PlatformFee := (ParseFloat L a7).1,
                  TokenAmount := (ParseFloat L a8).1, BidRefundAmount := (ParseFloat L a9).1,
                  PlatformFeeRefundAmount := (ParseFloat L a10).1,
                  TokenAmountRefund := (ParseFloat L a11).1,
                  PenaltyFromSeller := (ParseFloat L a11).1 }).isEmpty then none
           else some (marshalPaymentDetail L
                { ID := (clock 0).unixNano, DebitedFrom := a4, CreditedTo := a5,
                  TotalUnitCost := (ParseFloat L a6).1, PlatformFee := (ParseFloat L a7).1,
                  TokenAmount := (ParseFloat L a8).1, BidRefundAmount := (ParseFloat L a9).1,
                  PlatformFeeRefundAmount := (ParseFloat L a10).1,
                  TokenAmountRefund := (ParseFloat L a11).1,
                  PenaltyFromSeller := (ParseFloat L a11).1 }))
        else stub k) := by
  simp only [RecordPayment, h1, h2, h3]
  rw [PutState_key _ _ _ (paymentDetailKey_ne_empty _)]
  simp only []
  rw [PutState_key _ _ _ (paymentKey_ne_empty _)]

/-- Whatever its arguments, `RecordPayment` changes no key but `Payment_<first argument>`
and `PaymentDetail_<nanosecond clock reading>`. -/
theorem RecordPayment_frame (L : GoLib) (clock : Clock) (stub : Store) (args : List String)
    (k : String) (hk1 : ∀ a0, args.head? = some a0 → k ≠ "Payment_" ++ a0)
    (hk2 : k ≠ "PaymentDetail_" ++ FormatInt (clock 0).unixNano) :
    (RecordPayment L clock stub args).2 k = stub k := by
  unfold RecordPayment
  split
  · rename_i a0 a1 a2 a3 a4 a5 a6 a7 a8 a9 a10 a11
    have hk0 : k ≠ "Payment_" ++ a0 := hk1 a0 rfl
    simp only []
    cases h1 : paymentTypeMap.lookup a1 with
    | none => rfl
    | some pt =>
      simp only []
      rcases h2 : ParseFloat L a2 with ⟨ta, _ | e⟩
      swap
      · rfl
      simp only []
      cases h3 : ParseInt a3 with
      | error e => rfl
      | ok uid =>
        simp only []
        rw [PutState_key _ _ _ (paymentDetailKey_ne_empty _)]
        simp only []
        rw [PutState_key _ _ _ (paymentKey_ne_empty _)]
        simp only [hk0, hk2, if_false]
  · rfl

theorem marshalPayment_finite (L : GoLib) (p : Payment) (h : p.TotalAmount.isFinite = true) :
    marshalPayment L p = .json (.obj (p.encode L)) := by
  unfold marshalPayment
  rw [if_pos h]

theorem marshalPaymentDetail_finite (L : GoLib) (d : PaymentDetail)
    (h1 : d.TotalUnitCost.isFinite = true) (h2 : d.PlatformFee.isFinite = true)
    (h3 : d.TokenAmount.isFinite = true) (h4 : d.BidRefundAmount.isFinite = true)
    (h5 : d.PlatformFeeRefundAmount.isFinite = true) (h6 : d.TokenAmountRefund.isFinite = true)
    (h7 : d.PenaltyFromSeller.isFinite = true) :
    marshalPaymentDetail L d = .json (.obj (d.encode L)) := by
  unfold marshalPaymentDetail
  rw [if_pos ⟨h1, h2, h3, h4, h5, h6, h7⟩]

/-- C17 as stated fails: the total amount `NaN` parses, the payment type is a label of the
table and the user id parses, and `RecordPayment` returns success; but `json.Marshal`
rejects the payment, the handler drops that error and puts nil bytes, and `Payment_P1`
holds no payment afterwards.  And with the fifth argument the one byte 0xFF, which is not
valid UTF-8, the detail record stored has U+FFFD as `debitedFrom`, not the argument. -/
theorem C17_counterexample :
    paymentTypeMap.lookup "WalletRecharge" = some 0 ∧
    ParseFloat exampleLib "NaN" = (.nan, none) ∧
    ParseInt "6" = .ok 6 ∧
    (RecordPayment exampleLib clock100 emptyStore
        ["P1", "WalletRecharge", "NaN", "6", "Alice", "Bob", "2.5", "2.5", "2.5", "2.5",
         "2.5", "2.5"]).1 = .success none ∧
    (RecordPayment exampleLib clock100 emptyStore
        ["P1", "WalletRecharge", "NaN", "6", "Alice", "Bob", "2.5", "2.5", "2.5", "2.5",
         "2.5", "2.5"]).2 "Payment_P1" = none ∧
    (RecordPayment exampleLib clock100 emptyStore
        ["P1", "WalletRecharge", "200", "6", "\xff", "Bob", "2.5", "2.5", "2.5", "2.5",
         "2.5", "3.5"]).1 = .success none ∧
    ((RecordPayment exampleLib clock100 emptyStore
        ["P1", "WalletRecharge", "200", "6", "\xff", "Bob", "2.5", "2.5", "2.5", "2.5",
         "2.5", "3.5"]).2 "PaymentDetail_100000000007").map
        (unmarshalPaymentDetail exampleLib) =
      some (.ok { ID := 100000000007, DebitedFrom := "\xef\xbf\xbd", CreditedTo := "Bob",
                  TotalUnitCost := .fin 0x4004000000000000,
                  PlatformFee := .fin 0x4004000000000000,
                  TokenAmount := .fin 0x4004000000000000,
                  BidRefundAmount := .fin 0x4004000000000000,
                  PlatformFeeRefundAmount := .fin 0x4004000000000000,
                  TokenAmountRefund := .fin 0x400C000000000000,
                  PenaltyFromSeller := .fin 0x400C000000000000 }) ∧
    ("\xef\xbf\xbd" : String) ≠ "\xff" := by
  refine ⟨by decide, by decide, by decide, by decide, by decide, by decide, by decide,
    by decide⟩

/-- C17, amended: for 12 arguments with a payment type label of the table, a user id that
parses, and a total amount and six detail amounts that parse to finite numbers,
`RecordPayment` succeeds; afterwards `Payment_<payment id>` holds the payment with that id,
the code of the type, the amount, the user id and `paymentDetail = d`, the nanosecond clock
reading, and `PaymentDetail_<d>` holds the detail record with id `d`, `debitedFrom` and
`creditedTo` from arguments 5 and 6, the five amounts from arguments 7 to 11 and both
`tokenAmountRefund` and `penaltyFromSeller` from argument 12; no other key changes. (The
records are encoded as `json.Marshal` writes them: a string argument stands in them as it
is when it is valid UTF-8.) -/
theorem C17_record_payment (L : GoLib) (clock : Clock) (stub : Store)
    (a0 a1 a2 a3 a4 a5 a6 a7 a8 a9 a10 a11 : String) (pt uid : Int)
    (ta v6 v7 v8 v9 v10 v11 : Float64)
    (h1 : paymentTypeMap.lookup a1 = some pt) (h2 : ParseFloat L a2 = (ta, none))
    (h3 : ParseInt a3 = .ok uid)
    (h6 : ParseFloat L a6 = (v6, none)) (h7 : ParseFloat L a7 = (v7, none))
    (h8 : ParseFloat L a8 = (v8, none)) (h9 : ParseFloat L a9 = (v9, none))
    (h10 : ParseFloat L a10 = (v10, none)) (h11 : ParseFloat L a11 = (v11, none))
    (fta : ta.isFinite = true) (f6 : v6.isFinite = true) (f7 : v7.isFinite = true)
    (f8 : v8.isFinite = true) (f9 : v9.isFinite = true) (f10 : v10.isFinite = true)
    (f11 : v11.isFinite = true) :
    (RecordPayment L clock stub [a0, a1, a2, a3, a4, a5, a6, a7, a8, a9, a10, a11]).1 =
      .success none ∧
    (RecordPayment L clock stub [a0, a1, a2, a3, a4, a5, a6, a7, a8, a9, a10, a11]).2
        ("Payment_" ++ a0) =
      some (.json (.obj (Payment.encode L
        { CreatedOn := (clock 1).unix, ID := a0, PaymentDetailId := (clock 0).unixNano,
          PaymentType := pt, TotalAmount := ta, UserID := uid }))) ∧
    (RecordPayment L clock stub [a0, a1, a2, a3, a4, a5, a6, a7, a8, a9, a10, a11]).2
        ("PaymentDetail_" ++ FormatInt (clock 0).unixNano) =
      some (.json (.obj (PaymentDetail.encode L
        { ID := (clock 0).unixNano, DebitedFrom := a4, CreditedTo := a5,
          TotalUnitCost := v6, PlatformFee := v7, TokenAmount := v8, BidRefundAmount := v9,
          PlatformFeeRefundAmount := v10, TokenAmountRefund := v11,
          PenaltyFromSeller := v11 }))) ∧
    (∀ k, k ≠ "Payment_" ++ a0 → k ≠ "PaymentDetail_" ++ FormatInt (clock 0).unixNano →
      (RecordPayment L clock stub [a0, a1, a2, a3, a4, a5, a6, a7, a8, a9, a10, a11]).2 k =
        stub k) := by
  rw [RecordPayment_parsed L clock stub a0 a1 a2 a3 a4 a5 a6 a7 a8 a9 a10 a11 pt uid ta
    h1 h2 h3]
  rw [marshalPayment_finite L _ fta]
  rw [marshalPaymentDetail_finite L _ (by rw [h6]; exact f6) (by rw [h7]; exact f7)
    (by rw [h8]; exact f8) (by rw [h9]; exact f9) (by rw [h10]; exact f10)
    (by rw [h11]; exact f11) (by rw [h11]; exact f11)]
  simp only [h6, h7, h8, h9, h10, h11]
  refine ⟨trivial, ?_, ?_, ?_⟩
  · simp only [if_true, Bytes.isEmpty, Bool.false_eq_true, if_false]
  · have hne : "PaymentDetail_" ++ FormatInt (clock 0).unixNano ≠ "Payment_" ++ a0 :=
      fun h => paymentKey_ne_paymentDetail _ _ h.symm
    simp only [hne, if_true, if_false, Bytes.isEmpty, Bool.false_eq_true]
  · intro k hk1 hk2
    simp only [hk1, hk2, if_false]

/-- C17 amended, at a wallet recharge of 200 for user 6. -/
theorem C17_record_payment_witness :
    (RecordPayment exampleLib clock100 emptyStore
        ["P1", "WalletRecharge", "200", "6", "Alice", "Bob", "2.5", "2.5", "2.5", "2.5",
         "2.5", "3.5"]).1 = .success none ∧
    (RecordPayment exampleLib clock100 emptyStore
        ["P1", "WalletRecharge", "200", "6", "Alice", "Bob", "2.5", "2.5", "2.5", "2.5",
         "2.5", "3.5"]).2 ("Payment_" ++ "P1") =
      some (.json (.obj (Payment.encode exampleLib
        { CreatedOn := (clock100 1).unix, ID := "P1",
          PaymentDetailId := (clock100 0).unixNano, PaymentType := 0,
          TotalAmount := .fin 0x4069000000000000, UserID := 6 }))) ∧
    (RecordPayment exampleLib clock100 emptyStore
        ["P1", "WalletRecharge", "200", "6", "Alice", "Bob", "2.5", "2.5", "2.5", "2.5",
         "2.5", "3.5"]).2 ("PaymentDetail_" ++ FormatInt (clock100 0).unixNano) =
      some (.json (.obj (PaymentDetail.encode exampleLib
        { ID := (clock100 0).unixNano, DebitedFrom := "Alice", CreditedTo := "Bob",
          TotalUnitCost := .fin 0x4004000000000000, PlatformFee := .fin 0x4004000000000000,
          TokenAmount := .fin 0x4004000000000000, BidRefundAmount := .fin 0x4004000000000000,
          PlatformFeeRefundAmount := .fin 0x4004000000000000,
          TokenAmountRefund := .fin 0x400C000000000000,
          PenaltyFromSeller := .fin 0x400C000000000000 }))) ∧
    (∀ k, k ≠ "Payment_" ++ "P1" →
      k ≠ "PaymentDetail_" ++ FormatInt (clock100 0).unixNano →
      (RecordPayment exampleLib clock100 emptyStore
        ["P1", "WalletRecharge", "200", "6", "Alice", "Bob", "2.5", "2.5", "2.5", "2.5",
         "2.5", "3.5"]).2 k = emptyStore k) :=
  C17_record_payment exampleLib clock100 emptyStore
    "P1" "WalletRecharge" "200" "6" "Alice" "Bob" "2.5" "2.5" "2.5" "2.5" "2.5" "3.5"
    0 6 (.fin 0x4069000000000000) (.fin 0x4004000000000000) (.fin 0x4004000000000000)
    (.fin 0x4004000000000000) (.fin 0x4004000000000000) (.fin 0x4004000000000000)
    (.fin 0x400C000000000000)
    (by decide) (by decide) (by decide) (by decide) (by decide) (by decide) (by decide)
    (by decide) (by decide) rfl rfl rfl rfl rfl rfl rfl

/-- C18 (fails on the code): the seventh argument (total unit cost) is `abc`, no number.
`RecordPayment` discards the error of `strconv.ParseFloat` for the six detail amounts: it
returns success and writes both records, the detail record with total unit cost 0. -/
theorem C18_detail_amounts_unchecked :
    ParseFloat exampleLib "abc" = (.fin 0, some ⟨"ParseFloat", "abc", .invalid⟩) ∧
    (RecordPayment exampleLib clock100 emptyStore
        ["P1", "WalletRecharge", "200", "6", "Alice", "Bob", "abc", "2.5", "2.5", "2.5",
         "2.5", "2.5"]).1 = .success none ∧
    (RecordPayment exampleLib clock100 emptyStore
        ["P1", "WalletRecharge", "200", "6", "Alice", "Bob", "abc", "2.5", "2.5", "2.5",
         "2.5", "2.5"]).2 "PaymentDetail_100000000007" =
      some (marshalPaymentDetail exampleLib
        { ID := 100000000007, DebitedFrom := "Alice", CreditedTo := "Bob",
          TotalUnitCost := .fin 0, PlatformFee := .fin 0x4004000000000000,
          TokenAmount := .fin 0x4004000000000000, BidRefundAmount := .fin 0x4004000000000000,
          PlatformFeeRefundAmount := .fin 0x4004000000000000,
          TokenAmountRefund := .fin 0x4004000000000000,
          PenaltyFromSeller := .fin 0x4004000000000000 }) ∧
    (RecordPayment exampleLib clock100 emptyStore
        ["P1", "WalletRecharge", "200", "6", "Alice", "Bob", "abc", "2.5", "2.5", "2.5",
         "2.5", "2.5"]).2 "Payment_P1" =
      some (marshalPayment exampleLib
        { CreatedOn := 100, ID := "P1", PaymentDetailId := 100000000007, PaymentType := 0,
          TotalAmount := .fin 0x4069000000000000, UserID := 6 }) := by
  refine ⟨by decide, by decide, by decide, by decide⟩

/-- C19 as stated fails: a payment is recorded under the id `P1` at second 100, then
`RecordPayment` is invoked again with the id `P1`, another type, amount and user at second
200.  There is no existence check: the record under `Payment_P1` is replaced. -/
theorem C19_counterexample :
    (RecordPayment exampleLib clock100 emptyStore
        ["P1", "WalletRecharge", "200", "6", "Alice", "Bob", "2.5", "2.5", "2.5", "2.5",
         "2.5", "2.5"]).2 "Payment_P1" =
      some (marshalPayment exampleLib
        { CreatedOn := 100, ID := "P1", PaymentDetailId := 100000000007, PaymentType := 0,
          TotalAmount := .fin 0x4069000000000000, UserID := 6 }) ∧
    (RecordPayment exampleLib clock200
        (RecordPayment exampleLib clock100 emptyStore
          ["P1", "WalletRecharge", "200", "6", "Alice", "Bob", "2.5", "2.5", "2.5", "2.5",
           "2.5", "2.5"]).2
        ["P1", "Seller - Token Amount", "3.5", "7", "Alice", "Bob", "2.5", "2.5", "2.5",
         "2.5", "2.5", "2.5"]).1 = .success none ∧
    (RecordPayment exampleLib clock200
        (RecordPayment exampleLib clock100 emptyStore
          ["P1", "WalletRecharge", "200", "6", "Alice", "Bob", "2.5", "2.5", "2.5", "2.5",
           "2.5", "2.5"]).2
        ["P1", "Seller - Token Amount", "3.5", "7", "Alice", "Bob", "2.5", "2.5", "2.5",
         "2.5", "2.5", "2.5"]).2 "Payment_P1" =
      some (marshalPayment exampleLib
        { CreatedOn := 200, ID := "P1", PaymentDetailId := 200000000007, PaymentType := 1,
          TotalAmount := .fin 0x400C000000000000, UserID := 7 }) := by
  refine ⟨by decide, by decide, by decide⟩

/-- C19, amended: a `RecordPayment` invocation whose payment id argument is not `pid`
(or that has no argument at all) leaves the value under `Payment_<pid>` as it was; an
invocation with the payment id `pid`, a payment type of the table, a user id that parses
and a total amount that parses to a finite number replaces it by the new payment. -/
theorem C19_payment_overwrite (L : GoLib) (clock : Clock) (stub : Store) (pid : String) :
    (∀ args : List String, args.head? ≠ some pid →
      (RecordPayment L clock stub args).2 ("Payment_" ++ pid) = stub ("Payment_" ++ pid)) ∧
    (∀ (a1 a2 a3 a4 a5 a6 a7 a8 a9 a10 a11 : String) (pt uid : Int) (ta : Float64),
      paymentTypeMap.lookup a1 = some pt → ParseFloat L a2 = (ta, none) →
      ParseInt a3 = .ok uid → ta.isFinite = true →
      (RecordPayment L clock stub [pid, a1, a2, a3, a4, a5, a6, a7, a8, a9, a10, a11]).2
          ("Payment_" ++ pid) =
        some (.json (.obj (Payment.encode L
          { CreatedOn := (clock 1).unix, ID := pid, PaymentDetailId := (clock 0).unixNano,
            PaymentType := pt, TotalAmount := ta, UserID := uid })))) := by
  constructor
  · intro args hargs
    apply RecordPayment_frame
    · intro a0 ha0 h
      have := prefix_cancel _ _ _ h
      subst this
      exact hargs ha0
    · exact paymentKey_ne_paymentDetail _ _
  · intro a1 a2 a3 a4 a5 a6 a7 a8 a9 a10 a11 pt uid ta h1 h2 h3 hfin
    rw [RecordPayment_parsed L clock stub pid a1 a2 a3 a4 a5 a6 a7 a8 a9 a10 a11 pt uid ta
      h1 h2 h3, marshalPayment_finite L _ hfin]
    simp only [if_true, Bytes.isEmpty, Bool.false_eq_true, if_false]

/-- C19 amended, on the ledger that holds payment `P1`: an invocation for `P2` leaves
`Payment_P1` as it was, an invocation for `P1` replaces it. -/
theorem C19_payment_overwrite_witness :
    (RecordPayment exampleLib clock200
        (RecordPayment exampleLib clock100 emptyStore
          ["P1", "WalletRecharge", "200", "6", "Alice", "Bob", "2.5", "2.5", "2.5", "2.5",
           "2.5", "2.5"]).2
        ["P2", "WalletRecharge", "3.5", "7", "Alice", "Bob", "2.5", "2.5", "2.5", "2.5",
         "2.5", "2.5"]).2 ("Payment_" ++ "P1") =
      (RecordPayment exampleLib clock100 emptyStore
          ["P1", "WalletRecharge", "200", "6", "Alice", "Bob", "2.5", "2.5", "2.5", "2.5",
           "2.5", "2.5"]).2 ("Payment_" ++ "P1") ∧
    (RecordPayment exampleLib clock200
        (RecordPayment exampleLib clock100 emptyStore
          ["P1", "WalletRecharge", "200", "6", "Alice", "Bob", "2.5", "2.5", "2.5", "2.5",
           "2.5", "2.5"]).2
        ["P1", "Seller - Token Amount", "3.5", "7", "Alice", "Bob", "2.5", "2.5", "2.5",
         "2.5", "2.5", "2.5"]).2 ("Payment_" ++ "P1") =
      some (.json (.obj (Payment.encode exampleLib
        { CreatedOn := (clock200 1).unix, ID := "P1",
          PaymentDetailId := (clock200 0).unixNano, PaymentType := 1,
          TotalAmount := .fin 0x400C000000000000, UserID := 7 }))) :=
  ⟨(C19_payment_overwrite exampleLib clock200
      (RecordPayment exampleLib clock100 emptyStore
        ["P1", "WalletRecharge", "200", "6", "Alice", "Bob", "2.5", "2.5", "2.5", "2.5",
         "2.5", "2.5"]).2 "P1").1
      ["P2", "WalletRecharge", "3.5", "7", "Alice", "Bob", "2.5", "2.5", "2.5", "2.5",
       "2.5", "2.5"] (by decide),
   (C19_payment_overwrite exampleLib clock200
      (RecordPayment exampleLib clock100 emptyStore
        ["P1", "WalletRecharge", "200", "6", "Alice", "Bob", "2.5", "2.5", "2.5", "2.5",
         "2.5", "2.5"]).2 "P1").2
      "Seller - Token Amount" "3.5" "7" "Alice" "Bob" "2.5" "2.5" "2.5" "2.5" "2.5" "2.5"
      1 7 (.fin 0x400C000000000000) (by decide) (by decide) (by decide) rfl⟩

/-! ## ProcessBidMatch -/

theorem bidMatchSetField_int64 (L : GoLib) (m m1 : BidMatch) (name : String) (a : JAtom)
    (hm : m.int64) (h : BidMatch.setField L m name a = .ok m1) : m1.int64 := by
  obtain ⟨i1, i2, i3, i4, i5, i6, i7, i8⟩ := hm
  unfold BidMatch.setField at h
  by_cases c0 : name = "bidMatchTms"
  · rw [if_pos c0] at h
    obtain ⟨v, hv, rfl⟩ := except_map_ok _ _ _ h
    have hi := storeInt_isInt64 _ _ _ _ hv i1
    exact ⟨hi, i2, i3, i4, i5, i6, i7, i8⟩
  · rw [if_neg c0] at h
    by_cases c1 : name = "bidSlot"
    · rw [if_pos c1] at h
      obtain ⟨v, _, rfl⟩ := except_map_ok _ _ _ h
      exact ⟨i1, i2, i3, i4, i5, i6, i7, i8⟩
    · rw [if_neg c1] at h
      by_cases c2 : name = "bidStatus"
      · rw [if_pos c2] at h
        obtain ⟨v, hv, rfl⟩ := except_map_ok _ _ _ h
        have hi := storeInt_isInt64 _ _ _ _ hv i2
        exact ⟨i1, hi, i3, i4, i5, i6, i7, i8⟩
      · rw [if_neg c2] at h
        by_cases c3 : name = "bidUnitPrice"
        · rw [if_pos c3] at h
          obtain ⟨v, hv, rfl⟩ := except_map_ok _ _ _ h
          have hi := storeInt_isInt64 _ _ _ _ hv i3
          exact ⟨i1, i2, hi, i4, i5, i6, i7, i8⟩
        · rw [if_neg c3] at h
          by_cases c4 : name = "buyerUserId"
          · rw [if_pos c4] at h
            obtain ⟨v, hv, rfl⟩ := except_map_ok _ _ _ h
            have hi := storeInt_isInt64 _ _ _ _ hv i4
            exact ⟨i1, i2, i3, hi, i5, i6, i7, i8⟩
          · rw [if_neg c4] at h
            by_cases c5 : name = "deliveredBidUnits"
            · rw [if_pos c5] at h
              obtain ⟨v, _, rfl⟩ := except_map_ok _ _ _ h
              exact ⟨i1, i2, i3, i4, i5, i6, i7, i8⟩
            · rw [if_neg c5] at h
              by_cases c6 : name = "id"
              · rw [if_pos c6] at h
                obtain ⟨v, hv, rfl⟩ := except_map_ok _ _ _ h
                have hi := storeInt_isInt64 _ _ _ _ hv i5
                exact ⟨i1, i2, i3, i4, hi, i6, i7, i8⟩
              · rw [if_neg c6] at h
                by_cases c7 : name = "originalBidUnits"
                · rw [if_pos c7] at h
                  obtain ⟨v, _, rfl⟩ := except_map_ok _ _ _ h
                  exact ⟨i1, i2, i3, i4, i5, i6, i7, i8⟩
                · rw [if_neg c7] at h
                  by_cases c8 : name = "sellerUserId"
                  · rw [if_pos c8] at h
                    obtain ⟨v, hv, rfl⟩ := except_map_ok _ _ _ h
                    have hi := storeInt_isInt64 _ _ _ _ hv i6
                    exact ⟨i1, i2, i3, i4, i5, hi, i7, i8⟩
                  · rw [if_neg c8] at h
                    by_cases c9 : name = "transactionBuyId"
                    · rw [if_pos c9] at h
                      obtain ⟨v, hv, rfl⟩ := except_map_ok _ _ _ h
                      have hi := storeInt_isInt64 _ _ _ _ hv i7
                      exact ⟨i1, i2, i3, i4, i5, i6, hi, i8⟩
                    · rw [if_neg c9] at h
                      by_cases c10 : name = "transactionSellId"
                      · rw [if_pos c10] at h
                        obtain ⟨v, hv, rfl⟩ := except_map_ok _ _ _ h
                        have hi := storeInt_isInt64 _ _ _ _ hv i8
                        exact ⟨i1, i2, i3, i4, i5, i6, i7, hi⟩
                      · rw [if_neg c10] at h
                        simp only [Except.ok.injEq] at h
                        subst h
                        exact ⟨i1, i2, i3, i4, i5, i6, i7, i8⟩

theorem unmarshalBidMatch_int64 (L : GoLib) (b : Bytes) (m : BidMatch)
    (h : unmarshalBidMatch L b = .ok m) : m.int64 := by
  have hdef : (default : BidMatch).int64 := by
    refine ⟨?_, ?_, ?_, ?_, ?_, ?_, ?_, ?_⟩ <;> decide
  obtain ⟨d, hd, _⟩ := Unmarshal_ok L _ _ _ _ b m h
  unfold decodeDoc at hd
  split at hd
  · simp only [Except.ok.injEq] at hd; subst hd; exact hdef
  · exact absurd hd (by simp)
  · exact decodeMembers_invariant L _ _ BidMatch.int64
      (fun x name a y hx hy => bidMatchSetField_int64 L x y name a hx hy) _ _ _ hdef hd

theorem bidMatchKey_ne_empty (x : String) : "BidMatch_" ++ x ≠ "" := by
  intro h
  have h1 := congrArg String.data h
  simp at h1

/-- The steps of `ProcessBidMatch` once every numeric argument has parsed. -/
theorem ProcessBidMatch_parsed (L : GoLib) (clock : Clock) (stub : Store)
    (a0 a1 a2 a3 a4 a5 a6 a7 a8 a9 a10 : String)
    (n tms bs bup buid suid tb ts : Int) (dbu obu : Float64)
    (h6 : ParseInt a6 = .ok n) (h0 : ParseInt a0 = .ok tms) (h2 : ParseInt a2 = .ok bs)
    (h3 : ParseInt a3 = .ok bup) (h4 : ParseInt a4 = .ok buid)
    (h5 : ParseFloat L a5 = (dbu, none)) (h7 : ParseFloat L a7 = (obu, none))
    (h8 : ParseInt a8 = .ok suid) (h9 : ParseInt a9 = .ok tb) (h10 : ParseInt a10 = .ok ts) :
    ProcessBidMatch L clock stub [a0, a1, a2, a3, a4, a5, a6, a7, a8, a9, a10] =
      match stub ("BidMatch_" ++ FormatInt n) with
      | none =>
        (.success none, fun k => if k = "BidMatch_" ++ FormatInt n then
            (if (marshalBidMatch L
              { BidMatchTms := tms, BidSlot := a1, BidStatus := bs, BidUnitPrice := bup,
                      BuyerUserId := buid, DeliveredBidUnits := dbu, ID := n,
                      OriginalBidUnits := obu, SellerUserId := suid,
                      TransactionBuyID := tb, TransactionSellID := ts }).isEmpty
             then none
             else some (marshalBidMatch L
              { BidMatchTms := tms, BidSlot := a1, BidStatus := bs, BidUnitPrice := bup,
                      BuyerUserId := buid, DeliveredBidUnits := dbu, ID := n,
                      OriginalBidUnits := obu, SellerUserId := suid,
                      TransactionBuyID := tb, TransactionSellID := ts }))
          else stub k)
      | some b =>
        match unmarshalBidMatch L b with
        | .error e => (.error ("Failed to unmarshal existing BidMatch: " ++ e), stub)
        | .ok o =>
          (.success none, fun k => if k = "BidMatch_" ++ FormatInt o.ID then
              (if (marshalBidMatch L
                { BidMatchTms := tms, BidSlot := a1, BidStatus := bs, BidUnitPrice := bup,
                      BuyerUserId := buid, DeliveredBidUnits := dbu, ID := o.ID,
                      OriginalBidUnits := obu, SellerUserId := suid,
                      TransactionBuyID := tb, TransactionSellID := ts }).isEmpty
               then none
               else some (marshalBidMatch L
                { BidMatchTms := tms, BidSlot := a1, BidStatus := bs, BidUnitPrice := bup,
                      BuyerUserId := buid, DeliveredBidUnits := dbu, ID := o.ID,
                      OriginalBidUnits := obu, SellerUserId := suid,
                      TransactionBuyID := tb, TransactionSellID := ts }))
            else stub k) := by
  simp only [ProcessBidMatch, ProcessBidMatch.load, h6, GetState]
  cases hst : stub ("BidMatch_" ++ FormatInt n) with
  | none =>
    simp only [h0, h2, h3, h4, h5, h7, h8, h9, h10]
    rw [PutState_key _ _ _ (bidMatchKey_ne_empty _)]
  | some b =>
    simp only []
    cases hu : unmarshalBidMatch L b with
    | error e => rfl
    | ok o =>
      simp only [h0, h2, h3, h4, h5, h7, h8, h9, h10]
      rw [PutState_key _ _ _ (bidMatchKey_ne_empty _)]

theorem ProcessBidMatch_success_inv (L : GoLib) (clock : Clock) (stub : Store)
    (args : List String) (h : (ProcessBidMatch L clock stub args).1 = .success none) :
    ∃ (a0 a1 a2 a3 a4 a5 a6 a7 a8 a9 a10 : String) (n tms bs bup buid suid tb ts : Int)
      (dbu obu : Float64),
      args = [a0, a1, a2, a3, a4, a5, a6, a7, a8, a9, a10] ∧
      ParseInt a6 = .ok n ∧ ParseInt a0 = .ok tms ∧ ParseInt a2 = .ok bs ∧
      ParseInt a3 = .ok bup ∧ ParseInt a4 = .ok buid ∧ ParseFloat L a5 = (dbu, none) ∧
      ParseFloat L a7 = (obu, none) ∧ ParseInt a8 = .ok suid ∧ ParseInt a9 = .ok tb ∧
      ParseInt a10 = .ok ts := by
  unfold ProcessBidMatch at h
  split at h
  · rename_i a0 a1 a2 a3 a4 a5 a6 a7 a8 a9 a10
    cases h6 : ParseInt a6 with
    | error e => rw [h6] at h; exact absurd h (by simp)
    | ok n =>
    rw [h6] at h
    simp only at h
    cases hl : ProcessBidMatch.load L clock (GetState stub ("BidMatch_" ++ FormatInt n)) n with
    | error e => rw [hl] at h; exact absurd h (by simp)
    | ok bidMatch0 =>
    rw [hl] at h
    simp only at h
    cases h0 : ParseInt a0 with
    | error e => rw [h0] at h; exact absurd h (by simp)
    | ok tms =>
    rw [h0] at h
    simp only at h
    cases h2 : ParseInt a2 with
    | error e => rw [h2] at h; exact absurd h (by simp)
    | ok bs =>
    rw [h2] at h
    simp only at h
    cases h3 : ParseInt a3 with
    | error e => rw [h3] at h; exact absurd h (by simp)
    | ok bup =>
    rw [h3] at h
    simp only at h
    cases h4 : ParseInt a4 with
    | error e => rw [h4] at h; exact absurd h (by simp)
    | ok buid =>
    rw [h4] at h
    simp only at h
    rcases h5 : ParseFloat L a5 with ⟨dbu, _ | e⟩
    swap
    · rw [h5] at h; exact absurd h (by simp)
    rw [h5] at h
    simp only at h
    rcases h7 : ParseFloat L a7 with ⟨obu, _ | e⟩
    swap
    · rw [h7] at h; exact absurd h (by simp)
    rw [h7] at h
    simp only at h
    cases h8 : ParseInt a8 with
    | error e => rw [h8] at h; exact absurd h (by simp)
    | ok suid =>
    rw [h8] at h
    simp only at h
    cases h9 : ParseInt a9 with
    | error e => rw [h9] at h; exact absurd h (by simp)
    | ok tb =>
    rw [h9] at h
    simp only at h
    cases h10 : ParseInt a10 with
    | error e => rw [h10] at h; exact absurd h (by simp)
    | ok ts =>
    exact ⟨a0, a1, a2, a3, a4, a5, a6, a7, a8, a9, a10, n, tms, bs, bup, buid, suid, tb, ts,
      dbu, obu, rfl, h6, h0, h2, h3, h4, h5, h7, h8, h9, h10⟩
  · exact absurd h (by simp)

theorem unmarshalBidMatch_encode (L : GoLib) (m1 m : BidMatch) (hi : m1.int64)
    (h : unmarshalBidMatch L (.json (.obj (m1.encode L))) = .ok m) : m.ID = m1.ID := by
  obtain ⟨i1, i2, i3, i4, i5, i6, i7, i8⟩ := hi
  simp only [unmarshalBidMatch, Unmarshal, decodeDoc, BidMatch.encode, decodeMembers,
    findField, BidMatch.fieldNames, BidMatch.setField, storeInt_jInt, storeString, storeFloat,
    jFloat, Except.map, i1, i2, i3, i4, i5, i6, i7, i8] at h
  simp at h
  rcases hp1 : L.parseFloat (L.formatFloat m1.DeliveredBidUnits) with ⟨f1, _ | e1⟩
  · rcases hp2 : L.parseFloat (L.formatFloat m1.OriginalBidUnits) with ⟨f2, _ | e2⟩
    · simp [hp1, hp2] at h
      subst h
      rfl
    · simp [hp1, hp2] at h
  · simp [hp1] at h

theorem marshalBidMatch_finite (L : GoLib) (m : BidMatch)
    (h1 : m.DeliveredBidUnits.isFinite = true) (h2 : m.OriginalBidUnits.isFinite = true) :
    marshalBidMatch L m = .json (.obj (m.encode L)) := by
  unfold marshalBidMatch
  rw [if_pos ⟨h1, h2⟩]

theorem marshalBidMatch_cases (L : GoLib) (m : BidMatch) :
    (marshalBidMatch L m = .json (.obj (m.encode L)) ∧ (marshalBidMatch L m).isEmpty = false) ∨
      (marshalBidMatch L m).isEmpty = true := by
  unfold marshalBidMatch
  split_ifs
  · exact Or.inl ⟨rfl, rfl⟩
  · exact Or.inr rfl

/-- What a stored value is when `ProcessBidMatch` wrote it under `BidMatch_<n>`: the
document of a bid match with id `n` whose integer fields are `int64`. -/
theorem writtenByProcessBidMatch_shape (L : GoLib) (n : Int) (b : Bytes) (hn : isInt64 n)
    (h : WrittenByProcessBidMatch L ("BidMatch_" ++ FormatInt n) b) :
    ∃ m1 : BidMatch, m1.int64 ∧ m1.ID = n ∧ b = .json (.obj (m1.encode L)) := by
  obtain ⟨clock, stub, args, hsucc, hne, heq⟩ := h
  obtain ⟨a0, a1, a2, a3, a4, a5, a6, a7, a8, a9, a10, m, tms, bs, bup, buid, suid, tb, ts,
    dbu, obu, rfl, h6, h0, h2, h3, h4, h5, h7, h8, h9, h10⟩ :=
    ProcessBidMatch_success_inv L clock stub args hsucc
  have im := ParseInt_isInt64 _ _ h6
  have itms := ParseInt_isInt64 _ _ h0
  have ibs := ParseInt_isInt64 _ _ h2
  have ibup := ParseInt_isInt64 _ _ h3
  have ibuid := ParseInt_isInt64 _ _ h4
  have isuid := ParseInt_isInt64 _ _ h8
  have itb := ParseInt_isInt64 _ _ h9
  have its := ParseInt_isInt64 _ _ h10
  rw [ProcessBidMatch_parsed L clock stub a0 a1 a2 a3 a4 a5 a6 a7 a8 a9 a10
    m tms bs bup buid suid tb ts dbu obu h6 h0 h2 h3 h4 h5 h7 h8 h9 h10] at heq hsucc
  have key : ∀ (m1 : BidMatch) (st : Store), m1.int64 →
      st = (fun k => if k = "BidMatch_" ++ FormatInt m1.ID then
            (if (marshalBidMatch L m1).isEmpty then none else some (marshalBidMatch L m1))
          else stub k) →
      st ("BidMatch_" ++ FormatInt n) = some b →
      ∃ m1 : BidMatch, m1.int64 ∧ m1.ID = n ∧ b = .json (.obj (m1.encode L)) := by
    intro m1 st hi hst hb
    subst hst
    simp only at hb
    by_cases hk : "BidMatch_" ++ FormatInt n = "BidMatch_" ++ FormatInt m1.ID
    · rw [if_pos hk] at hb
      have hid : n = m1.ID :=
        FormatInt_injective n m1.ID hn hi.2.2.2.2.1 (prefix_cancel _ _ _ hk)
      rcases marshalBidMatch_cases L m1 with ⟨hj, he⟩ | he
      · rw [he] at hb
        simp only [Bool.false_eq_true, if_false, Option.some.injEq] at hb
        exact ⟨m1, hi, hid.symm, by rw [← hb, hj]⟩
      · rw [he] at hb
        simp at hb
    · rw [if_neg hk] at hb
      exact absurd hb hne
  cases hst : stub ("BidMatch_" ++ FormatInt m) with
  | none =>
    rw [hst] at heq
    simp only at heq
    exact key
      { BidMatchTms := tms, BidSlot := a1, BidStatus := bs, BidUnitPrice := bup,
                      BuyerUserId := buid, DeliveredBidUnits := dbu, ID := m,
                      OriginalBidUnits := obu, SellerUserId := suid,
                      TransactionBuyID := tb, TransactionSellID := ts } _
      ⟨itms, ibs, ibup, ibuid, im, isuid, itb, its⟩ rfl heq
  | some b0 =>
    rw [hst] at heq hsucc
    simp only at heq hsucc
    cases hu : unmarshalBidMatch L b0 with
    | error e =>
      rw [hu] at hsucc
      exact absurd hsucc (by simp)
    | ok o =>
      rw [hu] at heq
      simp only at heq
      have io := unmarshalBidMatch_int64 L b0 o hu
      exact key
        { BidMatchTms := tms, BidSlot := a1, BidStatus := bs, BidUnitPrice := bup,
                      BuyerUserId := buid, DeliveredBidUnits := dbu, ID := o.ID,
                      OriginalBidUnits := obu, SellerUserId := suid,
                      TransactionBuyID := tb, TransactionSellID := ts } _
        ⟨itms, ibs, ibup, ibuid, io.2.2.2.2.1, isuid, itb, its⟩ rfl heq

/-- C20 as stated fails: on the empty ledger every numeric argument parses, the delivered
bid units as `NaN`.  `ProcessBidMatch` returns success, but `json.Marshal` rejects NaN, the
handler drops that error and puts nil bytes: `BidMatch_1` holds no bid match afterwards.
And with the second argument the one byte 0xFF, which is not valid UTF-8, the bid match
stored has U+FFFD as its bid slot, not the argument. -/
theorem C20_counterexample :
    ParseFloat exampleLib "NaN" = (.nan, none) ∧
    (ProcessBidMatch exampleLib clock100 emptyStore
        ["1", "Slot1", "1", "100", "4", "NaN", "1", "3.5", "5", "6", "7"]).1 = .success none ∧
    (ProcessBidMatch exampleLib clock100 emptyStore
        ["1", "Slot1", "1", "100", "4", "NaN", "1", "3.5", "5", "6", "7"]).2 "BidMatch_1" =
      none ∧
    (ProcessBidMatch exampleLib clock100 emptyStore
        ["1", "\xff", "1", "100", "4", "2.5", "1", "3.5", "5", "6", "7"]).1 = .success none ∧
    ((ProcessBidMatch exampleLib clock100 emptyStore
        ["1", "\xff", "1", "100", "4", "2.5", "1", "3.5", "5", "6", "7"]).2
        "BidMatch_1").map (unmarshalBidMatch exampleLib) =
      some (.ok { BidMatchTms := 1, BidSlot := "\xef\xbf\xbd", BidStatus := 1,
                  BidUnitPrice := 100, BuyerUserId := 4,
                  DeliveredBidUnits := .fin 0x4004000000000000, ID := 1,
                  OriginalBidUnits := .fin 0x400C000000000000, SellerUserId := 5,
                  TransactionBuyID := 6, TransactionSellID := 7 }) ∧
    ("\xef\xbf\xbd" : String) ≠ "\xff" := by
  refine ⟨by decide, by decide, by decide, by decide, by decide, by decide⟩

/-- C20, amended: on a ledger whose key `BidMatch_<n>` holds nothing, or holds a bid match
written by `ProcessBidMatch`, for 11 arguments whose seventh is `n` and whose numeric fields
parse, the delivered and the original bid units to finite numbers, `ProcessBidMatch`
succeeds, changes no key but `BidMatch_<n>`, and stores there the bid match with id `n`
and the other ten fields equal to the arguments 1 to 6 and 8 to 11 (encoded as
`json.Marshal` writes it: the bid slot stands in it as it is when it is valid UTF-8). -/
theorem C20_process_bid_match (L : GoLib) (clock : Clock) (stub : Store)
    (a0 a1 a2 a3 a4 a5 a6 a7 a8 a9 a10 : String)
    (n tms bs bup buid suid tb ts : Int) (dbu obu : Float64)
    (h6 : ParseInt a6 = .ok n) (h0 : ParseInt a0 = .ok tms) (h2 : ParseInt a2 = .ok bs)
    (h3 : ParseInt a3 = .ok bup) (h4 : ParseInt a4 = .ok buid)
    (h5 : ParseFloat L a5 = (dbu, none)) (h7 : ParseFloat L a7 = (obu, none))
    (h8 : ParseInt a8 = .ok suid) (h9 : ParseInt a9 = .ok tb) (h10 : ParseInt a10 = .ok ts)
    (fd : dbu.isFinite = true) (fo : obu.isFinite = true)
    (hstore : stub ("BidMatch_" ++ FormatInt n) = none ∨
      ∃ b o, stub ("BidMatch_" ++ FormatInt n) = some b ∧
        WrittenByProcessBidMatch L ("BidMatch_" ++ FormatInt n) b ∧
        unmarshalBidMatch L b = .ok o) :
    (ProcessBidMatch L clock stub [a0, a1, a2, a3, a4, a5, a6, a7, a8, a9, a10]).1 =
      .success none ∧
    (∀ k, k ≠ "BidMatch_" ++ FormatInt n →
      (ProcessBidMatch L clock stub [a0, a1, a2, a3, a4, a5, a6, a7, a8, a9, a10]).2 k =
        stub k) ∧
    (ProcessBidMatch L clock stub [a0, a1, a2, a3, a4, a5, a6, a7, a8, a9, a10]).2
        ("BidMatch_" ++ FormatInt n) =
      some (.json (.obj (BidMatch.encode L
        { BidMatchTms := tms, BidSlot := a1, BidStatus := bs, BidUnitPrice := bup,
          BuyerUserId := buid, DeliveredBidUnits := dbu, ID := n, OriginalBidUnits := obu,
          SellerUserId := suid, TransactionBuyID := tb, TransactionSellID := ts }))) := by
  have hn := ParseInt_isInt64 _ _ h6
  rw [ProcessBidMatch_parsed L clock stub a0 a1 a2 a3 a4 a5 a6 a7 a8 a9 a10
    n tms bs bup buid suid tb ts dbu obu h6 h0 h2 h3 h4 h5 h7 h8 h9 h10]
  rcases hstore with hnone | ⟨b, o, hb, hw, ho⟩
  · rw [hnone]
    simp only []
    rw [marshalBidMatch_finite L _ fd fo]
    refine ⟨trivial, ?_, ?_⟩
    · intro k hk
      simp only [hk, if_false]
    · simp only [if_true, Bytes.isEmpty, Bool.false_eq_true, if_false]
  · obtain ⟨m1, hi1, hid1, hb1⟩ := writtenByProcessBidMatch_shape L n b hn hw
    subst hb1
    have hid : o.ID = n := by
      rw [← hid1]
      exact unmarshalBidMatch_encode L m1 o hi1 ho
    rw [hb]
    simp only [ho, hid]
    rw [marshalBidMatch_finite L _ fd fo]
    refine ⟨trivial, ?_, ?_⟩
    · intro k hk
      simp only [hk, if_false]
    · simp only [if_true, Bytes.isEmpty, Bool.false_eq_true, if_false]

/-- C20 amended, at the arguments of the repository's test: bid match 1 is processed on
the empty ledger at second 100 and processed again, with bid status 3, at second 200. -/
theorem C20_process_bid_match_witness :
    (ProcessBidMatch exampleLib clock200
        (ProcessBidMatch exampleLib clock100 emptyStore
          ["1", "Slot1", "1", "100", "4", "2.5", "1", "3.5", "5", "6", "7"]).2
        ["1", "Slot1", "3", "100", "4", "2.5", "1", "3.5", "5", "6", "7"]).1 =
      .success none ∧
    (∀ k, k ≠ "BidMatch_" ++ FormatInt 1 →
      (ProcessBidMatch exampleLib clock200
        (ProcessBidMatch exampleLib clock100 emptyStore
          ["1", "Slot1", "1", "100", "4", "2.5", "1", "3.5", "5", "6", "7"]).2
        ["1", "Slot1", "3", "100", "4", "2.5", "1", "3.5", "5", "6", "7"]).2 k =
      (ProcessBidMatch exampleLib clock100 emptyStore
          ["1", "Slot1", "1", "100", "4", "2.5", "1", "3.5", "5", "6", "7"]).2 k) ∧
    (ProcessBidMatch exampleLib clock200
        (ProcessBidMatch exampleLib clock100 emptyStore
          ["1", "Slot1", "1", "100", "4", "2.5", "1", "3.5", "5", "6", "7"]).2
        ["1", "Slot1", "3", "100", "4", "2.5", "1", "3.5", "5", "6", "7"]).2
        ("BidMatch_" ++ FormatInt 1) =
      some (.json (.obj (BidMatch.encode exampleLib
        { BidMatchTms := 1, BidSlot := "Slot1", BidStatus := 3, BidUnitPrice := 100,
          BuyerUserId := 4, DeliveredBidUnits := .fin 0x4004000000000000, ID := 1,
          OriginalBidUnits := .fin 0x400C000000000000, SellerUserId := 5,
          TransactionBuyID := 6, TransactionSellID := 7 }))) :=
  C20_process_bid_match exampleLib clock200
    (ProcessBidMatch exampleLib clock100 emptyStore
      ["1", "Slot1", "1", "100", "4", "2.5", "1", "3.5", "5", "6", "7"]).2
    "1" "Slot1" "3" "100" "4" "2.5" "1" "3.5" "5" "6" "7"
    1 1 3 100 4 5 6 7 (.fin 0x4004000000000000) (.fin 0x400C000000000000)
    (by decide) (by decide) (by decide) (by decide) (by decide) (by decide) (by decide)
    (by decide) (by decide) (by decide) rfl rfl
    (Or.inr
      ⟨marshalBidMatch exampleLib
          { BidMatchTms := 1, BidSlot := "Slot1", BidStatus := 1, BidUnitPrice := 100,
            BuyerUserId := 4, DeliveredBidUnits := .fin 0x4004000000000000, ID := 1,
            OriginalBidUnits := .fin 0x400C000000000000, SellerUserId := 5,
            TransactionBuyID := 6, TransactionSellID := 7 },
        { BidMatchTms := 1, BidSlot := "Slot1", BidStatus := 1, BidUnitPrice := 100,
          BuyerUserId := 4, DeliveredBidUnits := .fin 0x4004000000000000, ID := 1,
          OriginalBidUnits := .fin 0x400C000000000000, SellerUserId := 5,
          TransactionBuyID := 6, TransactionSellID := 7 },
        by decide,
        ⟨clock100, emptyStore,
          ["1", "Slot1", "1", "100", "4", "2.5", "1", "3.5", "5", "6", "7"],
          by decide, by decide, by decide⟩,
        by decide⟩)

/-! ## Decoding what was encoded -/

theorem storeFloat_jFloat (L : GoLib) (field : String) (f old : Float64)
    (h : L.readsBack f) : storeFloat L field (jFloat L f) old = .ok f := by
  simp only [storeFloat, jFloat, h.2]

theorem unmarshalOrder_marshalOrder (L : GoLib) (o : Order) (hi : o.int64)
    (h1 : L.readsBack o.OrderCost) (h2 : L.readsBack o.UnitCost) :
    unmarshalOrder L (marshalOrder L o) = .ok o.written := by
  obtain ⟨i1, i2, i3, i4, i5, i6, i7, i8, i9, i10⟩ := hi
  rw [marshalOrder_finite L o h1.1 h2.1]
  simp [unmarshalOrder, Unmarshal, decodeDoc, Order.encode, decodeMembers, findField,
    Order.fieldNames, Order.setField, storeInt_jInt, storeString, storeFloat_jFloat,
    Except.map, i1, i2, i3, i4, i5, i6, i7, i8, i9, i10, h1, h2, Order.written]

theorem unmarshalBidMatch_marshalBidMatch (L : GoLib) (m : BidMatch) (hi : m.int64)
    (h1 : L.readsBack m.DeliveredBidUnits) (h2 : L.readsBack m.OriginalBidUnits) :
    unmarshalBidMatch L (marshalBidMatch L m) = .ok m.written := by
  obtain ⟨i1, i2, i3, i4, i5, i6, i7, i8⟩ := hi
  rw [marshalBidMatch_finite L m h1.1 h2.1]
  simp [unmarshalBidMatch, Unmarshal, decodeDoc, BidMatch.encode, decodeMembers, findField,
    BidMatch.fieldNames, BidMatch.setField, storeInt_jInt, storeString, storeFloat_jFloat,
    Except.map, i1, i2, i3, i4, i5, i6, i7, i8, h1, h2, BidMatch.written]

theorem unmarshalPayment_marshalPayment (L : GoLib) (p : Payment) (hi : p.int64)
    (h1 : L.readsBack p.TotalAmount) :
    unmarshalPayment L (marshalPayment L p) = .ok p.written := by
  obtain ⟨i1, i2, i3, i4⟩ := hi
  rw [marshalPayment_finite L p h1.1]
  simp [unmarshalPayment, Unmarshal, decodeDoc, Payment.encode, decodeMembers, findField,
    Payment.fieldNames, Payment.setField, storeInt_jInt, storeString, storeFloat_jFloat,
    Except.map, i1, i2, i3, i4, h1, Payment.written]

theorem unmarshalPaymentDetail_marshalPaymentDetail (L : GoLib) (d : PaymentDetail)
    (hi : isInt64 d.ID) (h1 : L.readsBack d.TotalUnitCost) (h2 : L.readsBack d.PlatformFee)
    (h3 : L.readsBack d.TokenAmount) (h4 : L.readsBack d.BidRefundAmount)
    (h5 : L.readsBack d.PlatformFeeRefundAmount) (h6 : L.readsBack d.TokenAmountRefund)
    (h7 : L.readsBack d.PenaltyFromSeller) :
    unmarshalPaymentDetail L (marshalPaymentDetail L d) = .ok d.written := by
  rw [marshalPaymentDetail_finite L d h1.1 h2.1 h3.1 h4.1 h5.1 h6.1 h7.1]
  simp [unmarshalPaymentDetail, Unmarshal, decodeDoc, PaymentDetail.encode, decodeMembers,
    findField, PaymentDetail.fieldNames, PaymentDetail.setField, storeInt_jInt, storeString,
    storeFloat_jFloat, Except.map, hi, h1, h2, h3, h4, h5, h6, h7, PaymentDetail.written]

theorem written_order_of_valid (o : Order) (h1 : validUTF8 o.OnMarketPrice)
    (h2 : validUTF8 o.SlotID) : o.written = o := by
  unfold validUTF8 at h1 h2
  unfold Order.written
  rw [h1, h2]

theorem written_bidMatch_of_valid (m : BidMatch) (h1 : validUTF8 m.BidSlot) :
    m.written = m := by
  unfold validUTF8 at h1
  unfold BidMatch.written
  rw [h1]

theorem written_payment_of_valid (p : Payment) (h1 : validUTF8 p.ID) : p.written = p := by
  unfold validUTF8 at h1
  unfold Payment.written
  rw [h1]

theorem written_paymentDetail_of_valid (d : PaymentDetail) (h1 : validUTF8 d.DebitedFrom)
    (h2 : validUTF8 d.CreditedTo) : d.written = d := by
  unfold validUTF8 at h1 h2
  unfold PaymentDetail.written
  rw [h1, h2]

/-- C25 as stated fails, in two ways. `json.Marshal` rejects an order whose order cost is
NaN, the handlers drop that error, and the bytes they pass to the ledger for it are nil:
there is nothing to decode. And for a user whose location is the one byte 0xFF, which is
not valid UTF-8, `json.Marshal` writes U+FFFD: the bytes decode to a user with another
location. -/
theorem C25_counterexample :
    Order.int64 { ID := 4, OrderCost := .nan } ∧
    (∀ L : GoLib, marshalOrder L { ID := 4, OrderCost := .nan } = .text "") ∧
    unmarshalOrder exampleLib (marshalOrder exampleLib { ID := 4, OrderCost := .nan }) ≠
      .ok { ID := 4, OrderCost := .nan } ∧
    User.int64 { ID := 1, Location := "\xff", MeterId := "Meter1" } ∧
    (∀ L : GoLib,
      unmarshalUser L (marshalUser { ID := 1, Location := "\xff", MeterId := "Meter1" }) =
        .ok { ID := 1, Location := "\xef\xbf\xbd", MeterId := "Meter1" }) ∧
    ({ ID := 1, Location := "\xef\xbf\xbd", MeterId := "Meter1" } : User) ≠
      { ID := 1, Location := "\xff", MeterId := "Meter1" } := by
  refine ⟨by decide, fun L => rfl, by decide, by decide, fun L => rfl, by decide⟩

/-- C25, amended: for every record of the six types whose string fields are valid UTF-8
and whose float fields are finite and are read back from the JSON number written for them
(as Go reads back every finite `float64`), decoding the bytes the handlers store for it
yields the record itself, field by field. The hypotheses `int64` are the types of the
integer fields. -/
theorem C25_round_trip (L : GoLib) :
    (∀ u : User, u.int64 → validUTF8 u.Location → validUTF8 u.MeterId →
      unmarshalUser L (marshalUser u) = .ok u) ∧
    (∀ c : PlatformContract, c.int64 →
      unmarshalPlatformContract L (marshalPlatformContract c) = .ok c) ∧
    (∀ o : Order, o.int64 → validUTF8 o.OnMarketPrice → validUTF8 o.SlotID →
      L.readsBack o.OrderCost → L.readsBack o.UnitCost →
      unmarshalOrder L (marshalOrder L o) = .ok o) ∧
    (∀ m : BidMatch, m.int64 → validUTF8 m.BidSlot → L.readsBack m.DeliveredBidUnits →
      L.readsBack m.OriginalBidUnits → unmarshalBidMatch L (marshalBidMatch L m) = .ok m) ∧
    (∀ p : Payment, p.int64 → validUTF8 p.ID → L.readsBack p.TotalAmount →
      unmarshalPayment L (marshalPayment L p) = .ok p) ∧
    (∀ d : PaymentDetail, isInt64 d.ID → validUTF8 d.DebitedFrom → validUTF8 d.CreditedTo →
      L.readsBack d.TotalUnitCost →
      L.readsBack d.PlatformFee → L.readsBack d.TokenAmount → L.readsBack d.BidRefundAmount →
      L.readsBack d.PlatformFeeRefundAmount → L.readsBack d.TokenAmountRefund →
      L.readsBack d.PenaltyFromSeller →
      unmarshalPaymentDetail L (marshalPaymentDetail L d) = .ok d) := by
  refine ⟨fun u h v1 v2 => ?_, fun c h => unmarshalPlatformContract_marshal L c h.1 h.2.1 h.2.2,
    fun o h v1 v2 h1 h2 => ?_, fun m h v1 h1 h2 => ?_, fun p h v1 h1 => ?_,
    fun d h v1 v2 h1 h2 h3 h4 h5 h6 h7 => ?_⟩
  · rw [unmarshalUser_marshalUser L u h, written_user_of_valid u v1 v2]
  · rw [unmarshalOrder_marshalOrder L o h h1 h2, written_order_of_valid o v1 v2]
  · rw [unmarshalBidMatch_marshalBidMatch L m h h1 h2, written_bidMatch_of_valid m v1]
  · rw [unmarshalPayment_marshalPayment L p h h1, written_payment_of_valid p v1]
  · rw [unmarshalPaymentDetail_marshalPaymentDetail L d h h1 h2 h3 h4 h5 h6 h7,
      written_paymentDetail_of_valid d v1 v2]

/-- C25 (amended) at one record of each type, with the values of the repository's tests. -/
theorem C25_round_trip_witness :
    unmarshalUser exampleLib (marshalUser
        { ID := 1, Category := 0, CreatedOn := 100, UpdatedOn := 100,
          Location := "Location A", MeterId := "Meter1", Source := 0 }) =
      .ok { ID := 1, Category := 0, CreatedOn := 100, UpdatedOn := 100,
            Location := "Location A", MeterId := "Meter1", Source := 0 } ∧
    unmarshalPlatformContract exampleLib (marshalPlatformContract
        { UserID := 12345, CreatedOn := 100, UpdatedOn := 100 }) =
      .ok { UserID := 12345, CreatedOn := 100, UpdatedOn := 100 } ∧
    unmarshalOrder exampleLib (marshalOrder exampleLib
        { ID := 4, BidMatchID := 1, OrderCost := .fin 0x4069000000000000,
          UnitCost := .fin 0x4004000000000000, SlotID := "Slot1", UserID := 1 }) =
      .ok { ID := 4, BidMatchID := 1, OrderCost := .fin 0x4069000000000000,
            UnitCost := .fin 0x4004000000000000, SlotID := "Slot1", UserID := 1 } ∧
    unmarshalBidMatch exampleLib (marshalBidMatch exampleLib
        { ID := 1, BidSlot := "Slot1", BuyerUserId := 5,
          DeliveredBidUnits := .fin 0x4004000000000000,
          OriginalBidUnits := .fin 0x400C000000000000 }) =
      .ok { ID := 1, BidSlot := "Slot1", BuyerUserId := 5,
            DeliveredBidUnits := .fin 0x4004000000000000,
            OriginalBidUnits := .fin 0x400C000000000000 } ∧
    unmarshalPayment exampleLib (marshalPayment exampleLib
        { ID := "P1", CreatedOn := 100, PaymentDetailId := 100000000007,
          TotalAmount := .fin 0x4069000000000000, UserID := 1 }) =
      .ok { ID := "P1", CreatedOn := 100, PaymentDetailId := 100000000007,
            TotalAmount := .fin 0x4069000000000000, UserID := 1 } ∧
    unmarshalPaymentDetail exampleLib (marshalPaymentDetail exampleLib
        { ID := 100000000007, DebitedFrom := "A", CreditedTo := "B",
          TotalUnitCost := .fin 0x4069000000000000, PlatformFee := .fin 0x4004000000000000,
          TokenAmount := .fin 0x400C000000000000, BidRefundAmount := .fin 0x4004000000000000,
          PlatformFeeRefundAmount := .fin 0x4004000000000000,
          TokenAmountRefund := .fin 0x4004000000000000,
          PenaltyFromSeller := .fin 0x4004000000000000 }) =
      .ok { ID := 100000000007, DebitedFrom := "A", CreditedTo := "B",
            TotalUnitCost := .fin 0x4069000000000000, PlatformFee := .fin 0x4004000000000000,
            TokenAmount := .fin 0x400C000000000000, BidRefundAmount := .fin 0x4004000000000000,
            PlatformFeeRefundAmount := .fin 0x4004000000000000,
            TokenAmountRefund := .fin 0x4004000000000000,
            PenaltyFromSeller := .fin 0x4004000000000000 } :=
  ⟨(C25_round_trip exampleLib).1 _ (by decide) (by decide) (by decide),
   (C25_round_trip exampleLib).2.1 _ (by decide),
   (C25_round_trip exampleLib).2.2.1 _ (by decide) (by decide) (by decide) (by decide)
     (by decide),
   (C25_round_trip exampleLib).2.2.2.1 _ (by decide) (by decide) (by decide) (by decide),
   (C25_round_trip exampleLib).2.2.2.2.1 _ (by decide) (by decide) (by decide),
   (C25_round_trip exampleLib).2.2.2.2.2 _ (by decide) (by decide) (by decide) (by decide)
     (by decide) (by decide) (by decide) (by decide) (by decide) (by decide)⟩

/-! ## The read handlers -/

theorem ReadPlatformContract_parsed (L : GoLib) (stub : Store) (a0 : String) (n : Int)
    (h : ParseInt a0 = .ok n) :
    ReadPlatformContract L stub [a0] =
      match stub ("PlatformContract_" ++ FormatInt n) with
      | none =>
        (.error ("Platform Contract for User with ID " ++ FormatInt n ++ " does not exist."),
          stub)
      | some b => (.success (some b), stub) := by
  simp only [ReadPlatformContract, h, GetState]

theorem ReadPaymentDetail_parsed (L : GoLib) (stub : Store) (a0 : String) (n : Int)
    (h : ParseInt a0 = .ok n) :
    ReadPaymentDetail L stub [a0] =
      match stub ("PaymentDetail_" ++ FormatInt n) with
      | none => (.error ("PaymentDetail with ID " ++ a0 ++ " not found."), stub)
      | some b => (.success (some b), stub) := by
  simp only [ReadPaymentDetail, h, GetState]

theorem ReadOrder_parsed (L : GoLib) (stub : Store) (a0 : String) (n : Int)
    (h : ParseInt a0 = .ok n) :
    ReadOrder L stub [a0] =
      match stub ("Order_" ++ FormatInt n) with
      | none => (.error ("Order with ID " ++ a0 ++ " not found."), stub)
      | some b => (.success (some b), stub) := by
  simp only [ReadOrder, h, GetState]

theorem ReadBidMatch_parsed (L : GoLib) (stub : Store) (a0 : String) (n : Int)
    (h : ParseInt a0 = .ok n) :
    ReadBidMatch L stub [a0] =
      match stub ("BidMatch_" ++ FormatInt n) with
      | none => (.error ("BidMatch with ID " ++ a0 ++ " not found."), stub)
      | some b => (.success (some b), stub) := by
  simp only [ReadBidMatch, h, GetState]

theorem ReadUserProfile_store (L : GoLib) (stub : Store) (args : List String) :
    (ReadUserProfile L stub args).2 = stub := by
  unfold ReadUserProfile
  repeat' split
  all_goals rfl

theorem ReadPlatformContract_store (L : GoLib) (stub : Store) (args : List String) :
    (ReadPlatformContract L stub args).2 = stub := by
  unfold ReadPlatformContract
  repeat' split
  all_goals rfl

theorem ReadPayment_store (stub : Store) (args : List String) :
    (ReadPayment stub args).2 = stub := by
  unfold ReadPayment
  repeat' split
  all_goals rfl

theorem ReadPaymentDetail_store (L : GoLib) (stub : Store) (args : List String) :
    (ReadPaymentDetail L stub args).2 = stub := by
  unfold ReadPaymentDetail
  repeat' split
  all_goals rfl

theorem ReadOrder_store (L : GoLib) (stub : Store) (args : List String) :
    (ReadOrder L stub args).2 = stub := by
  unfold ReadOrder
  repeat' split
  all_goals rfl

theorem ReadBidMatch_store (L : GoLib) (stub : Store) (args : List String) :
    (ReadBidMatch L stub args).2 = stub := by
  unfold ReadBidMatch
  repeat' split
  all_goals rfl

/-- C21 (fails on the code, for `ReadUserProfile`): every read handler leaves the ledger
as it was, on every argument list. On the ledger `exampleLedger`, which holds one record of
each kind, five handlers return the bytes stored under the key of their kind, and
`ReadOrder` and `ReadBidMatch` answer an absent id with `... with ID 99 not found.`; but
`ReadUserProfile(["1"])` returns an error although user 1 is stored (under the key `1`):
it looks under `User_1`, a key that no handler writes. -/
theorem C21_read_handlers :
    (∀ (L : GoLib) (stub : Store) (args : List String),
      (ReadUserProfile L stub args).2 = stub ∧ (ReadPlatformContract L stub args).2 = stub ∧
      (ReadPayment stub args).2 = stub ∧ (ReadPaymentDetail L stub args).2 = stub ∧
      (ReadOrder L stub args).2 = stub ∧ (ReadBidMatch L stub args).2 = stub) ∧
    exampleLedger "1" =
      some (marshalUser { ID := 1, Category := 0, CreatedOn := 100, UpdatedOn := 100,
                          Location := "Location A", MeterId := "Meter1", Source := 0 }) ∧
    (ReadUserProfile exampleLib exampleLedger ["1"]).1 =
      .error "User with ID 1 does not exist." ∧
    (exampleLedger "PlatformContract_1").isSome = true ∧
    (ReadPlatformContract exampleLib exampleLedger ["1"]).1 =
      .success (exampleLedger "PlatformContract_1") ∧
    (exampleLedger "Payment_P1").isSome = true ∧
    (ReadPayment exampleLedger ["P1"]).1 = .success (exampleLedger "Payment_P1") ∧
    (exampleLedger "PaymentDetail_100000000007").isSome = true ∧
    (ReadPaymentDetail exampleLib exampleLedger ["100000000007"]).1 =
      .success (exampleLedger "PaymentDetail_100000000007") ∧
    (exampleLedger "Order_4").isSome = true ∧
    (ReadOrder exampleLib exampleLedger ["4"]).1 = .success (exampleLedger "Order_4") ∧
    (exampleLedger "BidMatch_1").isSome = true ∧
    (ReadBidMatch exampleLib exampleLedger ["1"]).1 = .success (exampleLedger "BidMatch_1") ∧
    (ReadOrder exampleLib exampleLedger ["99"]).1 = .error "Order with ID 99 not found." ∧
    (ReadBidMatch exampleLib exampleLedger ["99"]).1 =
      .error "BidMatch with ID 99 not found." := by
  refine ⟨fun L stub args => ⟨ReadUserProfile_store L stub args,
    ReadPlatformContract_store L stub args, ReadPayment_store stub args,
    ReadPaymentDetail_store L stub args, ReadOrder_store L stub args,
    ReadBidMatch_store L stub args⟩, ?_, ?_, ?_, ?_, ?_, ?_, ?_, ?_, ?_, ?_, ?_, ?_, ?_, ?_⟩
  all_goals decide

/-! ## Reading what was written -/

/-- C22 as stated fails: `RegisterOrder` for order 4 with the order cost `NaN` returns
success on the empty ledger, where `Order_4` has no entry, but stores nothing (the error of
`json.Marshal` is dropped and nil bytes are put), and `ReadOrder(["4"])` then returns the
error `Order with ID 4 not found.`; the same for `ProcessBidMatch` and `ReadBidMatch` with
the delivered units `NaN`. -/
theorem C22_counterexample :
    emptyStore ("Order_" ++ FormatInt 4) = none ∧
    (RegisterOrder exampleLib clock100 emptyStore
      ["1", "0", "4", "2.5", "NaN", "5", "slot1234", "300", "3.5", "6", "50", "0"]).1 =
      .success none ∧
    (ReadOrder exampleLib
      (RegisterOrder exampleLib clock100 emptyStore
        ["1", "0", "4", "2.5", "NaN", "5", "slot1234", "300", "3.5", "6", "50", "0"]).2
      [FormatInt 4]).1 = .error "Order with ID 4 not found." ∧
    emptyStore ("BidMatch_" ++ FormatInt 1) = none ∧
    (ProcessBidMatch exampleLib clock100 emptyStore
      ["1", "Slot1", "1", "100", "4", "NaN", "1", "3.5", "5", "6", "7"]).1 = .success none ∧
    (ReadBidMatch exampleLib
      (ProcessBidMatch exampleLib clock100 emptyStore
        ["1", "Slot1", "1", "100", "4", "NaN", "1", "3.5", "5", "6", "7"]).2
      [FormatInt 1]).1 = .error "BidMatch with ID 1 not found." := by
  decide

/-- C22, amended: on a ledger with no entry under `Order_<n>`, after a successful
`RegisterOrder` with order id `n` whose order cost and unit cost are finite (and are read
back from the JSON numbers written for them, as Go reads back every finite `float64`),
`ReadOrder` with the decimal string of `n` succeeds, leaves the ledger as it is, and its
payload decodes to the order with id `n`, the bid match id just supplied and the other
fields as supplied (the strings as `json.Marshal` writes them, with U+FFFD for bytes that
are not valid UTF-8); likewise `ReadBidMatch` after a successful `ProcessBidMatch` with bid
match id `n`, finite delivered and original units, on a ledger with no entry under
`BidMatch_<n>`: the payload decodes to the bid match with id `n` and the supplied buyer
user id. -/
theorem C22_read_after_write (L : GoLib) (clock : Clock) (stub : Store) :
    (∀ (a0 a1 a2 a3 a4 a5 a6 a7 a8 a9 a10 a11 : String)
        (n bm bs pid tq uid sed act : Int) (oc uc : Float64),
      ParseInt a2 = .ok n → ParseInt a0 = .ok bm → ParseInt a1 = .ok bs →
      ParseFloat L a4 = (oc, none) → ParseInt a5 = .ok pid → ParseInt a7 = .ok tq →
      ParseFloat L a8 = (uc, none) → ParseInt a9 = .ok uid → ParseInt a10 = .ok sed →
      ParseInt a11 = .ok act →
      stub ("Order_" ++ FormatInt n) = none →
      (RegisterOrder L clock stub [a0, a1, a2, a3, a4, a5, a6, a7, a8, a9, a10, a11]).1 =
        .success none →
      L.readsBack oc → L.readsBack uc →
      ∃ b o,
        ReadOrder L
            (RegisterOrder L clock stub [a0, a1, a2, a3, a4, a5, a6, a7, a8, a9, a10, a11]).2
            [FormatInt n] =
          (.success (some b),
            (RegisterOrder L clock stub [a0, a1, a2, a3, a4, a5, a6, a7, a8, a9, a10, a11]).2) ∧
        unmarshalOrder L b = .ok o ∧ o.ID = n ∧ o.BidMatchID = bm ∧
        o = { BidMatchID := bm, BidStatus := bs, CreatedOn := (clock 0).unix, ID := n,
              OnMarketPrice := toValidUTF8 a3, OrderCost := oc, PaymentID := pid,
              SlotID := toValidUTF8 a6, SlotExecDate := sed, TotalQuantity := tq,
              UnitCost := uc, UpdatedOn := (clock 1).unix, UserAction := act,
              UserID := uid }) ∧
    (∀ (a0 a1 a2 a3 a4 a5 a6 a7 a8 a9 a10 : String)
        (n tms bs bup buid suid tb ts : Int) (dbu obu : Float64),
      ParseInt a6 = .ok n → ParseInt a0 = .ok tms → ParseInt a2 = .ok bs →
      ParseInt a3 = .ok bup → ParseInt a4 = .ok buid → ParseFloat L a5 = (dbu, none) →
      ParseFloat L a7 = (obu, none) → ParseInt a8 = .ok suid → ParseInt a9 = .ok tb →
      ParseInt a10 = .ok ts →
      stub ("BidMatch_" ++ FormatInt n) = none →
      (ProcessBidMatch L clock stub [a0, a1, a2, a3, a4, a5, a6, a7, a8, a9, a10]).1 =
        .success none →
      L.readsBack dbu → L.readsBack obu →
      ∃ b m,
        ReadBidMatch L
            (ProcessBidMatch L clock stub [a0, a1, a2, a3, a4, a5, a6, a7, a8, a9, a10]).2
            [FormatInt n] =
          (.success (some b),
            (ProcessBidMatch L clock stub [a0, a1, a2, a3, a4, a5, a6, a7, a8, a9, a10]).2) ∧
        unmarshalBidMatch L b = .ok m ∧ m.ID = n ∧ m.BuyerUserId = buid ∧
        m = { BidMatchTms := tms, BidSlot := toValidUTF8 a1, BidStatus := bs,
              BidUnitPrice := bup, BuyerUserId := buid, DeliveredBidUnits := dbu, ID := n,
              OriginalBidUnits := obu, SellerUserId := suid, TransactionBuyID := tb,
              TransactionSellID := ts }) := by
  constructor
  · intro a0 a1 a2 a3 a4 a5 a6 a7 a8 a9 a10 a11 n bm bs pid tq uid sed act oc uc
      h2 h0 h1 h4 h5 h7 h8 h9 h10 h11 habs hsucc hoc huc
    have hn := ParseInt_isInt64 _ _ h2
    have hpar := RegisterOrder_parsed L clock stub a0 a1 a2 a3 a4 a5 a6 a7 a8 a9 a10 a11
      n bm bs pid tq uid sed act oc uc h2 h0 h1 h4 h5 h7 h8 h9 h10 h11
    rw [habs] at hpar
    simp only at hpar
    have hbs : ¬ (bs ≠ 0 ∧ bs ≠ 1) := by
      intro hc
      rw [hpar, if_pos hc] at hsucc
      exact absurd hsucc (by simp)
    rw [if_neg hbs, marshalOrder_finite L _ hoc.1 huc.1] at hpar
    rw [hpar, ReadOrder_parsed L _ (FormatInt n) n (ParseInt_FormatInt n hn)]
    simp only [if_true, Bytes.isEmpty, Bool.false_eq_true, if_false]
    refine ⟨_, _, rfl, ?_, rfl, rfl, rfl⟩
    rw [← marshalOrder_finite L _ hoc.1 huc.1]
    exact unmarshalOrder_marshalOrder L _
      ⟨ParseInt_isInt64 _ _ h0, ParseInt_isInt64 _ _ h1, (clock 0).unix_int64, hn,
        ParseInt_isInt64 _ _ h5, ParseInt_isInt64 _ _ h10, ParseInt_isInt64 _ _ h7,
        (clock 1).unix_int64, ParseInt_isInt64 _ _ h11, ParseInt_isInt64 _ _ h9⟩ hoc huc
  · intro a0 a1 a2 a3 a4 a5 a6 a7 a8 a9 a10 n tms bs bup buid suid tb ts dbu obu
      h6 h0 h2 h3 h4 h5 h7 h8 h9 h10 habs _ hd ho
    have hn := ParseInt_isInt64 _ _ h6
    have hpar := ProcessBidMatch_parsed L clock stub a0 a1 a2 a3 a4 a5 a6 a7 a8 a9 a10
      n tms bs bup buid suid tb ts dbu obu h6 h0 h2 h3 h4 h5 h7 h8 h9 h10
    rw [habs] at hpar
    simp only at hpar
    rw [marshalBidMatch_finite L _ hd.1 ho.1] at hpar
    rw [hpar, ReadBidMatch_parsed L _ (FormatInt n) n (ParseInt_FormatInt n hn)]
    simp only [if_true, Bytes.isEmpty, Bool.false_eq_true, if_false]
    refine ⟨_, _, rfl, ?_, rfl, rfl, rfl⟩
    rw [← marshalBidMatch_finite L _ hd.1 ho.1]
    exact unmarshalBidMatch_marshalBidMatch L _
      ⟨ParseInt_isInt64 _ _ h0, ParseInt_isInt64 _ _ h2, ParseInt_isInt64 _ _ h3,
        ParseInt_isInt64 _ _ h4, hn, ParseInt_isInt64 _ _ h8, ParseInt_isInt64 _ _ h9,
        ParseInt_isInt64 _ _ h10⟩ hd ho

/-- C22 (amended) at the calls of the repository's tests: order 4 with bid match id 1 and
bid match 1 with buyer user id 4, each registered on the empty ledger at second 100 and
read back. -/
theorem C22_read_after_write_witness :
    (∃ b o,
      ReadOrder exampleLib
          (RegisterOrder exampleLib clock100 emptyStore
            ["1", "0", "4", "2.5", "200", "5", "slot1234", "300", "3.5", "6", "50", "0"]).2
          [FormatInt 4] =
        (.success (some b),
          (RegisterOrder exampleLib clock100 emptyStore
            ["1", "0", "4", "2.5", "200", "5", "slot1234", "300", "3.5", "6", "50", "0"]).2) ∧
      unmarshalOrder exampleLib b = .ok o ∧ o.ID = 4 ∧ o.BidMatchID = 1 ∧
      o = { BidMatchID := 1, BidStatus := 0, CreatedOn := (clock100 0).unix, ID := 4,
            OnMarketPrice := "2.5", OrderCost := .fin 0x4069000000000000, PaymentID := 5,
            SlotID := "slot1234", SlotExecDate := 50, TotalQuantity := 300,
            UnitCost := .fin 0x400C000000000000, UpdatedOn := (clock100 1).unix,
            UserAction := 0, UserID := 6 }) ∧
    (∃ b m,
      ReadBidMatch exampleLib
          (ProcessBidMatch exampleLib clock100 emptyStore
            ["1", "Slot1", "1", "100", "4", "2.5", "1", "3.5", "5", "6", "7"]).2
          [FormatInt 1] =
        (.success (some b),
          (ProcessBidMatch exampleLib clock100 emptyStore
            ["1", "Slot1", "1", "100", "4", "2.5", "1", "3.5", "5", "6", "7"]).2) ∧
      unmarshalBidMatch exampleLib b = .ok m ∧ m.ID = 1 ∧ m.BuyerUserId = 4 ∧
      m = { BidMatchTms := 1, BidSlot := "Slot1", BidStatus := 1, BidUnitPrice := 100,
            BuyerUserId := 4, DeliveredBidUnits := .fin 0x4004000000000000, ID := 1,
            OriginalBidUnits := .fin 0x400C000000000000, SellerUserId := 5,
            TransactionBuyID := 6, TransactionSellID := 7 }) :=
  ⟨(C22_read_after_write exampleLib clock100 emptyStore).1
      "1" "0" "4" "2.5" "200" "5" "slot1234" "300" "3.5" "6" "50" "0"
      4 1 0 5 300 6 50 0 (.fin 0x4069000000000000) (.fin 0x400C000000000000)
      (by decide) (by decide) (by decide) (by decide) (by decide) (by decide) (by decide)
      (by decide) (by decide) (by decide) rfl (by decide) (by decide) (by decide),
   (C22_read_after_write exampleLib clock100 emptyStore).2
      "1" "Slot1" "1" "100" "4" "2.5" "1" "3.5" "5" "6" "7"
      1 1 1 100 4 5 6 7 (.fin 0x4004000000000000) (.fin 0x400C000000000000)
      (by decide) (by decide) (by decide) (by decide) (by decide) (by decide) (by decide)
      (by decide) (by decide) (by decide) rfl (by decide) (by decide) (by decide)⟩

/-! ## Write -/

theorem sane_ne_empty (s : String) (h : sane s) : s ≠ "" := by
  intro he
  subst he
  exact absurd h (by decide)

theorem Write_two (stub : Store) (key value : String) :
    Write stub [key, value] =
      if sane key then
        if sane value then
          (.success none, fun k => if k = key then some (.text value) else stub k)
        else
          (.error ("Argument " ++ Itoa 1 ++
            (if len value = 0 then " must be a non-empty string"
             else " must be <= 256 characters")), stub)
      else
        (.error ("Argument " ++ Itoa 0 ++
          (if len key = 0 then " must be a non-empty string"
           else " must be <= 256 characters")), stub) := by
  by_cases hk : sane key
  · by_cases hv : sane value
    · rw [if_pos hk, if_pos hv]
      have hs : sanitize_arguments [key, value] = none := by
        rw [sanitize_arguments_none]
        intro s hs
        simp only [List.mem_cons, List.mem_singleton, List.not_mem_nil, or_false] at hs
        rcases hs with rfl | rfl
        · exact hk
        · exact hv
      have hp := PutState_ok stub key (.text value) (sane_ne_empty key hk)
        (by simp [Bytes.isEmpty, sane_ne_empty value hv])
      simp only [Write, hs, hp]
    · rw [if_pos hk, if_neg hv]
      unfold sane at hk hv
      have h0 : ¬ len key ≤ 0 := by omega
      have h1 : ¬ len key > 256 := by omega
      by_cases hz : len value = 0
      · have h2 : len value ≤ 0 := by omega
        simp only [Write, sanitize_arguments, sanitizeFrom, if_neg h0, if_neg h1, if_pos h2,
          if_pos hz]
        rfl
      · have h2 : ¬ len value ≤ 0 := by omega
        have h3 : len value > 256 := by omega
        simp only [Write, sanitize_arguments, sanitizeFrom, if_neg h0, if_neg h1, if_neg h2,
          if_pos h3, if_neg hz]
        rfl
  · rw [if_neg hk]
    unfold sane at hk
    by_cases hz : len key = 0
    · have h2 : len key ≤ 0 := by omega
      simp only [Write, sanitize_arguments, sanitizeFrom, if_pos h2, if_pos hz]
      rfl
    · have h2 : ¬ len key ≤ 0 := by omega
      have h3 : len key > 256 := by omega
      simp only [Write, sanitize_arguments, sanitizeFrom, if_neg h2, if_pos h3, if_neg hz]
      rfl

/-- C23: `Write` succeeds exactly when its argument list consists of two arguments of 1 to
256 bytes each; it then returns the empty success and the ledger maps the key to the bytes of
the value and every other key as before. In every other case the ledger is as it was; and of
two arguments, when the first is empty or longer than 256 bytes the error begins
`Argument 0`, and when only the second is, `Argument 1`: the index of the first such
argument, followed by ` must be a non-empty string` or ` must be <= 256 characters`. -/
theorem C23_write (stub : Store) (args : List String) :
    ((Write stub args).1.isSuccess = true ↔
      ∃ key value, args = [key, value] ∧ sane key ∧ sane value) ∧
    (∀ key value, args = [key, value] → sane key → sane value →
      Write stub args =
        (.success none, fun k => if k = key then some (.text value) else stub k)) ∧
    ((Write stub args).1.isSuccess = false → (Write stub args).2 = stub) ∧
    (∀ key value, args = [key, value] → ¬ sane key →
      Write stub args =
        (.error ("Argument " ++ Itoa 0 ++
          (if len key = 0 then " must be a non-empty string"
           else " must be <= 256 characters")), stub)) ∧
    (∀ key value, args = [key, value] → sane key → ¬ sane value →
      Write stub args =
        (.error ("Argument " ++ Itoa 1 ++
          (if len value = 0 then " must be a non-empty string"
           else " must be <= 256 characters")), stub)) := by
  refine ⟨?_, ?_, ?_, ?_, ?_⟩
  · constructor
    · intro h
      by_cases hl : args.length = 2
      · match args, hl with
        | [key, value], _ =>
          refine ⟨key, value, rfl, ?_⟩
          rw [Write_two] at h
          by_cases hk : sane key
          · by_cases hv : sane value
            · exact ⟨hk, hv⟩
            · rw [if_pos hk, if_neg hv] at h
              simp [Response.isSuccess] at h
          · rw [if_neg hk] at h
            simp [Response.isSuccess] at h
      · rw [Write_arity stub args hl] at h
        simp [Response.isSuccess] at h
    · rintro ⟨key, value, rfl, hk, hv⟩
      rw [Write_two, if_pos hk, if_pos hv]
      rfl
  · rintro key value rfl hk hv
    rw [Write_two, if_pos hk, if_pos hv]
  · intro h
    by_cases hl : args.length = 2
    · match args, hl with
      | [key, value], _ =>
        rw [Write_two] at h ⊢
        by_cases hk : sane key
        · by_cases hv : sane value
          · rw [if_pos hk, if_pos hv] at h
            simp [Response.isSuccess] at h
          · rw [if_pos hk, if_neg hv]
        · rw [if_neg hk]
    · rw [Write_arity stub args hl]
  · rintro key value rfl hk
    rw [Write_two, if_neg hk]
  · rintro key value rfl hk hv
    rw [Write_two, if_pos hk, if_neg hv]

/-- C23 at the call of the repository's test, `Write(["TestKey", "TestValue"])` on the
empty ledger, and at two calls with an empty argument. -/
theorem C23_write_witness :
    Write emptyStore ["TestKey", "TestValue"] =
      (.success none,
        fun k => if k = "TestKey" then some (.text "TestValue") else emptyStore k) ∧
    Write emptyStore ["", ""] =
      (.error ("Argument " ++ Itoa 0 ++
        (if len "" = 0 then " must be a non-empty string"
         else " must be <= 256 characters")), emptyStore) ∧
    Write emptyStore ["TestKey", ""] =
      (.error ("Argument " ++ Itoa 1 ++
        (if len "" = 0 then " must be a non-empty string"
         else " must be <= 256 characters")), emptyStore) :=
  ⟨(C23_write emptyStore ["TestKey", "TestValue"]).2.1 "TestKey" "TestValue" rfl
      (by decide) (by decide),
   (C23_write emptyStore ["", ""]).2.2.2.1 "" "" rfl (by decide),
   (C23_write emptyStore ["TestKey", ""]).2.2.2.2 "TestKey" "" rfl (by decide) (by decide)⟩

/-! ## The order of the encoded fields -/

/-- C26: every encoded `Order` carries the member names of `Order.fieldNames`, in the
order of the struct declaration, and these are not in alphabetical order: `status` (the tag
of `OrderCost`) stands before `paymentId`, `slotId` before `slotExecDate`, and `updatedOn`
before `action`; comparing without regard to case does not change this. -/
theorem C26_order_names_unsorted :
    (∀ (L : GoLib) (o : Order), memberNames (o.encode L) = Order.fieldNames) ∧
    alphabetical Order.fieldNames = false ∧
    alphabetical (Order.fieldNames.map lowerCased) = false ∧
    Order.fieldNames.drop 4 = ["onMarketPrice", "status", "paymentId", "slotId",
      "slotExecDate", "totalQuantity", "unitCost", "updatedOn", "action", "userId"] ∧
    leChars "status".data "paymentId".data = false ∧
    leChars "slotId".data "slotExecDate".data = false ∧
    leChars "updatedOn".data "action".data = false := by
  refine ⟨fun L o => rfl, by decide, by decide, by decide, by decide, by decide, by decide⟩

/-- C27: the member names of an encoded `BidMatch` and of an encoded `Payment` are in
alphabetical order; those of an encoded `PaymentDetail`, which begin `id`, `debitedFrom`,
`creditedTo`, are not. -/
theorem C27_payment_detail_names_unsorted :
    (∀ (L : GoLib) (m : BidMatch), memberNames (m.encode L) = BidMatch.fieldNames) ∧
    (∀ (L : GoLib) (p : Payment), memberNames (p.encode L) = Payment.fieldNames) ∧
    (∀ (L : GoLib) (d : PaymentDetail), memberNames (d.encode L) = PaymentDetail.fieldNames) ∧
    alphabetical BidMatch.fieldNames = true ∧
    alphabetical Payment.fieldNames = true ∧
    alphabetical PaymentDetail.fieldNames = false ∧
    alphabetical (PaymentDetail.fieldNames.map lowerCased) = false ∧
    PaymentDetail.fieldNames.take 3 = ["id", "debitedFrom", "creditedTo"] ∧
    leChars "id".data "debitedFrom".data = false ∧
    leChars "debitedFrom".data "creditedTo".data = false := by
  refine ⟨fun L m => rfl, fun L p => rfl, fun L d => rfl, by decide, by decide, by decide,
    by decide, by decide, by decide, by decide⟩

/-! ## Invoke -/

/-- C24: `Invoke` with a function name that is none of the twelve names it dispatches on
returns the error `Received unknown invoke function name - '<name>'` and leaves the ledger
as it was; the names are compared as strings, so that a name differing from a dispatched
one only in the case of a letter is unknown. -/
theorem C24_unknown_function (L : GoLib) (clock : Clock) (stub : Store) (function : String)
    (args : List String) (h : function ∉ invokeNames) :
    Invoke L clock stub function args =
      (.error ("Received unknown invoke function name - \x27" ++ function ++ "\x27"), stub) := by
  simp only [invokeNames, List.mem_cons, List.mem_singleton, List.not_mem_nil, or_false,
    not_or] at h
  obtain ⟨h1, h2, h3, h4, h5, h6, h7, h8, h9, h10, h11, h12⟩ := h
  unfold Invoke
  rw [if_neg h1, if_neg h2, if_neg h3, if_neg h4, if_neg h5, if_neg h6, if_neg h7, if_neg h8,
    if_neg h9, if_neg h10, if_neg h11, if_neg h12]

/-- C24 at the name `write`, which differs from the dispatched `Write` in the case of its
first letter. -/
theorem C24_unknown_function_witness :
    Invoke exampleLib clock100 emptyStore "write" ["TestKey", "TestValue"] =
      (.error ("Received unknown invoke function name - \x27" ++ "write" ++ "\x27"),
        emptyStore) :=
  C24_unknown_function exampleLib clock100 emptyStore "write" ["TestKey", "TestValue"]
    (by decide)

/-! ## The update timestamp -/

theorem UpdateUserProfile_success_args (L : GoLib) (clock : Clock) (stub : Store)
    (a0 a1 a2 a3 a4 : String)
    (h : (UpdateUserProfile L clock stub [a0, a1, a2, a3, a4]).1 = .success none) :
    (∀ s ∈ [a0, a1, a2, a3, a4], sane s) ∧
    ∃ c sc, userCategoryMap.lookup a1 = some c ∧ energySourceMap.lookup a4 = some sc := by
  revert h
  simp only [UpdateUserProfile, GetState, parseUserCategory, parseEnergySource]
  cases hsan : sanitize_arguments [a0, a1, a2, a3, a4] with
  | some e => intro h; exact absurd h (by simp)
  | none =>
    simp only []
    split
    · intro h; exact absurd h (by simp)
    · cases hid : ParseInt a0 with
      | error e => intro h; exact absurd h (by simp)
      | ok id =>
        cases hc : userCategoryMap.lookup a1 with
        | none => intro h; exact absurd h (by simp)
        | some c =>
          cases hs : energySourceMap.lookup a4 with
          | none => intro h; exact absurd h (by simp)
          | some sc =>
            intro _
            exact ⟨(sanitize_arguments_none _).mp hsan, c, sc, rfl, rfl⟩

/-- The `updatedOn` stored by a creating and by a later updating call of
`UpdateUserProfile`: the clock readings of the two calls. -/
theorem UpdateUserProfile_twice_updatedOn (L : GoLib) (clock1 clock2 : Clock) (stub : Store)
    (n : Int) (cat1 loc1 meter1 src1 cat2 loc2 meter2 src2 : String)
    (hn : isInt64 n) (habs : stub (FormatInt n) = none)
    (h1 : (UpdateUserProfile L clock1 stub [FormatInt n, cat1, loc1, meter1, src1]).1 =
      .success none)
    (h2 : (UpdateUserProfile L clock2
        (UpdateUserProfile L clock1 stub [FormatInt n, cat1, loc1, meter1, src1]).2
        [FormatInt n, cat2, loc2, meter2, src2]).1 = .success none) :
    storedUserUpdatedOn L
        (UpdateUserProfile L clock1 stub [FormatInt n, cat1, loc1, meter1, src1]).2
        (FormatInt n) = some (clock1 0).unix ∧
    storedUserUpdatedOn L
        (UpdateUserProfile L clock2
          (UpdateUserProfile L clock1 stub [FormatInt n, cat1, loc1, meter1, src1]).2
          [FormatInt n, cat2, loc2, meter2, src2]).2
        (FormatInt n) = some (clock2 0).unix := by
  have hid := ParseInt_FormatInt n hn
  obtain ⟨hs1, c1, sc1, hc1, hsc1⟩ := UpdateUserProfile_success_args L clock1 stub _ _ _ _ _ h1
  obtain ⟨hs2, c2, sc2, hc2, hsc2⟩ := UpdateUserProfile_success_args L clock2 _ _ _ _ _ _ h2
  have hcr := UpdateUserProfile_create L clock1 stub (FormatInt n) cat1 loc1 meter1 src1
    n c1 sc1 hs1 habs hid hc1 hsc1
  have hu1 := unmarshalUser_marshalUser L
    { ID := n, Category := c1, CreatedOn := (clock1 0).unix, UpdatedOn := (clock1 0).unix,
      Location := loc1, MeterId := meter1, Source := sc1 }
    ⟨hn, (sane_category _ c1 hc1).2, (clock1 0).unix_int64, (clock1 0).unix_int64,
      (sane_source _ sc1 hsc1).2⟩
  have hu2 := unmarshalUser_marshalUser L
    { ID := n, Category := c2, CreatedOn := (clock1 0).unix, UpdatedOn := (clock2 0).unix,
      Location := loc2, MeterId := meter2, Source := sc2 }
    ⟨hn, (sane_category _ c2 hc2).2, (clock1 0).unix_int64, (clock2 0).unix_int64,
      (sane_source _ sc2 hsc2).2⟩
  rw [hcr]
  have hb : (fun k => if k = FormatInt n then
      some (marshalUser { ID := n, Category := c1, CreatedOn := (clock1 0).unix,
                          UpdatedOn := (clock1 0).unix, Location := loc1, MeterId := meter1,
                          Source := sc1 })
      else stub k) (FormatInt n) =
      some (marshalUser { ID := n, Category := c1, CreatedOn := (clock1 0).unix,
                          UpdatedOn := (clock1 0).unix, Location := loc1, MeterId := meter1,
                          Source := sc1 }) := by
    simp only [if_true]
  rw [UpdateUserProfile_update L clock2 _ (FormatInt n) cat2 loc2 meter2 src2 _ _ n c2 sc2
    hs2 hb hu1 hid hc2 hsc2]
  constructor
  · simp only [storedUserUpdatedOn, if_true, hu1, User.written]
  · simp only [storedUserUpdatedOn, if_true, User.written]
    simp only [hu2, User.written]

/-- The `updatedOn` stored by a creating and by a later updating call of `RegisterOrder`:
the second clock reading of the first call and the first reading of the second. -/
theorem RegisterOrder_twice_updatedOn (L : GoLib) (clock1 clock2 : Clock) (stub : Store)
    (a0 a1 a2 a3 a4 a5 a6 a7 a8 a9 a10 a11 : String)
    (b0 b1 b2 b3 b4 b5 b6 b7 b8 b9 b10 b11 : String)
    (n bm bs pid tq uid sed act : Int) (oc uc : Float64)
    (bm2 bs2 pid2 tq2 uid2 sed2 act2 : Int) (oc2 uc2 : Float64)
    (h2 : ParseInt a2 = .ok n) (h0 : ParseInt a0 = .ok bm) (h1 : ParseInt a1 = .ok bs)
    (h4 : ParseFloat L a4 = (oc, none)) (h5 : ParseInt a5 = .ok pid)
    (h7 : ParseInt a7 = .ok tq) (h8 : ParseFloat L a8 = (uc, none))
    (h9 : ParseInt a9 = .ok uid) (h10 : ParseInt a10 = .ok sed)
    (h11 : ParseInt a11 = .ok act)
    (k2 : ParseInt b2 = .ok n) (k0 : ParseInt b0 = .ok bm2) (k1 : ParseInt b1 = .ok bs2)
    (k4 : ParseFloat L b4 = (oc2, none)) (k5 : ParseInt b5 = .ok pid2)
    (k7 : ParseInt b7 = .ok tq2) (k8 : ParseFloat L b8 = (uc2, none))
    (k9 : ParseInt b9 = .ok uid2) (k10 : ParseInt b10 = .ok sed2)
    (k11 : ParseInt b11 = .ok act2)
    (habs : stub ("Order_" ++ FormatInt n) = none)
    (hsucc : (RegisterOrder L clock1 stub
      [a0, a1, a2, a3, a4, a5, a6, a7, a8, a9, a10, a11]).1 = .success none)
    (hoc : L.readsBack oc) (huc : L.readsBack uc)
    (hoc2 : L.readsBack oc2) (huc2 : L.readsBack uc2) :
    (RegisterOrder L clock2
      (RegisterOrder L clock1 stub [a0, a1, a2, a3, a4, a5, a6, a7, a8, a9, a10, a11]).2
      [b0, b1, b2, b3, b4, b5, b6, b7, b8, b9, b10, b11]).1 = .success none ∧
    storedOrderUpdatedOn L
        (RegisterOrder L clock1 stub [a0, a1, a2, a3, a4, a5, a6, a7, a8, a9, a10, a11]).2
        ("Order_" ++ FormatInt n) = some (clock1 1).unix ∧
    storedOrderUpdatedOn L
        (RegisterOrder L clock2
          (RegisterOrder L clock1 stub [a0, a1, a2, a3, a4, a5, a6, a7, a8, a9, a10, a11]).2
          [b0, b1, b2, b3, b4, b5, b6, b7, b8, b9, b10, b11]).2
        ("Order_" ++ FormatInt n) = some (clock2 0).unix := by
  have hn := ParseInt_isInt64 _ _ h2
  have hpar := RegisterOrder_parsed L clock1 stub a0 a1 a2 a3 a4 a5 a6 a7 a8 a9 a10 a11
    n bm bs pid tq uid sed act oc uc h2 h0 h1 h4 h5 h7 h8 h9 h10 h11
  rw [habs] at hpar
  simp only at hpar
  have hbs : ¬ (bs ≠ 0 ∧ bs ≠ 1) := by
    intro hc
    rw [hpar, if_pos hc] at hsucc
    exact absurd hsucc (by simp)
  rw [if_neg hbs, marshalOrder_finite L _ hoc.1 huc.1] at hpar
  simp only [Bytes.isEmpty, Bool.false_eq_true, if_false] at hpar
  have hd1 := unmarshalOrder_marshalOrder L
    { BidMatchID := bm, BidStatus := bs, CreatedOn := (clock1 0).unix, ID := n,
      OnMarketPrice := a3, OrderCost := oc, PaymentID := pid, SlotID := a6,
      SlotExecDate := sed, TotalQuantity := tq, UnitCost := uc,
      UpdatedOn := (clock1 1).unix, UserAction := act, UserID := uid }
    ⟨ParseInt_isInt64 _ _ h0, ParseInt_isInt64 _ _ h1, (clock1 0).unix_int64, hn,
      ParseInt_isInt64 _ _ h5, ParseInt_isInt64 _ _ h10, ParseInt_isInt64 _ _ h7,
      (clock1 1).unix_int64, ParseInt_isInt64 _ _ h11, ParseInt_isInt64 _ _ h9⟩ hoc huc
  rw [marshalOrder_finite L _ hoc.1 huc.1] at hd1
  have hd2 := unmarshalOrder_marshalOrder L
    { BidMatchID := bm2, BidStatus := bs2, CreatedOn := (clock1 0).unix, ID := n,
      OnMarketPrice := b3, OrderCost := oc2, PaymentID := pid2, SlotID := b6,
      SlotExecDate := sed2, TotalQuantity := tq2, UnitCost := uc2,
      UpdatedOn := (clock2 0).unix, UserAction := act2, UserID := uid2 }
    ⟨ParseInt_isInt64 _ _ k0, ParseInt_isInt64 _ _ k1, (clock1 0).unix_int64, hn,
      ParseInt_isInt64 _ _ k5, ParseInt_isInt64 _ _ k10, ParseInt_isInt64 _ _ k7,
      (clock2 0).unix_int64, ParseInt_isInt64 _ _ k11, ParseInt_isInt64 _ _ k9⟩ hoc2 huc2
  rw [marshalOrder_finite L _ hoc2.1 huc2.1] at hd2
  rw [hpar]
  rw [RegisterOrder_parsed L clock2 _ b0 b1 b2 b3 b4 b5 b6 b7 b8 b9 b10 b11
    n bm2 bs2 pid2 tq2 uid2 sed2 act2 oc2 uc2 k2 k0 k1 k4 k5 k7 k8 k9 k10 k11]
  simp only [if_true, hd1, Order.written]
  rw [marshalOrder_finite L _ hoc2.1 huc2.1]
  refine ⟨trivial, ?_, ?_⟩
  · simp only [storedOrderUpdatedOn, if_true, hd1, Order.written]
  · simp only [storedOrderUpdatedOn, if_true, Bytes.isEmpty, Bool.false_eq_true, if_false, hd2,
      Order.written]

/-- C28 as stated fails: user 1 is created and then updated, both calls within second 100
(so that t1 ≤ t2 holds); the `updatedOn` stored after the update is 100, as after the
creation, and is not strictly greater. The same for order 4. -/
theorem C28_counterexample :
    (clock100 0).unix ≤ (clock100 0).unix ∧
    (UpdateUserProfile exampleLib clock100 emptyStore
      ["1", "Prosumer", "Location A", "Meter1", "Solar"]).1 = .success none ∧
    (UpdateUserProfile exampleLib clock100
      (UpdateUserProfile exampleLib clock100 emptyStore
        ["1", "Prosumer", "Location A", "Meter1", "Solar"]).2
      ["1", "Consumer", "Location B", "Meter2", "Wind"]).1 = .success none ∧
    storedUserUpdatedOn exampleLib
      (UpdateUserProfile exampleLib clock100 emptyStore
        ["1", "Prosumer", "Location A", "Meter1", "Solar"]).2 "1" = some 100 ∧
    storedUserUpdatedOn exampleLib
      (UpdateUserProfile exampleLib clock100
        (UpdateUserProfile exampleLib clock100 emptyStore
          ["1", "Prosumer", "Location A", "Meter1", "Solar"]).2
        ["1", "Consumer", "Location B", "Meter2", "Wind"]).2 "1" = some 100 ∧
    (clock100 1).unix ≤ (clock100 0).unix ∧
    (RegisterOrder exampleLib clock100 emptyStore
      ["1", "0", "4", "2.5", "200", "5", "slot1234", "300", "3.5", "6", "50", "0"]).1 =
      .success none ∧
    (RegisterOrder exampleLib clock100
      (RegisterOrder exampleLib clock100 emptyStore
        ["1", "0", "4", "2.5", "200", "5", "slot1234", "300", "3.5", "6", "50", "0"]).2
      ["1", "1", "4", "2.5", "200", "5", "slot1234", "300", "2.5", "6", "50", "0"]).1 =
      .success none ∧
    storedOrderUpdatedOn exampleLib
      (RegisterOrder exampleLib clock100 emptyStore
        ["1", "0", "4", "2.5", "200", "5", "slot1234", "300", "3.5", "6", "50", "0"]).2
      "Order_4" = some 100 ∧
    storedOrderUpdatedOn exampleLib
      (RegisterOrder exampleLib clock100
        (RegisterOrder exampleLib clock100 emptyStore
          ["1", "0", "4", "2.5", "200", "5", "slot1234", "300", "3.5", "6", "50", "0"]).2
        ["1", "1", "4", "2.5", "200", "5", "slot1234", "300", "2.5", "6", "50", "0"]).2
      "Order_4" = some 100 := by
  decide

/-- C28, amended: for a user created by one successful call of `UpdateUserProfile` (no
value under its key before) and updated by a later successful call, with clock readings
t1 ≤ t2 in whole seconds, the `updatedOn` stored after the creation is t1, the one stored
after the update is t2: it is greater than or equal to the former, and strictly greater
exactly when t1 < t2. The same holds for an order created and then updated by
`RegisterOrder` with finite order costs and unit costs (read back from the JSON numbers
written for them, as Go reads back every finite `float64`), t1 being the reading at which
the creating call sets `updatedOn` and t2 the reading of the updating call. -/
theorem C28_updatedOn_monotone (L : GoLib) (clock1 clock2 : Clock) (stub : Store) :
    (∀ (n : Int) (cat1 loc1 meter1 src1 cat2 loc2 meter2 src2 : String),
      isInt64 n → stub (FormatInt n) = none →
      (UpdateUserProfile L clock1 stub [FormatInt n, cat1, loc1, meter1, src1]).1 =
        .success none →
      (UpdateUserProfile L clock2
        (UpdateUserProfile L clock1 stub [FormatInt n, cat1, loc1, meter1, src1]).2
        [FormatInt n, cat2, loc2, meter2, src2]).1 = .success none →
      (clock1 0).unix ≤ (clock2 0).unix →
      ∃ x y,
        storedUserUpdatedOn L
          (UpdateUserProfile L clock1 stub [FormatInt n, cat1, loc1, meter1, src1]).2
          (FormatInt n) = some x ∧
        storedUserUpdatedOn L
          (UpdateUserProfile L clock2
            (UpdateUserProfile L clock1 stub [FormatInt n, cat1, loc1, meter1, src1]).2
            [FormatInt n, cat2, loc2, meter2, src2]).2
          (FormatInt n) = some y ∧
        x = (clock1 0).unix ∧ y = (clock2 0).unix ∧ x ≤ y ∧
        (x < y ↔ (clock1 0).unix < (clock2 0).unix)) ∧
    (∀ (a0 a1 a2 a3 a4 a5 a6 a7 a8 a9 a10 a11 : String)
        (b0 b1 b2 b3 b4 b5 b6 b7 b8 b9 b10 b11 : String)
        (n bm bs pid tq uid sed act : Int) (oc uc : Float64)
        (bm2 bs2 pid2 tq2 uid2 sed2 act2 : Int) (oc2 uc2 : Float64),
      ParseInt a2 = .ok n → ParseInt a0 = .ok bm → ParseInt a1 = .ok bs →
      ParseFloat L a4 = (oc, none) → ParseInt a5 = .ok pid → ParseInt a7 = .ok tq →
      ParseFloat L a8 = (uc, none) → ParseInt a9 = .ok uid → ParseInt a10 = .ok sed →
      ParseInt a11 = .ok act →
      ParseInt b2 = .ok n → ParseInt b0 = .ok bm2 → ParseInt b1 = .ok bs2 →
      ParseFloat L b4 = (oc2, none) → ParseInt b5 = .ok pid2 → ParseInt b7 = .ok tq2 →
      ParseFloat L b8 = (uc2, none) → ParseInt b9 = .ok uid2 → ParseInt b10 = .ok sed2 →
      ParseInt b11 = .ok act2 →
      stub ("Order_" ++ FormatInt n) = none →
      (RegisterOrder L clock1 stub [a0, a1, a2, a3, a4, a5, a6, a7, a8, a9, a10, a11]).1 =
        .success none →
      L.readsBack oc → L.readsBack uc → L.readsBack oc2 → L.readsBack uc2 →
      (clock1 1).unix ≤ (clock2 0).unix →
      (RegisterOrder L clock2
        (RegisterOrder L clock1 stub [a0, a1, a2, a3, a4, a5, a6, a7, a8, a9, a10, a11]).2
        [b0, b1, b2, b3, b4, b5, b6, b7, b8, b9, b10, b11]).1 = .success none ∧
      ∃ x y,
        storedOrderUpdatedOn L
          (RegisterOrder L clock1 stub [a0, a1, a2, a3, a4, a5, a6, a7, a8, a9, a10, a11]).2
          ("Order_" ++ FormatInt n) = some x ∧
        storedOrderUpdatedOn L
          (RegisterOrder L clock2
            (RegisterOrder L clock1 stub
              [a0, a1, a2, a3, a4, a5, a6, a7, a8, a9, a10, a11]).2
            [b0, b1, b2, b3, b4, b5, b6, b7, b8, b9, b10, b11]).2
          ("Order_" ++ FormatInt n) = some y ∧
        x = (clock1 1).unix ∧ y = (clock2 0).unix ∧ x ≤ y ∧
        (x < y ↔ (clock1 1).unix < (clock2 0).unix)) := by
  constructor
  · intro n cat1 loc1 meter1 src1 cat2 loc2 meter2 src2 hn habs h1 h2 ht
    obtain ⟨e1, e2⟩ := UpdateUserProfile_twice_updatedOn L clock1 clock2 stub n
      cat1 loc1 meter1 src1 cat2 loc2 meter2 src2 hn habs h1 h2
    exact ⟨_, _, e1, e2, rfl, rfl, ht, Iff.rfl⟩
  · intro a0 a1 a2 a3 a4 a5 a6 a7 a8 a9 a10 a11 b0 b1 b2 b3 b4 b5 b6 b7 b8 b9 b10 b11
      n bm bs pid tq uid sed act oc uc bm2 bs2 pid2 tq2 uid2 sed2 act2 oc2 uc2
      h2 h0 h1 h4 h5 h7 h8 h9 h10 h11 k2 k0 k1 k4 k5 k7 k8 k9 k10 k11 habs hsucc
      hoc huc hoc2 huc2 ht
    obtain ⟨e0, e1, e2⟩ := RegisterOrder_twice_updatedOn L clock1 clock2 stub
      a0 a1 a2 a3 a4 a5 a6 a7 a8 a9 a10 a11 b0 b1 b2 b3 b4 b5 b6 b7 b8 b9 b10 b11
      n bm bs pid tq uid sed act oc uc bm2 bs2 pid2 tq2 uid2 sed2 act2 oc2 uc2
      h2 h0 h1 h4 h5 h7 h8 h9 h10 h11 k2 k0 k1 k4 k5 k7 k8 k9 k10 k11 habs hsucc
      hoc huc hoc2 huc2
    exact ⟨e0, _, _, e1, e2, rfl, rfl, ht, Iff.rfl⟩

/-- C28 (amended) at the scenario of the spec: user 1 and order 4 created on the empty
ledger at second 100 and updated at second 200. -/
theorem C28_updatedOn_monotone_witness :
    (∃ x y,
      storedUserUpdatedOn exampleLib
        (UpdateUserProfile exampleLib clock100 emptyStore
          [FormatInt 1, "Prosumer", "Location A", "Meter1", "Solar"]).2
        (FormatInt 1) = some x ∧
      storedUserUpdatedOn exampleLib
        (UpdateUserProfile exampleLib clock200
          (UpdateUserProfile exampleLib clock100 emptyStore
            [FormatInt 1, "Prosumer", "Location A", "Meter1", "Solar"]).2
          [FormatInt 1, "Consumer", "Location B", "Meter2", "Wind"]).2
        (FormatInt 1) = some y ∧
      x = (clock100 0).unix ∧ y = (clock200 0).unix ∧ x ≤ y ∧
      (x < y ↔ (clock100 0).unix < (clock200 0).unix)) ∧
    ((RegisterOrder exampleLib clock200
        (RegisterOrder exampleLib clock100 emptyStore
          ["1", "0", "4", "2.5", "200", "5", "slot1234", "300", "3.5", "6", "50", "0"]).2
        ["1", "1", "4", "2.5", "200", "5", "slot1234", "300", "2.5", "6", "50", "0"]).1 =
        .success none ∧
      ∃ x y,
        storedOrderUpdatedOn exampleLib
          (RegisterOrder exampleLib clock100 emptyStore
            ["1", "0", "4", "2.5", "200", "5", "slot1234", "300", "3.5", "6", "50", "0"]).2
          ("Order_" ++ FormatInt 4) = some x ∧
        storedOrderUpdatedOn exampleLib
          (RegisterOrder exampleLib clock200
            (RegisterOrder exampleLib clock100 emptyStore
              ["1", "0", "4", "2.5", "200", "5", "slot1234", "300", "3.5", "6", "50", "0"]).2
            ["1", "1", "4", "2.5", "200", "5", "slot1234", "300", "2.5", "6", "50", "0"]).2
          ("Order_" ++ FormatInt 4) = some y ∧
        x = (clock100 1).unix ∧ y = (clock200 0).unix ∧ x ≤ y ∧
        (x < y ↔ (clock100 1).unix < (clock200 0).unix)) :=
  ⟨(C28_updatedOn_monotone exampleLib clock100 clock200 emptyStore).1 1
      "Prosumer" "Location A" "Meter1" "Solar" "Consumer" "Location B" "Meter2" "Wind"
      (by decide) rfl (by decide) (by decide) (by decide),
   (C28_updatedOn_monotone exampleLib clock100 clock200 emptyStore).2
      "1" "0" "4" "2.5" "200" "5" "slot1234" "300" "3.5" "6" "50" "0"
      "1" "1" "4" "2.5" "200" "5" "slot1234" "300" "2.5" "6" "50" "0"
      4 1 0 5 300 6 50 0 (.fin 0x4069000000000000) (.fin 0x400C000000000000)
      1 1 5 300 6 50 0 (.fin 0x4069000000000000) (.fin 0x4004000000000000)
      (by decide) (by decide) (by decide) (by decide) (by decide) (by decide) (by decide)
      (by decide) (by decide) (by decide)
      (by decide) (by decide) (by decide) (by decide) (by decide) (by decide) (by decide)
      (by decide) (by decide) (by decide)
      rfl (by decide) (by decide) (by decide) (by decide) (by decide) (by decide)⟩

/-! ## `add` -/

theorem wrapInt_of_isInt64 (x : Int) (h : isInt64 x) : wrapInt x = x := by
  unfold isInt64 minInt64 maxInt64 at h
  unfold wrapInt
  omega

theorem wrapInt_above (x : Int) (h1 : maxInt64 < x) (h2 : x ≤ 2 * maxInt64) :
    wrapInt x = x - 2 ^ 64 := by
  unfold maxInt64 at h1 h2
  unfold wrapInt
  omega

theorem wrapInt_below (x : Int) (h1 : x < minInt64) (h2 : 2 * minInt64 ≤ x) :
    wrapInt x = x + 2 ^ 64 := by
  unfold minInt64 at h1 h2
  unfold wrapInt
  omega

/-- Every call of `add` with a non-negative first and a negative second operand returns
the overflow error. -/
theorem add_nonneg_neg (b q : Int) (hb : isInt64 b) (hq : isInt64 q) (h0 : 0 ≤ b)
    (h1 : q < 0) : (add b q).2 ≠ none := by
  have hs : wrapInt (q + b) = q + b := by
    apply wrapInt_of_isInt64
    unfold isInt64 minInt64 maxInt64 at *
    omega
  have h2 : ¬ (q + b < q) := by omega
  have h3 : ¬ (b ≥ 0 ∧ q ≥ 0) := by omega
  simp [add, hs, h2, h3]

theorem add_overflow (b q : Int) (hb : isInt64 b) (hq : isInt64 q)
    (hr : ¬ isInt64 (b + q)) :
    decide (wrapInt (q + b) < q) = decide (b ≥ 0 ∧ q ≥ 0) := by
  unfold isInt64 at hb hq hr
  by_cases hp : maxInt64 < b + q
  · have hs : wrapInt (q + b) = q + b - 2 ^ 64 := by
      apply wrapInt_above <;> unfold minInt64 maxInt64 at * <;> omega
    have h2 : wrapInt (q + b) < q := by rw [hs]; unfold minInt64 maxInt64 at *; omega
    have h3 : b ≥ 0 ∧ q ≥ 0 := by unfold minInt64 maxInt64 at *; omega
    rw [decide_eq_true h2, decide_eq_true h3]
  · have hs : wrapInt (q + b) = q + b + 2 ^ 64 := by
      apply wrapInt_below <;> unfold minInt64 maxInt64 at * <;> omega
    have h2 : ¬ (wrapInt (q + b) < q) := by rw [hs]; unfold minInt64 maxInt64 at *; omega
    have h3 : ¬ (b ≥ 0 ∧ q ≥ 0) := by unfold minInt64 maxInt64 at *; omega
    rw [decide_eq_false h2, decide_eq_false h3]

/-- C29: for `int64` operands, whenever `add b q` returns no error the value it returns is
the mathematical sum `b + q`, and whenever the mathematical sum is outside the `int64`
range (overflow or underflow) an error is returned: no wrapped sum is ever returned. -/
theorem C29_add_sound (b q : Int) (hb : isInt64 b) (hq : isInt64 q) :
    ((add b q).2 = none → (add b q).1 = b + q) ∧
    (¬ isInt64 (b + q) → (add b q).1 = 0 ∧ (add b q).2 ≠ none) := by
  by_cases hr : isInt64 (b + q)
  · have hs : wrapInt (q + b) = b + q := by
      rw [Int.add_comm q b]; exact wrapInt_of_isInt64 _ hr
    refine ⟨fun h => ?_, fun h => absurd hr h⟩
    unfold add at h ⊢
    simp only [hs] at h ⊢
    split
    · rename_i hc; rw [if_pos hc] at h; simp at h
    · rfl
  · have hc := add_overflow b q hb hq hr
    refine ⟨fun h => ?_, fun _ => ?_⟩
    · unfold add at h
      simp only [] at h
      rw [if_pos hc] at h
      simp at h
    · unfold add
      simp only []
      rw [if_pos hc]
      exact ⟨rfl, by simp⟩

/-- C29 at `add(2, 3)`, which returns 5 and no error, and at
`add(9223372036854775807, 1)`, whose sum is not an `int64` and which returns the error. -/
theorem C29_add_sound_witness :
    (((add 2 3).2 = none → (add 2 3).1 = 2 + 3) ∧
      (¬ isInt64 (2 + 3) → (add 2 3).1 = 0 ∧ (add 2 3).2 ≠ none)) ∧
    (add 2 3).2 = none ∧
    (((add 9223372036854775807 1).2 = none →
        (add 9223372036854775807 1).1 = 9223372036854775807 + 1) ∧
      (¬ isInt64 (9223372036854775807 + 1) →
        (add 9223372036854775807 1).1 = 0 ∧ (add 9223372036854775807 1).2 ≠ none)) ∧
    ¬ isInt64 (9223372036854775807 + 1) :=
  ⟨C29_add_sound 2 3 (by decide) (by decide), by decide,
   C29_add_sound 9223372036854775807 1 (by decide) (by decide), by decide⟩

/-- C30: `add(1, -1)` and `add(5, -3)`, whose sums 0 and 2 are `int64` values, return the
value 0 and the overflow error; so does `add(0, -1)`. -/
theorem C30_add_spurious_error :
    isInt64 (1 + -1) ∧
    add 1 (-1) = (0, some "Math: addition overflow occurred 1 + -1") ∧
    isInt64 (5 + -3) ∧
    add 5 (-3) = (0, some "Math: addition overflow occurred 5 + -3") ∧
    add 0 (-1) = (0, some "Math: addition overflow occurred 0 + -1") := by
  decide

/-! ## `sub` -/

/-- C31 (fails on the code): `sub(-9223372036854775808, 1)`, whose difference is below the
`int64` range, returns the wrapped value 9223372036854775807 and no error; and
`sub(-1, 1)` and `sub(-1, 0)`, whose differences -2 and -1 are `int64` values, return the
value 0 and the overflow error. -/
theorem C31_sub_wraps_and_rejects :
    ¬ isInt64 (-9223372036854775808 - 1) ∧
    sub (-9223372036854775808) 1 = (9223372036854775807, none) ∧
    isInt64 (-1 - 1) ∧
    sub (-1) 1 = (0, some "Math: Subtraction overflow occurred  -1 - 1") ∧
    isInt64 (-1 - 0) ∧
    sub (-1) 0 = (0, some "Math: Subtraction overflow occurred  -1 - 0") := by
  decide

/-! ## The parse errors of `ProcessBidMatch` -/

/-- C32 (fails on the code): `ProcessBidMatch` with the malformed match timestamp `abc` as
its first argument, every other argument well-formed, fails and leaves the ledger as it
was, but its message names `BidStatus`, the field of the third argument: it is the message
that a malformed bid status gives. -/
theorem C32_timestamp_error_names_bid_status :
    ∀ L : GoLib,
      ProcessBidMatch L clock100 emptyStore
          ["abc", "Slot1", "1", "100", "4", "2.5", "1", "3.5", "5", "6", "7"] =
        (.error ("Failed to parse BidStatus: " ++
          NumError.Error L ⟨"ParseInt", "abc", .invalid⟩), emptyStore) ∧
      ProcessBidMatch L clock100 emptyStore
          ["1", "Slot1", "abc", "100", "4", "2.5", "1", "3.5", "5", "6", "7"] =
        (.error ("Failed to parse BidStatus: " ++
          NumError.Error L ⟨"ParseInt", "abc", .invalid⟩), emptyStore) ∧
      NumError.Error exampleLib ⟨"ParseInt", "abc", .invalid⟩ =
        "strconv.ParseInt: parsing \"abc\": invalid syntax" := by
  intro L
  exact ⟨rfl, rfl, by decide⟩

/-! ## `ProcessBidMatch` and the clock -/

/-- C36: `ProcessBidMatch` returns the same response and leaves the same ledger whatever
the clock reads: the only reading it takes, for the match timestamp of a new bid match, is
overwritten by the first argument before the record is stored. -/
theorem C36_process_bid_match_clock_free (L : GoLib) (clock1 clock2 : Clock) (stub : Store)
    (args : List String) :
    ProcessBidMatch L clock1 stub args = ProcessBidMatch L clock2 stub args := by
  unfold ProcessBidMatch
  split
  · rename_i a0 a1 a2 a3 a4 a5 a6 a7 a8 a9 a10
    cases h6 : ParseInt a6 with
    | error e => rfl
    | ok n =>
    simp only [GetState, ProcessBidMatch.load]
    cases hs : stub ("BidMatch_" ++ FormatInt n) with
    | some b => rfl
    | none => rfl
  · rfl

/-! ## Error responses leave the ledger as it was -/

theorem Write_error_or_success (stub : Store) (args : List String) :
    (∃ msg, Write stub args = (.error msg, stub)) ∨ (Write stub args).1 = .success none := by
  by_cases hl : args.length = 2
  · match args, hl with
    | [key, value], _ =>
      rw [Write_two]
      by_cases hk : sane key
      · by_cases hv : sane value
        · rw [if_pos hk, if_pos hv]; exact Or.inr rfl
        · rw [if_pos hk, if_neg hv]; exact Or.inl ⟨_, rfl⟩
      · rw [if_neg hk]; exact Or.inl ⟨_, rfl⟩
  · rw [Write_arity stub args hl]; exact Or.inl ⟨_, rfl⟩

theorem UpdateUserProfile_error_or_success (L : GoLib) (clock : Clock) (stub : Store)
    (args : List String) :
    (∃ msg, UpdateUserProfile L clock stub args = (.error msg, stub)) ∨
      ∃ id u, UpdateUserProfile L clock stub args =
        (.success none, fun k => if k = Itoa id then some (marshalUser u) else stub k) := by
  unfold UpdateUserProfile
  split
  · rename_i a0 a1 a2 a3 a4
    simp only [GetState, parseUserCategory, parseEnergySource]
    cases hsan : sanitize_arguments [a0, a1, a2, a3, a4] with
    | some e => exact Or.inl ⟨_, rfl⟩
    | none =>
      simp only []
      split
      · exact Or.inl ⟨_, rfl⟩
      · cases hid : ParseInt a0 with
        | error e => exact Or.inl ⟨_, rfl⟩
        | ok id =>
          cases hc : userCategoryMap.lookup a1 with
          | none => exact Or.inl ⟨_, rfl⟩
          | some c =>
            cases hs : energySourceMap.lookup a4 with
            | none => exact Or.inl ⟨_, rfl⟩
            | some sc =>
              simp only []
              rw [PutState_ok _ (Itoa id) (marshalUser _) (FormatInt_ne_empty id) rfl]
              exact Or.inr ⟨id, _, rfl⟩
  · exact Or.inl ⟨_, rfl⟩

theorem SignPlatformContract_error_or_success (L : GoLib) (clock : Clock) (stub : Store)
    (args : List String) :
    (∃ msg, SignPlatformContract L clock stub args = (.error msg, stub)) ∨
      ∃ n c, SignPlatformContract L clock stub args =
        (.success none, fun k => if k = "PlatformContract_" ++ FormatInt n then
          some (marshalPlatformContract c) else stub k) := by
  unfold SignPlatformContract
  split
  · rename_i a0
    simp only [GetState]
    cases hs : stub a0 with
    | none => exact Or.inl ⟨_, rfl⟩
    | some b =>
      cases hid : ParseInt a0 with
      | error e => exact Or.inl ⟨_, rfl⟩
      | ok id =>
        simp only []
        rw [PutState_ok _ _ (marshalPlatformContract _) (platformContractKey_ne_empty _) rfl]
        exact Or.inr ⟨id, _, rfl⟩
  · exact Or.inl ⟨_, rfl⟩

theorem RecordPayment_error_or_success (L : GoLib) (clock : Clock) (stub : Store)
    (args : List String) :
    (∃ msg, RecordPayment L clock stub args = (.error msg, stub)) ∨
      (RecordPayment L clock stub args).1 = .success none := by
  unfold RecordPayment
  split
  · rename_i a0 a1 a2 a3 a4 a5 a6 a7 a8 a9 a10 a11
    cases h1 : paymentTypeMap.lookup a1 with
    | none => exact Or.inl ⟨_, rfl⟩
    | some pt =>
      rcases h2 : ParseFloat L a2 with ⟨ta, _ | e⟩
      swap
      · exact Or.inl ⟨_, rfl⟩
      cases h3 : ParseInt a3 with
      | error e => exact Or.inl ⟨_, rfl⟩
      | ok uid =>
        simp only []
        rw [PutState_key _ _ _ (paymentDetailKey_ne_empty _)]
        simp only []
        rw [PutState_key _ _ _ (paymentKey_ne_empty _)]
        exact Or.inr rfl
  · exact Or.inl ⟨_, rfl⟩

theorem RegisterOrder_load_int64 (L : GoLib) (clock : Clock) (existing : Option Bytes)
    (n : Int) (order0 : Order) (readings : Nat) (hn : isInt64 n)
    (hl : RegisterOrder.load L clock existing n = .ok (order0, readings)) :
    isInt64 order0.ID ∧ isInt64 order0.CreatedOn ∧ isInt64 (clock readings).unix := by
  unfold RegisterOrder.load at hl
  cases existing with
  | none =>
    simp only [Except.ok.injEq, Prod.mk.injEq] at hl
    obtain ⟨h1, _⟩ := hl
    subst h1
    exact ⟨hn, (clock 0).unix_int64, (clock readings).unix_int64⟩
  | some b =>
    simp only at hl
    cases hu : unmarshalOrder L b with
    | error e => rw [hu] at hl; exact absurd hl (by simp)
    | ok o =>
      rw [hu] at hl
      simp only [Except.ok.injEq, Prod.mk.injEq] at hl
      obtain ⟨h1, _⟩ := hl
      subst h1
      have hi := unmarshalOrder_int64 L b o hu
      exact ⟨hi.2.2.2.1, hi.2.2.1, (clock readings).unix_int64⟩

theorem ProcessBidMatch_load_int64 (L : GoLib) (clock : Clock) (existing : Option Bytes)
    (n : Int) (bidMatch0 : BidMatch) (hn : isInt64 n)
    (hl : ProcessBidMatch.load L clock existing n = .ok bidMatch0) :
    isInt64 bidMatch0.ID := by
  unfold ProcessBidMatch.load at hl
  cases existing with
  | none =>
    simp only [Except.ok.injEq] at hl
    subst hl
    exact hn
  | some b =>
    simp only at hl
    cases hu : unmarshalBidMatch L b with
    | error e => rw [hu] at hl; exact absurd hl (by simp)
    | ok o =>
      rw [hu] at hl
      simp only [Except.ok.injEq] at hl
      subst hl
      exact (unmarshalBidMatch_int64 L b o hu).2.2.2.2.1

theorem RegisterOrder_error_or_success (L : GoLib) (clock : Clock) (stub : Store)
    (args : List String) :
    (∃ msg, RegisterOrder L clock stub args = (.error msg, stub)) ∨
      ∃ o : Order, o.int64 ∧ RegisterOrder L clock stub args =
        (.success none, fun k => if k = "Order_" ++ FormatInt o.ID then
          (if (marshalOrder L o).isEmpty then none else some (marshalOrder L o))
          else stub k) := by
  unfold RegisterOrder
  split
  · rename_i a0 a1 a2 a3 a4 a5 a6 a7 a8 a9 a10 a11
    cases h2 : ParseInt a2 with
    | error e => exact Or.inl ⟨_, rfl⟩
    | ok n =>
    simp only []
    cases hl : RegisterOrder.load L clock (GetState stub ("Order_" ++ FormatInt n)) n with
    | error e => exact Or.inl ⟨_, rfl⟩
    | ok p =>
    obtain ⟨order0, readings⟩ := p
    simp only []
    cases h0 : ParseInt a0 with
    | error e => exact Or.inl ⟨_, rfl⟩
    | ok bm =>
    simp only []
    cases h1 : ParseInt a1 with
    | error e => exact Or.inl ⟨_, rfl⟩
    | ok bs =>
    simp only []
    split_ifs
    · exact Or.inl ⟨_, rfl⟩
    rcases h4 : ParseFloat L a4 with ⟨oc, _ | e⟩
    swap
    · exact Or.inl ⟨_, rfl⟩
    simp only []
    cases h5 : ParseInt a5 with
    | error e => exact Or.inl ⟨_, rfl⟩
    | ok pid =>
    simp only []
    cases h7 : ParseInt a7 with
    | error e => exact Or.inl ⟨_, rfl⟩
    | ok tq =>
    simp only []
    rcases h8 : ParseFloat L a8 with ⟨uc, _ | e⟩
    swap
    · exact Or.inl ⟨_, rfl⟩
    simp only []
    cases h9 : ParseInt a9 with
    | error e => exact Or.inl ⟨_, rfl⟩
    | ok uid =>
    simp only []
    cases h10 : ParseInt a10 with
    | error e => exact Or.inl ⟨_, rfl⟩
    | ok sed =>
    simp only []
    cases h11 : ParseInt a11 with
    | error e => exact Or.inl ⟨_, rfl⟩
    | ok act =>
    simp only []
    rw [PutState_key _ _ _ (orderKey_ne_empty _)]
    obtain ⟨i1, i2, i3⟩ := RegisterOrder_load_int64 L clock _ n order0 readings
      (ParseInt_isInt64 _ _ h2) hl
    refine Or.inr
      ⟨{ BidMatchID := bm, BidStatus := bs, CreatedOn := order0.CreatedOn, ID := order0.ID,
         OnMarketPrice := a3, OrderCost := oc, PaymentID := pid, SlotID := a6,
         SlotExecDate := sed, TotalQuantity := tq, UnitCost := uc,
         UpdatedOn := (clock readings).unix, UserAction := act, UserID := uid },
       ⟨ParseInt_isInt64 _ _ h0, ParseInt_isInt64 _ _ h1, i2, i1, ParseInt_isInt64 _ _ h5,
        ParseInt_isInt64 _ _ h10, ParseInt_isInt64 _ _ h7, i3, ParseInt_isInt64 _ _ h11,
        ParseInt_isInt64 _ _ h9⟩, rfl⟩
  · exact Or.inl ⟨_, rfl⟩

theorem ProcessBidMatch_error_or_success (L : GoLib) (clock : Clock) (stub : Store)
    (args : List String) :
    (∃ msg, ProcessBidMatch L clock stub args = (.error msg, stub)) ∨
      ∃ m : BidMatch, m.int64 ∧ ProcessBidMatch L clock stub args =
        (.success none, fun k => if k = "BidMatch_" ++ FormatInt m.ID then
          (if (marshalBidMatch L m).isEmpty then none else some (marshalBidMatch L m))
          else stub k) := by
  unfold ProcessBidMatch
  split
  · rename_i a0 a1 a2 a3 a4 a5 a6 a7 a8 a9 a10
    cases h6 : ParseInt a6 with
    | error e => exact Or.inl ⟨_, rfl⟩
    | ok n =>
    simp only []
    cases hl : ProcessBidMatch.load L clock (GetState stub ("BidMatch_" ++ FormatInt n)) n with
    | error e => exact Or.inl ⟨_, rfl⟩
    | ok bidMatch0 =>
    simp only []
    cases h0 : ParseInt a0 with
    | error e => exact Or.inl ⟨_, rfl⟩
    | ok tms =>
    simp only []
    cases h2 : ParseInt a2 with
    | error e => exact Or.inl ⟨_, rfl⟩
    | ok bs =>
    simp only []
    cases h3 : ParseInt a3 with
    | error e => exact Or.inl ⟨_, rfl⟩
    | ok bup =>
    simp only []
    cases h4 : ParseInt a4 with
    | error e => exact Or.inl ⟨_, rfl⟩
    | ok buid =>
    simp only []
    rcases h5 : ParseFloat L a5 with ⟨dbu, _ | e⟩
    swap
    · exact Or.inl ⟨_, rfl⟩
    simp only []
    rcases h7 : ParseFloat L a7 with ⟨obu, _ | e⟩
    swap
    · exact Or.inl ⟨_, rfl⟩
    simp only []
    cases h8 : ParseInt a8 with
    | error e => exact Or.inl ⟨_, rfl⟩
    | ok suid =>
    simp only []
    cases h9 : ParseInt a9 with
    | error e => exact Or.inl ⟨_, rfl⟩
    | ok tb =>
    simp only []
    cases h10 : ParseInt a10 with
    | error e => exact Or.inl ⟨_, rfl⟩
    | ok ts =>
    simp only []
    rw [PutState_key _ _ _ (bidMatchKey_ne_empty _)]
    have i1 := ProcessBidMatch_load_int64 L clock _ n bidMatch0 (ParseInt_isInt64 _ _ h6) hl
    refine Or.inr
      ⟨{ BidMatchTms := tms, BidSlot := a1, BidStatus := bs, BidUnitPrice := bup,
         BuyerUserId := buid, DeliveredBidUnits := dbu, ID := bidMatch0.ID,
         OriginalBidUnits := obu, SellerUserId := suid, TransactionBuyID := tb,
         TransactionSellID := ts },
       ⟨ParseInt_isInt64 _ _ h0, ParseInt_isInt64 _ _ h2, ParseInt_isInt64 _ _ h3,
        ParseInt_isInt64 _ _ h4, i1, ParseInt_isInt64 _ _ h8, ParseInt_isInt64 _ _ h9,
        ParseInt_isInt64 _ _ h10⟩, rfl⟩
  · exact Or.inl ⟨_, rfl⟩

theorem store_of_error (r : Response × Store) (stub : Store)
    (hr : (∃ msg, r = (.error msg, stub)) ∨ r.1.isSuccess = true)
    (h : r.1.isSuccess = false) : r.2 = stub := by
  rcases hr with ⟨msg, e⟩ | e
  · rw [e]
  · rw [e] at h; exact absurd h (by simp)

/-- C33: whatever function name and arguments `Invoke` is given and whatever the ledger
holds, a response that is not a success comes with the ledger as it was before the call.
(In the model a `GetState` never fails and a `PutState` fails only for the empty key, which
no handler passes once its checks are through; every check stands before the first
`PutState` of its handler.) -/
theorem C33_error_leaves_store (L : GoLib) (clock : Clock) (stub : Store) (function : String)
    (args : List String) (h : (Invoke L clock stub function args).1.isSuccess = false) :
    (Invoke L clock stub function args).2 = stub := by
  unfold Invoke at h ⊢
  by_cases c0 : function = "Write"
  · rw [if_pos c0] at h ⊢
    refine store_of_error _ stub ?_ h
    rcases Write_error_or_success stub args with e | e
    · exact Or.inl e
    · right; rw [e]; rfl
  rw [if_neg c0] at h ⊢
  by_cases c1 : function = "UpdateUserProfile"
  · rw [if_pos c1] at h ⊢
    refine store_of_error _ stub ?_ h
    rcases UpdateUserProfile_error_or_success L clock stub args with e | ⟨_, _, e⟩
    · exact Or.inl e
    · right; rw [e]; rfl
  rw [if_neg c1] at h ⊢
  by_cases c2 : function = "SignPlatformContract"
  · rw [if_pos c2] at h ⊢
    refine store_of_error _ stub ?_ h
    rcases SignPlatformContract_error_or_success L clock stub args with e | ⟨_, _, e⟩
    · exact Or.inl e
    · right; rw [e]; rfl
  rw [if_neg c2] at h ⊢
  by_cases c3 : function = "RecordPayment"
  · rw [if_pos c3] at h ⊢
    refine store_of_error _ stub ?_ h
    rcases RecordPayment_error_or_success L clock stub args with e | e
    · exact Or.inl e
    · right; rw [e]; rfl
  rw [if_neg c3] at h ⊢
  by_cases c4 : function = "RegisterOrder"
  · rw [if_pos c4] at h ⊢
    refine store_of_error _ stub ?_ h
    rcases RegisterOrder_error_or_success L clock stub args with e | ⟨_, _, e⟩
    · exact Or.inl e
    · right; rw [e]; rfl
  rw [if_neg c4] at h ⊢
  by_cases c5 : function = "ProcessBidMatch"
  · rw [if_pos c5] at h ⊢
    refine store_of_error _ stub ?_ h
    rcases ProcessBidMatch_error_or_success L clock stub args with e | ⟨_, _, e⟩
    · exact Or.inl e
    · right; rw [e]; rfl
  rw [if_neg c5] at h ⊢
  by_cases c6 : function = "ReadUserProfile"
  · rw [if_pos c6] at h ⊢
    exact ReadUserProfile_store L stub args
  rw [if_neg c6] at h ⊢
  by_cases c7 : function = "ReadPlatformContract"
  · rw [if_pos c7] at h ⊢
    exact ReadPlatformContract_store L stub args
  rw [if_neg c7] at h ⊢
  by_cases c8 : function = "ReadPayment"
  · rw [if_pos c8] at h ⊢
    exact ReadPayment_store stub args
  rw [if_neg c8] at h ⊢
  by_cases c9 : function = "ReadPaymentDetail"
  · rw [if_pos c9] at h ⊢
    exact ReadPaymentDetail_store L stub args
  rw [if_neg c9] at h ⊢
  by_cases c10 : function = "ReadOrder"
  · rw [if_pos c10] at h ⊢
    exact ReadOrder_store L stub args
  rw [if_neg c10] at h ⊢
  by_cases c11 : function = "ReadBidMatch"
  · rw [if_pos c11] at h ⊢
    exact ReadBidMatch_store L stub args
  rw [if_neg c11] at h ⊢

/-- C33 on the ledger `exampleLedger`: `RegisterOrder` for the new order 5 with the bid
status 7, `RecordPayment` with an unknown payment type, and `ReadOrder` for an absent id
return errors and leave the ledger as it was. -/
theorem C33_error_leaves_store_witness :
    (Invoke exampleLib clock200 exampleLedger "RegisterOrder"
      ["1", "7", "5", "2.5", "200", "5", "slot1234", "300", "3.5", "6", "50", "0"]).2 =
      exampleLedger ∧
    (Invoke exampleLib clock200 exampleLedger "RecordPayment"
      ["P2", "Gift", "200", "6", "Alice", "Bob", "2.5", "2.5", "2.5", "2.5", "2.5",
       "3.5"]).2 = exampleLedger ∧
    (Invoke exampleLib clock200 exampleLedger "ReadOrder" ["99"]).2 = exampleLedger :=
  ⟨C33_error_leaves_store exampleLib clock200 exampleLedger "RegisterOrder"
      ["1", "7", "5", "2.5", "200", "5", "slot1234", "300", "3.5", "6", "50", "0"]
      (by decide),
   C33_error_leaves_store exampleLib clock200 exampleLedger "RecordPayment"
      ["P2", "Gift", "200", "6", "Alice", "Bob", "2.5", "2.5", "2.5", "2.5", "2.5", "3.5"]
      (by decide),
   C33_error_leaves_store exampleLib clock200 exampleLedger "ReadOrder" ["99"] (by decide)⟩

/-! ## The key `RegisterOrder` writes to -/

/-- Whatever the ledger holds, a call of `RegisterOrder` changes no key outside the
`Order_` keys. -/
theorem RegisterOrder_frame (L : GoLib) (clock : Clock) (stub : Store) (args : List String)
    (k : String) (hk : ∀ x, k ≠ "Order_" ++ x) :
    (RegisterOrder L clock stub args).2 k = stub k := by
  rcases RegisterOrder_error_or_success L clock stub args with ⟨_, e⟩ | ⟨o, _, e⟩
  · rw [e]
  · rw [e]
    simp only [hk, if_false]

/-- Whatever the ledger holds, a call of `ProcessBidMatch` changes no key outside the
`BidMatch_` keys. -/
theorem ProcessBidMatch_frame (L : GoLib) (clock : Clock) (stub : Store)
    (args : List String) (k : String) (hk : ∀ x, k ≠ "BidMatch_" ++ x) :
    (ProcessBidMatch L clock stub args).2 k = stub k := by
  rcases ProcessBidMatch_error_or_success L clock stub args with ⟨_, e⟩ | ⟨o, _, e⟩
  · rw [e]
  · rw [e]
    simp only [hk, if_false]

/-- C35 (fails on the code): `Write(["Order_5", "\x7b"id":7\x7d"])` puts under `Order_5`
the JSON text of an order whose id is 7. `RegisterOrder` with the order id 5 then loads
that order, succeeds, and writes it back under `Order_7`, the key of the stored id: the
value of `Order_7` changes and the value under `Order_5`, the key of the order id
argument, stays the text that `Write` put. -/
theorem C35_written_to_stored_id :
    Write emptyStore ["Order_5", "\x7b\"id\":7\x7d"] =
      (.success none,
        fun k => if k = "Order_5" then some (.text "\x7b\"id\":7\x7d") else emptyStore k) ∧
    (RegisterOrder scanLib clock100 (Write emptyStore ["Order_5", "\x7b\"id\":7\x7d"]).2
      ["1", "0", "5", "2.5", "200", "5", "slot1234", "300", "3.5", "6", "50", "0"]).1 =
      .success none ∧
    (Write emptyStore ["Order_5", "\x7b\"id\":7\x7d"]).2 "Order_7" = none ∧
    (RegisterOrder scanLib clock100 (Write emptyStore ["Order_5", "\x7b\"id\":7\x7d"]).2
      ["1", "0", "5", "2.5", "200", "5", "slot1234", "300", "3.5", "6", "50", "0"]).2
      "Order_7" =
      some (marshalOrder scanLib
        { BidMatchID := 1, BidStatus := 0, CreatedOn := 0, ID := 7, OnMarketPrice := "2.5",
          OrderCost := .fin 0x4069000000000000, PaymentID := 5, SlotID := "slot1234",
          SlotExecDate := 50, TotalQuantity := 300, UnitCost := .fin 0x400C000000000000,
          UpdatedOn := 100, UserAction := 0, UserID := 6 }) ∧
    (RegisterOrder scanLib clock100 (Write emptyStore ["Order_5", "\x7b\"id\":7\x7d"]).2
      ["1", "0", "5", "2.5", "200", "5", "slot1234", "300", "3.5", "6", "50", "0"]).2
      "Order_5" = some (.text "\x7b\"id\":7\x7d") ∧
    "Order_7" ≠ "Order_" ++ FormatInt 5 := by
  refine ⟨rfl, by decide, by decide, by decide, by decide, by decide⟩

/-! ## Stored ids and keys -/

theorem ordersKeyed_update (L : GoLib) (stub : Store) (o : Order) (ho : o.int64)
    (hinv : OrdersKeyed L stub) :
    OrdersKeyed L (fun k => if k = "Order_" ++ FormatInt o.ID then
      (if (marshalOrder L o).isEmpty then none else some (marshalOrder L o)) else stub k) := by
  intro n hn b hb
  simp only at hb
  by_cases hk : "Order_" ++ FormatInt n = "Order_" ++ FormatInt o.ID
  · rw [if_pos hk] at hb
    have hid : n = o.ID := FormatInt_injective n o.ID hn ho.2.2.2.1 (orderKey_injective _ _ hk)
    by_cases hf : o.OrderCost.isFinite = true ∧ o.UnitCost.isFinite = true
    · rw [marshalOrder_finite L o hf.1 hf.2] at hb
      simp only [Bytes.isEmpty, Bool.false_eq_true, if_false, Option.some.injEq] at hb
      exact ⟨o, ho, hid.symm, hf.1, hf.2, hb.symm⟩
    · have he : marshalOrder L o = .text "" := by
        unfold marshalOrder
        rw [if_neg hf]
      rw [he] at hb
      simp [Bytes.isEmpty] at hb
  · rw [if_neg hk] at hb
    exact hinv n hn b hb

theorem bidMatchesKeyed_update (L : GoLib) (stub : Store) (m : BidMatch) (hm : m.int64)
    (hinv : BidMatchesKeyed L stub) :
    BidMatchesKeyed L (fun k => if k = "BidMatch_" ++ FormatInt m.ID then
      (if (marshalBidMatch L m).isEmpty then none else some (marshalBidMatch L m))
      else stub k) := by
  intro n hn b hb
  simp only at hb
  by_cases hk : "BidMatch_" ++ FormatInt n = "BidMatch_" ++ FormatInt m.ID
  · rw [if_pos hk] at hb
    have hid : n = m.ID :=
      FormatInt_injective n m.ID hn hm.2.2.2.2.1 (prefix_cancel "BidMatch_" _ _ hk)
    by_cases hf : m.DeliveredBidUnits.isFinite = true ∧ m.OriginalBidUnits.isFinite = true
    · rw [marshalBidMatch_finite L m hf.1 hf.2] at hb
      simp only [Bytes.isEmpty, Bool.false_eq_true, if_false, Option.some.injEq] at hb
      exact ⟨m, hm, hid.symm, hf.1, hf.2, hb.symm⟩
    · have he : marshalBidMatch L m = .text "" := by
        unfold marshalBidMatch
        rw [if_neg hf]
      rw [he] at hb
      simp [Bytes.isEmpty] at hb
  · rw [if_neg hk] at hb
    exact hinv n hn b hb

/-- A store that agrees with `stub` on the `Order_` and `BidMatch_` keys keeps both
invariants. -/
theorem keyed_of_agree (L : GoLib) (stub s : Store)
    (hO : ∀ x, s ("Order_" ++ x) = stub ("Order_" ++ x))
    (hB : ∀ x, s ("BidMatch_" ++ x) = stub ("BidMatch_" ++ x))
    (hinv : OrdersKeyed L stub ∧ BidMatchesKeyed L stub) :
    OrdersKeyed L s ∧ BidMatchesKeyed L s := by
  constructor
  · intro n hn b hb
    rw [hO] at hb
    exact hinv.1 n hn b hb
  · intro n hn b hb
    rw [hB] at hb
    exact hinv.2 n hn b hb

theorem itoa_ne_orderKey (i : Int) (x : String) : "Order_" ++ x ≠ Itoa i := fun h =>
  Itoa_ne_of_head i _ 'O' _ (by simp [String.data_append]; rfl) (by decide) h.symm

theorem itoa_ne_bidMatchKey (i : Int) (x : String) : "BidMatch_" ++ x ≠ Itoa i := fun h =>
  Itoa_ne_of_head i _ 'B' _ (by simp [String.data_append]; rfl) (by decide) h.symm

/-- The two invariants hold in every ledger reachable through the five domain write
handlers. -/
theorem reachable_keyed (L : GoLib) (s : Store) (hr : ReachableByWriters L s) :
    OrdersKeyed L s ∧ BidMatchesKeyed L s := by
  induction hr with
  | empty =>
    constructor
    · intro n _ b hb; exact absurd hb (by simp [emptyStore])
    · intro n _ b hb; exact absurd hb (by simp [emptyStore])
  | updateUserProfile clock stub args _ ih =>
    rcases UpdateUserProfile_error_or_success L clock stub args with ⟨_, e⟩ | ⟨id, u, e⟩
    · rw [e]; exact ih
    · rw [e]
      refine keyed_of_agree L stub _ (fun x => ?_) (fun x => ?_) ih
      · simp only [itoa_ne_orderKey id x, if_false]
      · simp only [itoa_ne_bidMatchKey id x, if_false]
  | signPlatformContract clock stub args _ ih =>
    rcases SignPlatformContract_error_or_success L clock stub args with ⟨_, e⟩ | ⟨n, c, e⟩
    · rw [e]; exact ih
    · rw [e]
      refine keyed_of_agree L stub _ (fun x => ?_) (fun x => ?_) ih
      · simp only [(platformContractKey_ne_order _ x).symm, if_false]
      · simp only [(platformContractKey_ne_bidMatch _ x).symm, if_false]
  | recordPayment clock stub args _ ih =>
    refine keyed_of_agree L stub _ (fun x => ?_) (fun x => ?_) ih
    · exact RecordPayment_frame L clock stub args _
        (fun a0 _ => (paymentKey_ne_order a0 x).symm) (paymentDetailKey_ne_order _ x).symm
    · exact RecordPayment_frame L clock stub args _
        (fun a0 _ => (paymentKey_ne_bidMatch a0 x).symm)
        (paymentDetailKey_ne_bidMatch _ x).symm
  | registerOrder clock stub args _ ih =>
    rcases RegisterOrder_error_or_success L clock stub args with ⟨_, e⟩ | ⟨o, ho, e⟩
    · rw [e]; exact ih
    · rw [e]
      refine ⟨ordersKeyed_update L stub o ho ih.1, ?_⟩
      intro n hn b hb
      simp only [(orderKey_ne_bidMatch _ _).symm, if_false] at hb
      exact ih.2 n hn b hb
  | processBidMatch clock stub args _ ih =>
    rcases ProcessBidMatch_error_or_success L clock stub args with ⟨_, e⟩ | ⟨m, hm, e⟩
    · rw [e]; exact ih
    · rw [e]
      refine ⟨?_, bidMatchesKeyed_update L stub m hm ih.2⟩
      intro n hn b hb
      simp only [orderKey_ne_bidMatch, if_false] at hb
      exact ih.1 n hn b hb

/-- C34: in every ledger reachable from the empty one through the five domain write
handlers, the value under a key `Order_<n>` is the encoding of an order `o` with id `n`:
whatever it decodes to has the id `n`, and it decodes to `o` as it was written (its strings
with U+FFFD for bytes that are not valid UTF-8) when the library reads the two cost numbers
back from the JSON numbers written for them (as Go does for every finite `float64`). The same holds for the value under a key `BidMatch_<n>` and its two
unit numbers. -/
theorem C34_stored_id_is_key (L : GoLib) (s : Store) (n : Int)
    (hr : ReachableByWriters L s) (hn : isInt64 n) :
    (∀ b, s ("Order_" ++ FormatInt n) = some b →
      ∃ o : Order, o.ID = n ∧ b = marshalOrder L o ∧
        (∀ o1, unmarshalOrder L b = .ok o1 → o1.ID = n) ∧
        (L.readsBack o.OrderCost → L.readsBack o.UnitCost →
          unmarshalOrder L b = .ok o.written)) ∧
    (∀ b, s ("BidMatch_" ++ FormatInt n) = some b →
      ∃ m : BidMatch, m.ID = n ∧ b = marshalBidMatch L m ∧
        (∀ m1, unmarshalBidMatch L b = .ok m1 → m1.ID = n) ∧
        (L.readsBack m.DeliveredBidUnits → L.readsBack m.OriginalBidUnits →
          unmarshalBidMatch L b = .ok m.written)) := by
  obtain ⟨hO, hB⟩ := reachable_keyed L s hr
  constructor
  · intro b hb
    obtain ⟨o, ho, hid, f1, f2, e⟩ := hO n hn b hb
    refine ⟨o, hid, ?_, ?_, ?_⟩
    · rw [marshalOrder_finite L o f1 f2]; exact e
    · intro o1 h1
      rw [e] at h1
      rw [← hid]
      exact (unmarshalOrder_encode L o o1 ho h1).1
    · intro r1 r2
      rw [e, ← marshalOrder_finite L o f1 f2]
      exact unmarshalOrder_marshalOrder L o ho r1 r2
  · intro b hb
    obtain ⟨m, hm, hid, f1, f2, e⟩ := hB n hn b hb
    refine ⟨m, hid, ?_, ?_, ?_⟩
    · rw [marshalBidMatch_finite L m f1 f2]; exact e
    · intro m1 h1
      rw [e] at h1
      rw [← hid]
      exact unmarshalBidMatch_encode L m m1 hm h1
    · intro r1 r2
      rw [e, ← marshalBidMatch_finite L m f1 f2]
      exact unmarshalBidMatch_marshalBidMatch L m hm r1 r2

/-- C34 on the ledger `exampleLedger`, which the five handlers produce from the empty
ledger, at the order key `Order_4` and at the bid match key `BidMatch_1`. -/
theorem C34_stored_id_is_key_witness :
    (exampleLedger ("Order_" ++ FormatInt 4)).isSome = true ∧
    (∀ b, exampleLedger ("Order_" ++ FormatInt 4) = some b →
      ∃ o : Order, o.ID = 4 ∧ b = marshalOrder exampleLib o ∧
        (∀ o1, unmarshalOrder exampleLib b = .ok o1 → o1.ID = 4) ∧
        (exampleLib.readsBack o.OrderCost → exampleLib.readsBack o.UnitCost →
          unmarshalOrder exampleLib b = .ok o.written)) ∧
    (exampleLedger ("BidMatch_" ++ FormatInt 1)).isSome = true ∧
    (∀ b, exampleLedger ("BidMatch_" ++ FormatInt 1) = some b →
      ∃ m : BidMatch, m.ID = 1 ∧ b = marshalBidMatch exampleLib m ∧
        (∀ m1, unmarshalBidMatch exampleLib b = .ok m1 → m1.ID = 1) ∧
        (exampleLib.readsBack m.DeliveredBidUnits →
          exampleLib.readsBack m.OriginalBidUnits →
          unmarshalBidMatch exampleLib b = .ok m.written)) :=
  ⟨by decide,
   (C34_stored_id_is_key exampleLib exampleLedger 4
     (.processBidMatch _ _ _ (.registerOrder _ _ _ (.recordPayment _ _ _
      (.signPlatformContract _ _ _ (.updateUserProfile _ _ _ .empty))))) (by decide)).1,
   by decide,
   (C34_stored_id_is_key exampleLib exampleLedger 1
     (.processBidMatch _ _ _ (.registerOrder _ _ _ (.recordPayment _ _ _
      (.signPlatformContract _ _ _ (.updateUserProfile _ _ _ .empty))))) (by decide)).2⟩

end EnergyTrading
